import Mathlib

/-!
Doctor Appointment API: appointment lifecycle and authorization

A shallow embedding of `controllers/appointmentController.js`,
`controllers/doctorController.js`, `signup` and `login` of
`controllers/authController.js` and the `catch` branches of
`controllers/aiController.js` and `server.js`, together with the Mongoose
schemas `models/Appointment.js` and `models/Doctor.js`.

Conventions of the embedding.

* A collection is a list of documents in insertion order. `findById` and
  `findOne` return the first matching document, `save` and
  `findByIdAndUpdate` rewrite the first document carrying the id.
* An `ObjectId` is a natural number; the comparisons
  `a.toString() !== b.toString()` of the handlers are comparisons of ids.
  The handlers take the id a route parameter or a body field casts to; text
  that does not cast to an ObjectId is an `IdText.malformed`, and
  `createAppointmentRequest` and `deleteDoctorRequest` are the handlers on
  the text as sent, with the `CastError` of the first lookup.
* A handler is a function from the store, the authenticated user `req.user`
  and the request to the HTTP response and the store it leaves.
* A JSON request body is a record of optional fields: `none` is an absent
  field, a present field already has the JavaScript type the schema casts to.
  Enumerated strings stay strings in a body and are checked against the
  schema's `enum` list where Mongoose validates them. The body of
  `updateAppointment`, which reaches `findByIdAndUpdate` as it is, also
  carries the pairs sent under update operators.
* The `populate` joins of the responses only inline referenced documents; a
  response carries the plain document. Where a handler reads a populated
  reference (`getAppointmentById`), the lookup of the reference is embedded.
* The `createdAt` and `updatedAt` stamps that `timestamps: true` lets the
  persistence library maintain from the wall clock are not part of the
  embedded documents.
* Storage failures (a rejected promise of the driver) are outside the model
  of the appointment and doctor handlers, whose `catch` branch is reached
  through cast errors, validation errors and reads of a `null` reference
  only. `signup` and `login` handle an unreachable MongoDB themselves, so
  there the reachability is an argument of the handler.
-/

namespace DoctorAppointment

/-! ## Data model -/

/-- Identifier of a stored document (`mongoose.Schema.Types.ObjectId`). -/
abbrev ObjectId := Nat

/-- A JavaScript `Date`, as milliseconds since the epoch. -/
abbrev Date := Int

/-- The text a client sends where a query expects an ObjectId (a route
parameter `:id`, the `doctorId` of a body): the 24 hexadecimal digits of an
ObjectId, or text that is none, such as `abc`. -/
inductive IdText where
  | objectId (id : ObjectId)
  | malformed
  deriving DecidableEq, Repr

/-- The cast of Mongoose from the text to an ObjectId; `none` is the
`CastError` that `findById` throws for text that is no ObjectId. -/
def IdText.cast : IdText → Option ObjectId
  | IdText.objectId id => some id
  | IdText.malformed => none

/-- Modelled from the spec: `models/User.js` is not among the sources. The role
of a user is one of `patient`, `doctor`, `admin`. -/
inductive Role where
  | patient
  | doctor
  | admin
  deriving DecidableEq, Repr

/-- Modelled from the spec: `models/User.js` is not among the sources. The
identity record: unique id, name, email, password, phone and role. The handlers
read `_id` and `role` of the authenticated user `req.user`. -/
structure User where
  _id : ObjectId
  name : String
  email : String
  password : String
  phone : String
  role : Role
  deriving DecidableEq, Repr

/-- The `status` enum of `appointmentSchema`; `noShow` is the string `no-show`. -/
inductive Status where
  | pending
  | confirmed
  | cancelled
  | completed
  | noShow
  deriving DecidableEq, Repr

/-- The `appointmentType` enum of `appointmentSchema`. -/
inductive AppointmentType where
  | inPerson
  | video
  | phone
  deriving DecidableEq, Repr

/-- The `paymentStatus` enum of `appointmentSchema`. -/
inductive PaymentStatus where
  | pending
  | paid
  | refunded
  deriving DecidableEq, Repr

/-- The `cancelledBy` enum of `appointmentSchema`. -/
inductive CancelledBy where
  | patient
  | doctor
  | admin
  deriving DecidableEq, Repr

/-- One entry of `prescription.medications`. -/
structure Medication where
  name : Option String
  dosage : Option String
  frequency : Option String
  duration : Option String
  deriving DecidableEq, Repr

/-- The nested `prescription` record of `appointmentSchema`. -/
structure Prescription where
  medications : List Medication
  instructions : Option String
  deriving DecidableEq, Repr

/-- A stored appointment document (`appointmentSchema`). -/
structure Appointment where
  _id : ObjectId
  patientId : ObjectId
  doctorId : ObjectId
  appointmentDate : Date
  startTime : String
  endTime : String
  status : Status
  appointmentType : AppointmentType
  reason : String
  symptoms : List String
  notes : Option String
  prescription : Option Prescription
  paymentStatus : PaymentStatus
  amount : Int
  cancellationReason : Option String
  cancelledBy : Option CancelledBy
  reminderSent : Bool
  deriving DecidableEq, Repr

/-- One entry of `availability` (`timeSlotSchema`). -/
structure TimeSlot where
  day : String
  startTime : String
  endTime : String
  isAvailable : Bool
  deriving DecidableEq, Repr

/-- The nested `education` record of `doctorSchema`. -/
structure Education where
  degree : Option String
  institution : Option String
  yearOfGraduation : Option Int
  deriving DecidableEq, Repr

/-- One entry of `certifications`. -/
structure Certification where
  name : Option String
  issuingAuthority : Option String
  year : Option Int
  deriving DecidableEq, Repr

/-- A stored doctor profile (`doctorSchema`). -/
structure Doctor where
  _id : ObjectId
  userId : ObjectId
  specialization : String
  licenseNumber : String
  experience : Int
  education : Option Education
  certifications : List Certification
  languages : List String
  consultationFee : Int
  availability : List TimeSlot
  bio : Option String
  rating : Int
  totalReviews : Int
  isAvailable : Bool
  profileImage : Option String
  deriving DecidableEq, Repr

/-- The three collections a handler works on. -/
structure Store where
  users : List User
  doctors : List Doctor
  appointments : List Appointment
  deriving DecidableEq, Repr

/-- Payload of a JSON response. -/
inductive Payload where
  | message (text : String)
  | appointment (doc : Appointment)
  | appointments (docs : List Appointment)
  | doctor (doc : Doctor)
  | account (_id : ObjectId) (name email phone : Option String) (role : Role)
  | failure (message : String) (error : Option String)
  deriving DecidableEq, Repr

/-- An HTTP response: `res.status(status).json(body)`. -/
structure Response where
  status : Nat
  body : Payload
  deriving DecidableEq, Repr

/-! ## Schema enums and validators -/

/-- Membership of a string in the `status` enum. -/
def Status.ofString : String → Option Status
  | "pending" => some .pending
  | "confirmed" => some .confirmed
  | "cancelled" => some .cancelled
  | "completed" => some .completed
  | "no-show" => some .noShow
  | _ => none

/-- The string a stored status is (`status` enum of `appointmentSchema`). -/
def Status.toString : Status → String
  | .pending => "pending"
  | .confirmed => "confirmed"
  | .cancelled => "cancelled"
  | .completed => "completed"
  | .noShow => "no-show"

/-- Membership of a string in the `appointmentType` enum. -/
def AppointmentType.ofString : String → Option AppointmentType
  | "in-person" => some .inPerson
  | "video" => some .video
  | "phone" => some .phone
  | _ => none

/-- Membership of a string in the `paymentStatus` enum. -/
def PaymentStatus.ofString : String → Option PaymentStatus
  | "pending" => some .pending
  | "paid" => some .paid
  | "refunded" => some .refunded
  | _ => none

/-- Membership of a string in the `cancelledBy` enum. -/
def CancelledBy.ofString : String → Option CancelledBy
  | "patient" => some .patient
  | "doctor" => some .doctor
  | "admin" => some .admin
  | _ => none

/-- Mongoose's `required` validator on a `String` path: the value is present
and not the empty string. -/
def requiredString : Option String → Option String
  | some v => if v.length = 0 then none else some v
  | none => none

/-! ## Queries -/

/-- `Doctor.findById(id)` for an id that is absent or has been cast to an
ObjectId (`IdText.cast`); an absent id finds nothing. -/
def Doctor.findById (doctors : List Doctor) (id : Option ObjectId) : Option Doctor :=
  doctors.find? (fun d => some d._id == id)

/-- `User.findById(id)`, also the lookup behind `populate` of a user
reference. -/
def User.findById (users : List User) (id : ObjectId) : Option User :=
  users.find? (fun u => u._id == id)

/-- `Appointment.findById(id)`. -/
def Appointment.findById (docs : List Appointment) (id : ObjectId) : Option Appointment :=
  docs.find? (fun a => a._id == id)

/-- The filter `status: { $nin: ['cancelled', 'no-show'] }`. -/
def statusNotCancelledOrNoShow (a : Appointment) : Bool :=
  a.status != Status.cancelled && a.status != Status.noShow

/-- The first `findOne` of `createAppointment`: the doctor's slot. -/
def findDoctorConflict (docs : List Appointment) (doctorId : Option ObjectId) (date : Date)
    (startTime : Option String) : Option Appointment :=
  docs.find? (fun a => some a.doctorId == doctorId && a.appointmentDate == date
    && some a.startTime == startTime && statusNotCancelledOrNoShow a)

/-- The second `findOne` of `createAppointment`: the patient's slot. -/
def findPatientConflict (docs : List Appointment) (patientId : ObjectId) (date : Date)
    (startTime : Option String) : Option Appointment :=
  docs.find? (fun a => a.patientId == patientId && a.appointmentDate == date
    && some a.startTime == startTime && statusNotCancelledOrNoShow a)

/-- The collection after `doc.save()`, and after the write of
`findByIdAndUpdate`: the first document that carries the id of `doc` is
replaced by `doc`. -/
def Appointment.save (doc : Appointment) : List Appointment → List Appointment
  | [] => []
  | a :: rest => if a._id == doc._id then doc :: rest else a :: Appointment.save doc rest

/-! ## createAppointment -/

/-- The JSON body of `POST /api/appointments`. The handler destructures the
first seven fields; `patientId`, `status` and `amount` stand for fields a
client may send that the handler never reads. `appointmentDate` is the value of
`new Date(appointmentDate)`: `none` is an Invalid Date (field absent or not
parseable). -/
structure CreateBody where
  doctorId : Option ObjectId
  appointmentDate : Option Date
  startTime : Option String
  endTime : Option String
  appointmentType : Option String
  reason : Option String
  symptoms : Option (List String)
  patientId : Option ObjectId
  status : Option String
  amount : Option Int
  deriving DecidableEq, Repr

/-- The response of every `catch` branch of the appointment controller. -/
def serverError : Response :=
  { status := 500, body := Payload.message "Server error" }

/-- The `appointmentType` path on insertion: the schema default `in-person`
when the field is absent, otherwise the enum validator decides. -/
def castAppointmentType : Option String → Option AppointmentType
  | none => some AppointmentType.inPerson
  | some t => AppointmentType.ofString t

/-- `Appointment.create` of `createAppointment`: the document built from the
given fields and the schema defaults, or `none` when a schema validator rejects
it (`startTime`, `endTime`, `reason` required, `appointmentType` in its enum). -/
def Appointment.create (newId : ObjectId) (patientId doctorId : ObjectId) (date : Date)
    (startTime endTime appointmentType reason : Option String)
    (symptoms : Option (List String)) (amount : Int) : Option Appointment :=
  match requiredString startTime, requiredString endTime, requiredString reason,
      castAppointmentType appointmentType with
  | some st, some et, some rs, some ty =>
    some { _id := newId, patientId := patientId, doctorId := doctorId,
           appointmentDate := date, startTime := st, endTime := et,
           status := Status.pending, appointmentType := ty,
           reason := rs, symptoms := symptoms.getD [], notes := none,
           prescription := none, paymentStatus := PaymentStatus.pending,
           amount := amount, cancellationReason := none, cancelledBy := none,
           reminderSent := false }
  | _, _, _, _ => none

/-- `createAppointment` (appointmentController.js, lines 8-79). `newId` is the
ObjectId the driver generates for the inserted document. -/
def createAppointment (s : Store) (user : User) (body : CreateBody) (newId : ObjectId) :
    Response × Store :=
  match Doctor.findById s.doctors body.doctorId with
  | none => ({ status := 404, body := Payload.message "Doctor not found" }, s)
  | some doctor =>
    if !doctor.isAvailable then
      ({ status := 400, body := Payload.message "Doctor is not available" }, s)
    else
      match body.appointmentDate with
      | none => (serverError, s)
      | some date =>
        match findDoctorConflict s.appointments body.doctorId date body.startTime with
        | some _ => ({ status := 400, body := Payload.message "Time slot is already booked" }, s)
        | none =>
          match findPatientConflict s.appointments user._id date body.startTime with
          | some _ =>
            ({ status := 400,
               body := Payload.message "You already have an appointment at this time" }, s)
          | none =>
            match Appointment.create newId user._id doctor._id date body.startTime
                body.endTime body.appointmentType body.reason body.symptoms
                doctor.consultationFee with
            | none => (serverError, s)
            | some appointment =>
              ({ status := 201, body := Payload.appointment appointment },
               { s with appointments := s.appointments ++ [appointment] })

/-- The cast of the `doctorId` of a body by `Doctor.findById(doctorId)`
(line 21): an absent field stays absent, text that is no ObjectId throws
(`none`). -/
def castDoctorId : Option IdText → Option (Option ObjectId)
  | none => some none
  | some text => text.cast.map some

/-- `createAppointment` (lines 8-79) on the `doctorId` as sent; `body` gives the
other fields. The `CastError` of `Doctor.findById(doctorId)` (line 21) reaches
the `catch` branch (lines 75-78) before anything else is read or written. -/
def createAppointmentRequest (s : Store) (user : User) (doctorId : Option IdText)
    (body : CreateBody) (newId : ObjectId) : Response × Store :=
  match castDoctorId doctorId with
  | none => (serverError, s)
  | some id => createAppointment s user { body with doctorId := id } newId

/-! ## updateAppointment -/

/-- The paths of `appointmentSchema` that an update can write (`_id` is
immutable; `createdAt` and `updatedAt` are left out of the model). -/
inductive SchemaPath where
  | patientId
  | doctorId
  | appointmentDate
  | startTime
  | endTime
  | status
  | appointmentType
  | reason
  | symptoms
  | notes
  | prescription
  | paymentStatus
  | amount
  | cancellationReason
  | cancelledBy
  | reminderSent
  deriving DecidableEq, Repr

/-- One `path: argument` pair under an update operator of the body (`$set`,
`$unset`, `$inc`, `$mul`, `$min`, `$max`, `$rename`, `$currentDate`, `$push`,
...). `updateAppointment` hands `req.body` to `findByIdAndUpdate` as it is
(lines 205-208), so MongoDB honours these keys. The constructor is the schema
path the pair writes (for `$rename` both the source and the target are written);
`value` is what the server makes of the pair: the value it writes at that path,
computed from the stored document, or `none` when the update is refused (a
failed cast, a failed update validator, an operator that does not apply to the
stored value). `{"$set": {"startTime": "09:00"}}` is
`OperatorEntry.startTime (fun _ => some "09:00")` and
`{"$inc": {"amount": -150}}` is
`OperatorEntry.amount (fun stored => some (stored.amount - 150))`. -/
inductive OperatorEntry where
  | patientId (value : Appointment → Option ObjectId)
  | doctorId (value : Appointment → Option ObjectId)
  | appointmentDate (value : Appointment → Option Date)
  | startTime (value : Appointment → Option String)
  | endTime (value : Appointment → Option String)
  | status (value : Appointment → Option Status)
  | appointmentType (value : Appointment → Option AppointmentType)
  | reason (value : Appointment → Option String)
  | symptoms (value : Appointment → Option (List String))
  | notes (value : Appointment → Option (Option String))
  | prescription (value : Appointment → Option (Option Prescription))
  | paymentStatus (value : Appointment → Option PaymentStatus)
  | amount (value : Appointment → Option Int)
  | cancellationReason (value : Appointment → Option (Option String))
  | cancelledBy (value : Appointment → Option (Option CancelledBy))
  | reminderSent (value : Appointment → Option Bool)

/-- The schema path an operator entry writes. -/
def OperatorEntry.path : OperatorEntry → SchemaPath
  | OperatorEntry.patientId _ => SchemaPath.patientId
  | OperatorEntry.doctorId _ => SchemaPath.doctorId
  | OperatorEntry.appointmentDate _ => SchemaPath.appointmentDate
  | OperatorEntry.startTime _ => SchemaPath.startTime
  | OperatorEntry.endTime _ => SchemaPath.endTime
  | OperatorEntry.status _ => SchemaPath.status
  | OperatorEntry.appointmentType _ => SchemaPath.appointmentType
  | OperatorEntry.reason _ => SchemaPath.reason
  | OperatorEntry.symptoms _ => SchemaPath.symptoms
  | OperatorEntry.notes _ => SchemaPath.notes
  | OperatorEntry.prescription _ => SchemaPath.prescription
  | OperatorEntry.paymentStatus _ => SchemaPath.paymentStatus
  | OperatorEntry.amount _ => SchemaPath.amount
  | OperatorEntry.cancellationReason _ => SchemaPath.cancellationReason
  | OperatorEntry.cancelledBy _ => SchemaPath.cancelledBy
  | OperatorEntry.reminderSent _ => SchemaPath.reminderSent

/-- The write of one operator entry into the document `a` under construction;
the value is computed from `stored`, the document in the collection. -/
def OperatorEntry.apply (stored a : Appointment) : OperatorEntry → Option Appointment
  | OperatorEntry.patientId value => (value stored).map (fun v => { a with patientId := v })
  | OperatorEntry.doctorId value => (value stored).map (fun v => { a with doctorId := v })
  | OperatorEntry.appointmentDate value =>
    (value stored).map (fun v => { a with appointmentDate := v })
  | OperatorEntry.startTime value => (value stored).map (fun v => { a with startTime := v })
  | OperatorEntry.endTime value => (value stored).map (fun v => { a with endTime := v })
  | OperatorEntry.status value => (value stored).map (fun v => { a with status := v })
  | OperatorEntry.appointmentType value =>
    (value stored).map (fun v => { a with appointmentType := v })
  | OperatorEntry.reason value => (value stored).map (fun v => { a with reason := v })
  | OperatorEntry.symptoms value => (value stored).map (fun v => { a with symptoms := v })
  | OperatorEntry.notes value => (value stored).map (fun v => { a with notes := v })
  | OperatorEntry.prescription value =>
    (value stored).map (fun v => { a with prescription := v })
  | OperatorEntry.paymentStatus value =>
    (value stored).map (fun v => { a with paymentStatus := v })
  | OperatorEntry.amount value => (value stored).map (fun v => { a with amount := v })
  | OperatorEntry.cancellationReason value =>
    (value stored).map (fun v => { a with cancellationReason := v })
  | OperatorEntry.cancelledBy value =>
    (value stored).map (fun v => { a with cancelledBy := v })
  | OperatorEntry.reminderSent value =>
    (value stored).map (fun v => { a with reminderSent := v })

/-- The writes of all operator entries of a body, or `none` when one of them is
refused and the whole update fails. -/
def applyOperators (stored : Appointment) : List OperatorEntry → Appointment → Option Appointment
  | [], a => some a
  | entry :: rest, a =>
    match entry.apply stored a with
    | none => none
    | some written => applyOperators stored rest written

/-- The JSON body of `PUT /api/appointments/:id`: any subset of the paths of
`appointmentSchema` as top-level keys, which Mongoose treats as a `$set`, and
the pairs under update operators in `operators`; paths outside the schema are
dropped by Mongoose. -/
structure UpdateBody where
  patientId : Option ObjectId
  doctorId : Option ObjectId
  appointmentDate : Option Date
  startTime : Option String
  endTime : Option String
  status : Option String
  appointmentType : Option String
  reason : Option String
  symptoms : Option (List String)
  notes : Option String
  prescription : Option Prescription
  paymentStatus : Option String
  amount : Option Int
  cancellationReason : Option String
  cancelledBy : Option String
  reminderSent : Option Bool
  operators : List OperatorEntry

/-- An update of a required `String` path under `runValidators: true`: the old
value when the body has no such field, `none` when the validator rejects. -/
def setRequiredString (old : String) : Option String → Option String
  | none => some old
  | some v => requiredString (some v)

/-- An update of an enum path under `runValidators: true`. -/
def setEnum {α : Type} (ofString : String → Option α) (old : α) : Option String → Option α
  | none => some old
  | some v => ofString v

/-- An update of an enum path that may be unset in the stored document. -/
def setOptionalEnum {α : Type} (ofString : String → Option α) (old : Option α) :
    Option String → Option (Option α)
  | none => some old
  | some v => (ofString v).map some

/-- An update of a path without validators. -/
def setField {α : Type} (old : α) : Option α → α
  | none => old
  | some v => v

/-- An update of a path that may be unset in the stored document. -/
def setOptionalField {α : Type} (old : Option α) : Option α → Option α
  | none => old
  | some v => some v

/-- The document `findByIdAndUpdate(id, req.body, { new: true, runValidators: true })`
writes over `a`, or `none` when an update validator rejects the body or the
server refuses an operator entry. -/
def Appointment.applyUpdate (a : Appointment) (b : UpdateBody) : Option Appointment :=
  match setRequiredString a.startTime b.startTime, setRequiredString a.endTime b.endTime,
      setRequiredString a.reason b.reason, setEnum Status.ofString a.status b.status,
      setEnum AppointmentType.ofString a.appointmentType b.appointmentType,
      setEnum PaymentStatus.ofString a.paymentStatus b.paymentStatus,
      setOptionalEnum CancelledBy.ofString a.cancelledBy b.cancelledBy with
  | some st, some et, some rs, some status, some ty, some pay, some by_ =>
    applyOperators a b.operators
         { _id := a._id,
           patientId := setField a.patientId b.patientId,
           doctorId := setField a.doctorId b.doctorId,
           appointmentDate := setField a.appointmentDate b.appointmentDate,
           startTime := st, endTime := et, status := status, appointmentType := ty,
           reason := rs,
           symptoms := setField a.symptoms b.symptoms,
           notes := setOptionalField a.notes b.notes,
           prescription := setOptionalField a.prescription b.prescription,
           paymentStatus := pay,
           amount := setField a.amount b.amount,
           cancellationReason := setOptionalField a.cancellationReason b.cancellationReason,
           cancelledBy := by_,
           reminderSent := setField a.reminderSent b.reminderSent }
  | _, _, _, _, _, _, _ => none

/-- The authorization test shared by `updateAppointment` (lines 199-201) and
`cancelAppointment` (lines 235-237): true when the request is refused. -/
def notAuthorized (user : User) (appointment : Appointment) : Bool :=
  user.role != Role.admin && appointment.patientId != user._id
    && appointment.doctorId != user._id

/-- `updateAppointment` (appointmentController.js, lines 190-220). -/
def updateAppointment (s : Store) (user : User) (id : ObjectId) (body : UpdateBody) :
    Response × Store :=
  match Appointment.findById s.appointments id with
  | none => ({ status := 404, body := Payload.message "Appointment not found" }, s)
  | some appointment =>
    if notAuthorized user appointment then
      ({ status := 403, body := Payload.message "Not authorized to update this appointment" }, s)
    else
      match appointment.applyUpdate body with
      | none => (serverError, s)
      | some updatedAppointment =>
        ({ status := 200, body := Payload.appointment updatedAppointment },
         { s with appointments := Appointment.save updatedAppointment s.appointments })

/-! ## cancelAppointment -/

/-- The JSON body of `PUT /api/appointments/:id/cancel`. -/
structure CancelBody where
  cancellationReason : Option String
  deriving DecidableEq, Repr

/-- The value assigned to `appointment.cancelledBy` (lines 248-249). -/
def cancelledByOf (user : User) (appointment : Appointment) : CancelledBy :=
  if user.role = Role.admin then CancelledBy.admin
  else if appointment.patientId = user._id then CancelledBy.patient
  else CancelledBy.doctor

/-- `cancelAppointment` (appointmentController.js, lines 225-265). -/
def cancelAppointment (s : Store) (user : User) (id : ObjectId) (body : CancelBody) :
    Response × Store :=
  match Appointment.findById s.appointments id with
  | none => ({ status := 404, body := Payload.message "Appointment not found" }, s)
  | some appointment =>
    if notAuthorized user appointment then
      ({ status := 403, body := Payload.message "Not authorized to cancel this appointment" }, s)
    else if appointment.status = Status.completed || appointment.status = Status.cancelled then
      ({ status := 400, body := Payload.message "Appointment cannot be cancelled" }, s)
    else
      let updatedAppointment : Appointment :=
        { appointment with
          status := Status.cancelled,
          cancellationReason := body.cancellationReason,
          cancelledBy := some (cancelledByOf user appointment) }
      ({ status := 200, body := Payload.appointment updatedAppointment },
       { s with appointments := Appointment.save updatedAppointment s.appointments })

/-! ## completeAppointment -/

/-- The JSON body of `PUT /api/appointments/:id/complete`. -/
structure CompleteBody where
  prescription : Option Prescription
  notes : Option String
  deriving DecidableEq, Repr

/-- `completeAppointment` (appointmentController.js, lines 270-302). The route
mounts it behind the `doctor` middleware, which is not among the sources; the
function below is the handler itself. -/
def completeAppointment (s : Store) (user : User) (id : ObjectId) (body : CompleteBody) :
    Response × Store :=
  match Appointment.findById s.appointments id with
  | none => ({ status := 404, body := Payload.message "Appointment not found" }, s)
  | some appointment =>
    if appointment.doctorId != user._id && user.role != Role.admin then
      ({ status := 403, body := Payload.message "Not authorized to complete this appointment" },
       s)
    else
      let updatedAppointment : Appointment :=
        { appointment with
          status := Status.completed,
          prescription := body.prescription,
          notes := body.notes }
      ({ status := 200, body := Payload.appointment updatedAppointment },
       { s with appointments := Appointment.save updatedAppointment s.appointments })

/-! ## getAppointmentById -/

/-- `getAppointmentById` (appointmentController.js, lines 160-185). The
`populate` calls replace `patientId` by the referenced user and `doctorId` by
the referenced profile, whose `userId` is in turn replaced by the referenced
user; a reference whose document is gone is replaced by `null`, and reading
`_id` or `userId` of `null` throws into the `catch` branch. The three tests of
the authorization condition are evaluated left to right and stop at the first
false one. -/
def getAppointmentById (s : Store) (user : User) (id : ObjectId) : Response × Store :=
  match Appointment.findById s.appointments id with
  | none => ({ status := 404, body := Payload.message "Appointment not found" }, s)
  | some appointment =>
    if user.role != Role.admin then
      match User.findById s.users appointment.patientId with
      | none => (serverError, s)
      | some patient =>
        if patient._id != user._id then
          match Doctor.findById s.doctors (some appointment.doctorId) with
          | none => (serverError, s)
          | some doctor =>
            match User.findById s.users doctor.userId with
            | none => (serverError, s)
            | some doctorUser =>
              if doctorUser._id != user._id then
                ({ status := 403,
                   body := Payload.message "Not authorized to view this appointment" }, s)
              else
                ({ status := 200, body := Payload.appointment appointment }, s)
        else
          ({ status := 200, body := Payload.appointment appointment }, s)
    else
      ({ status := 200, body := Payload.appointment appointment }, s)

/-! ## getUserAppointments and getDoctorAppointments -/

/-- The query string of the two list routes. `status` is the raw parameter.
`date` is `none` when the parameter is absent or empty (`if (date)` is false),
otherwise the value of `new Date(date)`, the inner `none` being an Invalid
Date. -/
structure ListQuery where
  status : Option String
  date : Option (Option Date)
  deriving DecidableEq, Repr

/-- The part `if (status) query.status = status` of the filter: an absent or
empty parameter filters nothing. -/
def statusFilter (status : Option String) (a : Appointment) : Bool :=
  match status with
  | none => true
  | some st => if st.length = 0 then true else a.status.toString == st

/-- The part `appointmentDate: { $gte: startDate, $lt: endDate }` of the
filter. `nextDay` is `setDate(getDate() + 1)` in the time zone of the server:
the same clock time on the next calendar day. -/
def dateFilter (nextDay : Date → Date) (date : Option Date) (a : Appointment) : Bool :=
  match date with
  | none => true
  | some startDate => decide (startDate ≤ a.appointmentDate)
      && decide (a.appointmentDate < nextDay startDate)

/-- The order of `.sort({ appointmentDate: 1, startTime: 1 })`: by date, then
by the `startTime` string. -/
def sortKeyLe (a b : Appointment) : Prop :=
  a.appointmentDate < b.appointmentDate ∨
    (a.appointmentDate = b.appointmentDate ∧ a.startTime ≤ b.startTime)

instance sortKeyLe.decidable : DecidableRel sortKeyLe :=
  fun a b => inferInstanceAs (Decidable
    (a.appointmentDate < b.appointmentDate ∨
      (a.appointmentDate = b.appointmentDate ∧ a.startTime ≤ b.startTime)))

/-- `Appointment.find(query).sort({ appointmentDate: 1, startTime: 1 })`;
documents with equal keys keep their insertion order. -/
def Appointment.findSorted (docs : List Appointment) (query : Appointment → Bool) :
    List Appointment :=
  (docs.filter query).insertionSort sortKeyLe

/-- `getUserAppointments` (appointmentController.js, lines 84-117). -/
def getUserAppointments (nextDay : Date → Date) (s : Store) (userId : ObjectId)
    (query : ListQuery) : Response × Store :=
  match query.date with
  | some none => (serverError, s)
  | some (some date) =>
    ({ status := 200,
       body := Payload.appointments (Appointment.findSorted s.appointments
         (fun a => a.patientId == userId && statusFilter query.status a
           && dateFilter nextDay (some date) a)) }, s)
  | none =>
    ({ status := 200,
       body := Payload.appointments (Appointment.findSorted s.appointments
         (fun a => a.patientId == userId && statusFilter query.status a
           && dateFilter nextDay none a)) }, s)

/-- `getDoctorAppointments` (appointmentController.js, lines 122-155). -/
def getDoctorAppointments (nextDay : Date → Date) (s : Store) (doctorId : ObjectId)
    (query : ListQuery) : Response × Store :=
  match query.date with
  | some none => (serverError, s)
  | some (some date) =>
    ({ status := 200,
       body := Payload.appointments (Appointment.findSorted s.appointments
         (fun a => a.doctorId == doctorId && statusFilter query.status a
           && dateFilter nextDay (some date) a)) }, s)
  | none =>
    ({ status := 200,
       body := Payload.appointments (Appointment.findSorted s.appointments
         (fun a => a.doctorId == doctorId && statusFilter query.status a
           && dateFilter nextDay none a)) }, s)

/-! ## Doctor profiles (doctorController.js) -/

/-- The `day` enum of `timeSlotSchema`. -/
def isDayOfWeek (day : String) : Bool :=
  ["monday", "tuesday", "wednesday", "thursday", "friday", "saturday", "sunday"].contains day

/-- The validators of `timeSlotSchema`: `day` in its enum, `startTime` and
`endTime` required. -/
def TimeSlot.passesValidation (t : TimeSlot) : Bool :=
  isDayOfWeek t.day && t.startTime.length != 0 && t.endTime.length != 0

/-- The `length` of a JavaScript string: its number of UTF-16 code units, one
for a character of the Basic Multilingual Plane and two for any other. -/
def utf16Length (value : String) : Nat :=
  (value.toList.map (fun c => if c.toNat < 65536 then 1 else 2)).sum

/-- The validator `maxlength: 500` of `bio`, which compares `value.length`. -/
def bioWithinLimit : Option String → Bool
  | none => true
  | some bio => decide (utf16Length bio ≤ 500)

/-- `User.findByIdAndUpdate(id, { role })`: the first user with the id gets the
role; nothing happens when there is no such user. -/
def User.setRole (id : ObjectId) (role : Role) : List User → List User
  | [] => []
  | u :: rest =>
    if u._id == id then { u with role := role } :: rest else u :: User.setRole id role rest

/-- The collection after the write of `Doctor.findByIdAndUpdate`: the first
profile that carries the id of `doc` is replaced by `doc`. -/
def Doctor.save (doc : Doctor) : List Doctor → List Doctor
  | [] => []
  | d :: rest => if d._id == doc._id then doc :: rest else d :: Doctor.save doc rest

/-- The JSON body of `POST /api/doctors`, the ten fields the handler
destructures. -/
structure CreateDoctorBody where
  userId : Option ObjectId
  specialization : Option String
  licenseNumber : Option String
  experience : Option Int
  education : Option Education
  certifications : Option (List Certification)
  languages : Option (List String)
  consultationFee : Option Int
  availability : Option (List TimeSlot)
  bio : Option String
  deriving DecidableEq, Repr

/-- `Doctor.create` of `createDoctor`: the profile built from the body and the
schema defaults, or `none` when a validator of `doctorSchema` rejects it. -/
def Doctor.create (newId : ObjectId) (b : CreateDoctorBody) : Option Doctor :=
  match b.userId, requiredString b.specialization, requiredString b.licenseNumber,
      b.experience, b.consultationFee with
  | some userId, some specialization, some licenseNumber, some experience, some fee =>
    if (b.availability.getD []).all TimeSlot.passesValidation && bioWithinLimit b.bio then
      some { _id := newId, userId := userId, specialization := specialization,
             licenseNumber := licenseNumber, experience := experience,
             education := b.education, certifications := b.certifications.getD [],
             languages := b.languages.getD [], consultationFee := fee,
             availability := b.availability.getD [], bio := b.bio, rating := 0,
             totalReviews := 0, isAvailable := true, profileImage := none }
    else none
  | _, _, _, _, _ => none

/-- `createDoctor` (doctorController.js, lines 55-106). `newId` is the ObjectId
the driver generates for the inserted profile. -/
def createDoctor (s : Store) (body : CreateDoctorBody) (newId : ObjectId) : Response × Store :=
  match s.doctors.find? (fun d => some d.userId == body.userId) with
  | some _ =>
    ({ status := 400, body := Payload.message "Doctor profile already exists for this user" },
     s)
  | none =>
    match s.doctors.find? (fun d => some d.licenseNumber == body.licenseNumber) with
    | some _ => ({ status := 400, body := Payload.message "License number already exists" }, s)
    | none =>
      match Doctor.create newId body with
      | none => (serverError, s)
      | some doctor =>
        ({ status := 201, body := Payload.doctor doctor },
         { s with doctors := s.doctors ++ [doctor],
                  users := User.setRole doctor.userId Role.doctor s.users })

/-- The JSON body of `PUT /api/doctors/:id`. The handler destructures the first
nine fields; `userId` and `licenseNumber` stand for fields a client may send
that the handler never reads. -/
structure UpdateDoctorBody where
  specialization : Option String
  experience : Option Int
  education : Option Education
  certifications : Option (List Certification)
  languages : Option (List String)
  consultationFee : Option Int
  availability : Option (List TimeSlot)
  bio : Option String
  isAvailable : Option Bool
  userId : Option ObjectId
  licenseNumber : Option String
  deriving DecidableEq, Repr

/-- The profile `Doctor.findByIdAndUpdate(id, fields, { new: true, runValidators: true })`
writes over `d`, or `none` when an update validator rejects a field. A field
that is `undefined` in the update object is left as it is. -/
def Doctor.applyUpdate (d : Doctor) (b : UpdateDoctorBody) : Option Doctor :=
  match setRequiredString d.specialization b.specialization with
  | some specialization =>
    if (b.availability.getD []).all TimeSlot.passesValidation && bioWithinLimit b.bio then
      some { _id := d._id, userId := d.userId, specialization := specialization,
             licenseNumber := d.licenseNumber,
             experience := setField d.experience b.experience,
             education := setOptionalField d.education b.education,
             certifications := setField d.certifications b.certifications,
             languages := setField d.languages b.languages,
             consultationFee := setField d.consultationFee b.consultationFee,
             availability := setField d.availability b.availability,
             bio := setOptionalField d.bio b.bio, rating := d.rating,
             totalReviews := d.totalReviews,
             isAvailable := setField d.isAvailable b.isAvailable,
             profileImage := d.profileImage }
    else none
  | none => none

/-- `updateDoctor` (doctorController.js, lines 111-157). -/
def updateDoctor (s : Store) (user : User) (id : ObjectId) (body : UpdateDoctorBody) :
    Response × Store :=
  match Doctor.findById s.doctors (some id) with
  | none => ({ status := 404, body := Payload.message "Doctor not found" }, s)
  | some doctor =>
    if doctor.userId != user._id && user.role != Role.admin then
      ({ status := 403, body := Payload.message "Not authorized to update this doctor" }, s)
    else
      match doctor.applyUpdate body with
      | none => (serverError, s)
      | some updatedDoctor =>
        ({ status := 200, body := Payload.doctor updatedDoctor },
         { s with doctors := Doctor.save updatedDoctor s.doctors })

/-- `deleteDoctor` (doctorController.js, lines 162-180). -/
def deleteDoctor (s : Store) (id : ObjectId) : Response × Store :=
  match Doctor.findById s.doctors (some id) with
  | none => ({ status := 404, body := Payload.message "Doctor not found" }, s)
  | some doctor =>
    ({ status := 200, body := Payload.message "Doctor removed" },
     { s with users := User.setRole doctor.userId Role.patient s.users,
              doctors := s.doctors.eraseP (fun d => d._id == id) })

/-- `deleteDoctor` (lines 162-180) on the route parameter `:id` as sent. The
`CastError` of `Doctor.findById(req.params.id)` (line 164) reaches the `catch`
branch (lines 176-179) before anything is written. -/
def deleteDoctorRequest (s : Store) (id : IdText) : Response × Store :=
  match id.cast with
  | none => (serverError, s)
  | some objectId => deleteDoctor s objectId

/-- One call of a mutating doctor handler with its arguments. -/
inductive DoctorCall where
  | create (body : CreateDoctorBody) (newId : ObjectId)
  | update (user : User) (id : ObjectId) (body : UpdateDoctorBody)
  | delete (id : ObjectId)
  deriving DecidableEq, Repr

/-- The store a doctor call leaves. -/
def DoctorCall.exec (s : Store) : DoctorCall → Store
  | DoctorCall.create body newId => (createDoctor s body newId).2
  | DoctorCall.update user id body => (updateDoctor s user id body).2
  | DoctorCall.delete id => (deleteDoctor s id).2

/-- The store left by a sequence of doctor calls executed one after the other. -/
def runDoctorCalls (s : Store) (calls : List DoctorCall) : Store :=
  calls.foldl DoctorCall.exec s

/-! ## signup and login (authController.js) -/

/-- The JSON body of `POST /api/auth/signup`. The optional demographic fields
`dateOfBirth`, `gender` and `address` are handed on to the user document
untouched and are left out. -/
structure SignupBody where
  name : Option String
  email : Option String
  password : Option String
  phone : Option String
  role : Option Role
  deriving DecidableEq, Repr

/-- Modelled from the spec: `models/User.js` and `utils/memoryStorage.js` are
not among the sources. A user object as `signup` and `login` read it: the id,
the four fields of the response and the plain-text password. -/
structure Account where
  _id : ObjectId
  name : Option String
  email : Option String
  password : Option String
  phone : Option String
  role : Role
  deriving DecidableEq, Repr

/-- The two places the auth controller keeps users in: the collection behind
the `User` model and the in-process `memoryStorage`. -/
structure AuthStores where
  users : List Account
  memory : List Account
  deriving DecidableEq, Repr

/-- `User.findOne({ email })`. -/
def Account.findOne (users : List Account) (email : Option String) : Option Account :=
  users.find? (fun u => u.email == email)

/-- Modelled from the spec: `utils/memoryStorage.js` is not among the sources.
`memoryStorage.findUserByEmail(email)` on the ephemeral in-process store. -/
def memoryStorage.findUserByEmail (memory : List Account) (email : Option String) :
    Option Account :=
  memory.find? (fun u => u.email == email)

/-- The user object built from the destructured body, `role` defaulting to
`patient`. -/
def SignupBody.toAccount (body : SignupBody) (newId : ObjectId) : Account :=
  { _id := newId, name := body.name, email := body.email, password := body.password,
    phone := body.phone, role := body.role.getD Role.patient }

/-- The JSON of a user that `signup` and `login` send; the `token` field,
signed from the id, the secret and the clock, is left out. -/
def Account.toPayload (u : Account) : Payload :=
  Payload.account u._id u.name u.email u.phone u.role

/-- `signup` (authController.js, lines 15-75). `mongoUp` tells whether the
calls on the `User` model reach MongoDB; when they do not they throw and the
inner `catch` branches turn to `memoryStorage`. `accepts` tells whether
`User.create` accepts the document (the casts and validators of
`models/User.js`, which is not among the sources); a rejection throws into the
same `catch` branch as an unreachable MongoDB. `newId` is the id given to the
new user. -/
def signup (mongoUp : Bool) (accepts : SignupBody → Bool) (s : AuthStores)
    (body : SignupBody) (newId : ObjectId) : Response × AuthStores :=
  let userExists :=
    if mongoUp then Account.findOne s.users body.email
    else memoryStorage.findUserByEmail s.memory body.email
  match userExists with
  | some _ => ({ status := 400, body := Payload.message "User already exists" }, s)
  | none =>
    if mongoUp && accepts body then
      ({ status := 201, body := (body.toAccount newId).toPayload },
       { s with users := s.users ++ [body.toAccount newId] })
    else
      ({ status := 201, body := (body.toAccount newId).toPayload },
       { s with memory := s.memory ++ [body.toAccount newId] })

/-- The JSON body of `POST /api/auth/login`. -/
structure LoginBody where
  email : Option String
  password : Option String
  deriving DecidableEq, Repr

/-- `login` (authController.js, lines 80-109). -/
def login (mongoUp : Bool) (s : AuthStores) (body : LoginBody) : Response :=
  let user :=
    if mongoUp then Account.findOne s.users body.email
    else memoryStorage.findUserByEmail s.memory body.email
  match user with
  | some u =>
    if u.password == body.password then { status := 200, body := u.toPayload }
    else { status := 401, body := Payload.message "Invalid email or password" }
  | none => { status := 401, body := Payload.message "Invalid email or password" }

/-! ## The catch branches -/

/-- A thrown JavaScript `Error`. -/
structure Thrown where
  message : String
  stack : String
  deriving DecidableEq, Repr

/-- The `catch` branch of every handler of the appointment, doctor and auth
controllers: `res.status(500).json({ message: 'Server error' })`. -/
def controllerCatch (_error : Thrown) : Response :=
  serverError

/-- The `catch` branch of the handlers of aiController.js; `fallback` is the
text after `error.message ||` and `nodeEnv` is `process.env.NODE_ENV`. -/
def aiCatch (fallback : String) (nodeEnv : Option String) (error : Thrown) : Response :=
  { status := 500,
    body := Payload.failure
      (if error.message.length = 0 then fallback else error.message)
      (if nodeEnv = some "development" then some error.stack else none) }

/-- The `catch` branch of `imageAnalysis` (aiController.js, lines 16-22). -/
def imageAnalysisCatch (nodeEnv : Option String) (error : Thrown) : Response :=
  aiCatch "AI analysis failed" nodeEnv error

/-- The `catch` branch of `wearableAnalysis` (lines 90-96). -/
def wearableAnalysisCatch (nodeEnv : Option String) (error : Thrown) : Response :=
  aiCatch "Wearable analysis failed" nodeEnv error

/-- The `catch` branch of `emergencyAnalysis` (lines 112-118). -/
def emergencyAnalysisCatch (nodeEnv : Option String) (error : Thrown) : Response :=
  aiCatch "Emergency analysis failed" nodeEnv error

/-- The `catch` branch of `translateText` (lines 158-164). -/
def translateTextCatch (nodeEnv : Option String) (error : Thrown) : Response :=
  aiCatch "Translation failed" nodeEnv error

/-- The `catch` branch of `communityInsights` (lines 232-238). -/
def communityInsightsCatch (nodeEnv : Option String) (error : Thrown) : Response :=
  aiCatch "Community insights failed" nodeEnv error

/-- The `catch` branch of `healthAdvice` (lines 254-260). -/
def healthAdviceCatch (nodeEnv : Option String) (error : Thrown) : Response :=
  aiCatch "Health advice generation failed" nodeEnv error

/-- The error handling middleware of server.js (lines 65-71). -/
def errorMiddleware (nodeEnv : Option String) (err : Thrown) : Response :=
  { status := 500,
    body := Payload.failure "Something went wrong!"
      (some (if nodeEnv = some "development" then err.message
             else "Internal server error")) }

/-! ## Sequential runs -/

/-- One call of a mutating appointment handler with its arguments. -/
inductive Call where
  | create (user : User) (body : CreateBody) (newId : ObjectId)
  | update (user : User) (id : ObjectId) (body : UpdateBody)
  | cancel (user : User) (id : ObjectId) (body : CancelBody)
  | complete (user : User) (id : ObjectId) (body : CompleteBody)

/-- The store a call leaves. -/
def Call.exec (s : Store) : Call → Store
  | Call.create user body newId => (createAppointment s user body newId).2
  | Call.update user id body => (updateAppointment s user id body).2
  | Call.cancel user id body => (cancelAppointment s user id body).2
  | Call.complete user id body => (completeAppointment s user id body).2

/-- The store left by a sequence of calls executed one after the other. -/
def runCalls (s : Store) (calls : List Call) : Store :=
  calls.foldl Call.exec s

/-! ## Properties the claims speak of -/

/-- The two `400` answers of the conflict check of `createAppointment`
(`SlotConflict`). -/
def isSlotConflict (r : Response) : Prop :=
  r.status = 400 ∧
    (r.body = Payload.message "Time slot is already booked" ∨
     r.body = Payload.message "You already have an appointment at this time")

/-- The store holds an appointment on the requested date and start time, for
the requested doctor or for the requesting patient, whose status is neither
`cancelled` nor `no-show`. -/
def slotTaken (s : Store) (user : User) (body : CreateBody) : Prop :=
  ∃ a ∈ s.appointments,
    (some a.doctorId = body.doctorId ∨ a.patientId = user._id) ∧
    some a.appointmentDate = body.appointmentDate ∧
    some a.startTime = body.startTime ∧
    a.status ≠ Status.cancelled ∧ a.status ≠ Status.noShow

/-- The body passes the casts and validators that `createAppointment` runs on
it: a valid date, non-empty `startTime`, `endTime` and `reason`, and an
`appointmentType` that is absent or in its enum. -/
def CreateBody.passesValidation (b : CreateBody) : Bool :=
  b.appointmentDate.isSome && (requiredString b.startTime).isSome
    && (requiredString b.endTime).isSome && (requiredString b.reason).isSome
    && (castAppointmentType b.appointmentType).isSome

/-- The status is `pending` or `confirmed` (a non-terminal status). -/
def Appointment.isActive (a : Appointment) : Bool :=
  a.status == Status.pending || a.status == Status.confirmed

/-- A pending or confirmed appointment of doctor `doctorId` at `(date, startTime)`. -/
def activeDoctorSlot (doctorId : ObjectId) (date : Date) (startTime : String)
    (a : Appointment) : Bool :=
  a.isActive && a.doctorId == doctorId && a.appointmentDate == date
    && a.startTime == startTime

/-- A pending or confirmed appointment of patient `patientId` at `(date, startTime)`. -/
def activePatientSlot (patientId : ObjectId) (date : Date) (startTime : String)
    (a : Appointment) : Bool :=
  a.isActive && a.patientId == patientId && a.appointmentDate == date
    && a.startTime == startTime

/-- At most one pending or confirmed appointment per (doctor, date, startTime). -/
def doctorSlotsUnique (docs : List Appointment) : Prop :=
  ∀ (doctorId : ObjectId) (date : Date) (startTime : String),
    docs.countP (activeDoctorSlot doctorId date startTime) ≤ 1

/-- At most one pending or confirmed appointment per (patient, date, startTime). -/
def patientSlotsUnique (docs : List Appointment) : Prop :=
  ∀ (patientId : ObjectId) (date : Date) (startTime : String),
    docs.countP (activePatientSlot patientId date startTime) ≤ 1

/-- No operator entry of the body writes the path `path`. -/
def UpdateBody.noOperatorOn (path : SchemaPath) (b : UpdateBody) : Bool :=
  b.operators.all (fun entry => entry.path != path)

/-- The body of an update writes none of the paths `patientId`, `doctorId`,
`appointmentDate`, `startTime` and `status`, neither as a top-level key nor
through an update operator. -/
def UpdateBody.keepsSlot (b : UpdateBody) : Bool :=
  b.patientId.isNone && b.doctorId.isNone && b.appointmentDate.isNone
    && b.startTime.isNone && b.status.isNone
    && b.noOperatorOn SchemaPath.patientId && b.noOperatorOn SchemaPath.doctorId
    && b.noOperatorOn SchemaPath.appointmentDate && b.noOperatorOn SchemaPath.startTime
    && b.noOperatorOn SchemaPath.status

/-- The body of an update does not write `status`, neither as a top-level key
nor through an update operator. -/
def UpdateBody.keepsStatus (b : UpdateBody) : Bool :=
  b.status.isNone && b.noOperatorOn SchemaPath.status

/-- The body of an update does not write `amount`, neither as a top-level key
nor through an update operator. -/
def UpdateBody.keepsAmount (b : UpdateBody) : Bool :=
  b.amount.isNone && b.noOperatorOn SchemaPath.amount

/-- Every call but an update that writes a slot path or the status. -/
def Call.keepsSlot : Call → Bool
  | Call.update _ _ body => body.keepsSlot
  | _ => true

/-- Every call but an update that writes `amount`. -/
def Call.keepsAmount : Call → Bool
  | Call.update _ _ body => body.keepsAmount
  | _ => true

/-- The appointments a list request asks for: `owner` is the requested
patient or doctor, the status is `status` when a status is given, and the date
lies in the day that starts at `date` when a date is given. -/
def requested (nextDay : Date → Date) (owner : Appointment → ObjectId) (id : ObjectId)
    (status : Option Status) (date : Option Date) (a : Appointment) : Bool :=
  decide (owner a = id)
    && (match status with
        | none => true
        | some st => decide (a.status = st))
    && (match date with
        | none => true
        | some d => decide (d ≤ a.appointmentDate ∧ a.appointmentDate < nextDay d))

/-- No two doctor profiles have the same `userId`. -/
def userIdsUnique (doctors : List Doctor) : Prop :=
  (doctors.map (fun d => d.userId)).Nodup

/-- No two doctor profiles have the same `licenseNumber`. -/
def licenseNumbersUnique (doctors : List Doctor) : Prop :=
  (doctors.map (fun d => d.licenseNumber)).Nodup

/-- The body passes the validators that `updateDoctor` runs on it: a
`specialization` that is absent or not empty, `availability` entries with a day
of the week and both times, and a `bio` of at most 500 UTF-16 code units. -/
def UpdateDoctorBody.passesValidation (b : UpdateDoctorBody) : Bool :=
  (match b.specialization with
   | none => true
   | some v => v.length != 0)
    && (b.availability.getD []).all TimeSlot.passesValidation && bioWithinLimit b.bio

/-- The stored appointments of doctor `doctorId` at `(date, startTime)` whose
status is neither `cancelled` nor `no-show`. -/
def occupying (doctorId : ObjectId) (date : Date) (startTime : String)
    (docs : List Appointment) : List Appointment :=
  docs.filter (fun b => b.doctorId == doctorId && b.appointmentDate == date
    && b.startTime == startTime && statusNotCancelledOrNoShow b)

/-- The minutes after midnight that a clock string `HH:MM` denotes. -/
def clockMinutes (t : String) : Option Nat :=
  match t.toList with
  | [h1, h2, ':', m1, m2] =>
    if h1.isDigit && h2.isDigit && m1.isDigit && m2.isDigit then
      some (((h1.toNat - 48) * 10 + (h2.toNat - 48)) * 60
        + ((m1.toNat - 48) * 10 + (m2.toNat - 48)))
    else none
  | _ => none

/-- The half-open intervals `[start1, end1)` and `[start2, end2)` of clock
strings overlap. -/
def clockIntervalsOverlap (start1 end1 start2 end2 : String) : Prop :=
  ∃ s1 e1 s2 e2, clockMinutes start1 = some s1 ∧ clockMinutes end1 = some e1 ∧
    clockMinutes start2 = some s2 ∧ clockMinutes end2 = some e2 ∧ s1 < e2 ∧ s2 < e1

/-! ## Example data -/

/-- A doctor profile that accepts bookings. -/
def drGrey : Doctor :=
  { _id := 10, userId := 3, specialization := "Cardiology", licenseNumber := "LIC-1",
    experience := 12, education := none, certifications := [], languages := ["English"],
    consultationFee := 150, availability := [], bio := none, rating := 4,
    totalReviews := 7, isAvailable := true, profileImage := none }

/-- A patient. -/
def alice : User :=
  { _id := 1, name := "Alice", email := "alice@example.com", password := "pw",
    phone := "+100", role := Role.patient }

/-- A second patient. -/
def bob : User :=
  { _id := 2, name := "Bob", email := "bob@example.com", password := "pw",
    phone := "+200", role := Role.patient }

/-- An administrator. -/
def root : User :=
  { _id := 9, name := "Root", email := "root@example.com", password := "pw",
    phone := "+900", role := Role.admin }

/-- A store with one available doctor and no appointment. -/
def clinic : Store :=
  { users := [alice, bob, root], doctors := [drGrey], appointments := [] }

/-- A complete booking request for `drGrey` on day `date` at `startTime`. -/
def booking (date : Date) (startTime endTime : String) : CreateBody :=
  { doctorId := some 10, appointmentDate := some date, startTime := some startTime,
    endTime := some endTime, appointmentType := some "video", reason := some "checkup",
    symptoms := none, patientId := none, status := none, amount := none }

/-- The booking of `booking` with the `reason` field left out. -/
def bookingWithoutReason (date : Date) (startTime endTime : String) : CreateBody :=
  { booking date startTime endTime with reason := none }

/-- A body for `updateAppointment` that names no path. -/
def noChange : UpdateBody :=
  { patientId := none, doctorId := none, appointmentDate := none, startTime := none,
    endTime := none, status := none, appointmentType := none, reason := none,
    symptoms := none, notes := none, prescription := none, paymentStatus := none,
    amount := none, cancellationReason := none, cancelledBy := none, reminderSent := none,
    operators := [] }

/-- Two bookings of `drGrey` on one day at 09:00 and 10:00, then the second
is moved to 09:00 by its patient through `updateAppointment`. -/
def rescheduleOntoTakenSlot : List Call :=
  [ Call.create alice (booking 1704844800000 "09:00" "09:30") 100,
    Call.create bob (booking 1704844800000 "10:00" "10:30") 101,
    Call.update bob 101 { noChange with startTime := some "09:00" } ]

/-- The same two bookings, then bob moves his booking to 09:00 with the body
`{"$set": {"startTime": "09:00"}}`. -/
def rescheduleBySetOperator : List Call :=
  [ Call.create alice (booking 1704844800000 "09:00" "09:30") 100,
    Call.create bob (booking 1704844800000 "10:00" "10:30") 101,
    Call.update bob 101
      { noChange with operators := [OperatorEntry.startTime (fun _ => some "09:00")] } ]

/-- The body `{"$inc": {"amount": delta}}`. -/
def incAmount (delta : Int) : UpdateBody :=
  { noChange with
    operators := [OperatorEntry.amount (fun stored => some (stored.amount + delta))] }

/-- The body `{"$set": {"status": "pending"}}`. -/
def setStatusPending : UpdateBody :=
  { noChange with operators := [OperatorEntry.status (fun _ => some Status.pending)] }

/-- Two bookings, a change of the reason together with `{"$inc": {"amount": -50}}`,
a cancellation and a completion. -/
def ordinaryDay : List Call :=
  [ Call.create alice (booking 1704844800000 "09:00" "09:30") 100,
    Call.create bob (booking 1704844800000 "10:00" "10:30") 101,
    Call.update bob 101 { incAmount (-50) with reason := some "follow-up" },
    Call.cancel alice 100 { cancellationReason := some "busy" },
    Call.complete root 101 { prescription := none, notes := some "rest" } ]

/-- A doctor profile that does not accept bookings. -/
def drOff : Doctor :=
  { drGrey with _id := 11, userId := 4, licenseNumber := "LIC-2", isAvailable := false }

/-- The booking of `booking` with a `patientId`, a `status` and an `amount`
added by the client. -/
def bookingWithExtras (date : Date) (startTime endTime : String) : CreateBody :=
  { booking date startTime endTime with
    patientId := some 2, status := some "completed", amount := some 0 }

/-- An appointment of patient `alice` with `drGrey`, in the given status. -/
def visit (status : Status) : Appointment :=
  { _id := 100, patientId := 1, doctorId := 10, appointmentDate := 1704844800000,
    startTime := "09:00", endTime := "09:30", status := status,
    appointmentType := AppointmentType.inPerson, reason := "checkup", symptoms := [],
    notes := none, prescription := none, paymentStatus := PaymentStatus.pending,
    amount := 150, cancellationReason := none, cancelledBy := none, reminderSent := false }

/-- The clinic with a single stored appointment. -/
def clinicWith (a : Appointment) : Store :=
  { users := [alice, bob, root], doctors := [drGrey, drOff], appointments := [a] }

/-- An appointment that the administrator `root` booked as a patient. -/
def visitOfRoot : Appointment :=
  { visit Status.pending with patientId := 9 }

/-- The user who owns the profile `drGrey` (`drGrey.userId = 3`). -/
def grey : User :=
  { _id := 3, name := "Grey", email := "grey@example.com", password := "pw",
    phone := "+300", role := Role.doctor }

/-- The clinic with the owner of `drGrey` among its users and a single stored
appointment. -/
def ward (a : Appointment) : Store :=
  { users := [alice, bob, grey, root], doctors := [drGrey, drOff], appointments := [a] }

/-- A prescription with one medication. -/
def restAndFluids : Prescription :=
  { medications := [{ name := some "Paracetamol", dosage := some "500mg",
                      frequency := some "twice a day", duration := some "3 days" }],
    instructions := some "rest" }

/-- The patient changes the reason and, with `{"$set": {"status": "pending"}}`,
the status; the administrator completes the appointment, then the patient tries
to cancel it. -/
def afterTheVisit : List Call :=
  [ Call.update alice 100 { setStatusPending with reason := some "follow-up" },
    Call.complete root 100 { prescription := some restAndFluids, notes := none },
    Call.cancel alice 100 { cancellationReason := some "late" } ]

/-- A body for `updateDoctor` that names no field. -/
def noDoctorChange : UpdateDoctorBody :=
  { specialization := none, experience := none, education := none, certifications := none,
    languages := none, consultationFee := none, availability := none, bio := none,
    isAvailable := none, userId := none, licenseNumber := none }

/-- A complete body for `createDoctor`. -/
def profileFor (userId : ObjectId) (licenseNumber : String) : CreateDoctorBody :=
  { userId := some userId, specialization := some "Dermatology",
    licenseNumber := some licenseNumber, experience := some 5, education := none,
    certifications := none, languages := some ["English"], consultationFee := some 90,
    availability := some [{ day := "monday", startTime := "09:00", endTime := "12:00",
                            isAvailable := true }],
    bio := none }

/-- A store with users and neither doctors nor appointments. -/
def newClinic : Store :=
  { users := [alice, bob, grey, root], doctors := [], appointments := [] }

/-- Two profiles are created, a third creation repeats a license number, the
first profile is updated by its owner and the second one is deleted. -/
def staffing : List DoctorCall :=
  [ DoctorCall.create (profileFor 3 "LIC-1") 10,
    DoctorCall.create (profileFor 2 "LIC-2") 11,
    DoctorCall.create (profileFor 1 "LIC-2") 12,
    DoctorCall.update grey 10 { noDoctorChange with consultationFee := some 120,
                                                    licenseNumber := some "LIC-2" },
    DoctorCall.delete 11 ]

/-- A biography of 501 characters. -/
def longBio : String :=
  String.mk (List.replicate 501 'x')

/-- A biography of 300 characters outside the Basic Multilingual Plane, whose
JavaScript `length` is 600. -/
def emojiBio : String :=
  String.mk (List.replicate 300 '😀')

/-- The signup request of `test-api.js`. -/
def testUser : SignupBody :=
  { name := some "Test User", email := some "test@example.com",
    password := some "password123", phone := some "+1234567890",
    role := some Role.patient }

/-- No user in MongoDB and none in `memoryStorage`. -/
def noAccounts : AuthStores :=
  { users := [], memory := [] }

/-- A `User` model that accepts every document. -/
def acceptsAll : SignupBody → Bool :=
  fun _ => true

/-- A refused connection, as thrown by an HTTP client. -/
def connectionRefused : Thrown :=
  { message := "connect ECONNREFUSED 10.0.0.5:443",
    stack := "Error: connect ECONNREFUSED 10.0.0.5:443 at TCPConnectWrap.afterConnect" }

/-- A rejected API key, as thrown by the client of the AI service. -/
def keyRejected : Thrown :=
  { message := "401 Incorrect API key provided: sk-test",
    stack := "Error: 401 Incorrect API key provided: sk-test at APIError.generate" }

/-- Modelled from the spec: `models/User.js` is not among the sources. A `User`
model for which `name`, `email`, `password` and `phone`, the fields the spec
does not call optional, are required. -/
def requiresIdentityFields : SignupBody → Bool :=
  fun body => (requiredString body.name).isSome && (requiredString body.email).isSome
    && (requiredString body.password).isSome && (requiredString body.phone).isSome

/-! ## Lemmas on the queries -/

theorem findDoctorConflict_eq_none {docs : List Appointment} {doctorId : Option ObjectId}
    {date : Date} {startTime : Option String} :
    findDoctorConflict docs doctorId date startTime = none ↔
      ∀ a ∈ docs, ¬ (some a.doctorId = doctorId ∧ a.appointmentDate = date ∧
        some a.startTime = startTime ∧ a.status ≠ Status.cancelled ∧
        a.status ≠ Status.noShow) := by
  simp [findDoctorConflict, List.find?_eq_none, statusNotCancelledOrNoShow]

theorem findPatientConflict_eq_none {docs : List Appointment} {patientId : ObjectId}
    {date : Date} {startTime : Option String} :
    findPatientConflict docs patientId date startTime = none ↔
      ∀ a ∈ docs, ¬ (a.patientId = patientId ∧ a.appointmentDate = date ∧
        some a.startTime = startTime ∧ a.status ≠ Status.cancelled ∧
        a.status ≠ Status.noShow) := by
  simp [findPatientConflict, List.find?_eq_none, statusNotCancelledOrNoShow]

theorem findDoctorConflict_eq_some {docs : List Appointment} {doctorId : Option ObjectId}
    {date : Date} {startTime : Option String} {a : Appointment}
    (h : findDoctorConflict docs doctorId date startTime = some a) :
    a ∈ docs ∧ some a.doctorId = doctorId ∧ a.appointmentDate = date ∧
      some a.startTime = startTime ∧ a.status ≠ Status.cancelled ∧
      a.status ≠ Status.noShow := by
  refine ⟨List.mem_of_find?_eq_some h, ?_⟩
  have hp := List.find?_some h
  simpa [statusNotCancelledOrNoShow, and_assoc] using hp

theorem findPatientConflict_eq_some {docs : List Appointment} {patientId : ObjectId}
    {date : Date} {startTime : Option String} {a : Appointment}
    (h : findPatientConflict docs patientId date startTime = some a) :
    a ∈ docs ∧ a.patientId = patientId ∧ a.appointmentDate = date ∧
      some a.startTime = startTime ∧ a.status ≠ Status.cancelled ∧
      a.status ≠ Status.noShow := by
  refine ⟨List.mem_of_find?_eq_some h, ?_⟩
  have hp := List.find?_some h
  simpa [statusNotCancelledOrNoShow, and_assoc] using hp

theorem not_slotTaken_of_none {s : Store} {user : User} {body : CreateBody} {date : Date}
    (hdate : body.appointmentDate = some date)
    (h1 : findDoctorConflict s.appointments body.doctorId date body.startTime = none)
    (h2 : findPatientConflict s.appointments user._id date body.startTime = none) :
    ¬ slotTaken s user body := by
  rintro ⟨a, ha, hwho, hd, hst, hc, hn⟩
  rw [hdate] at hd
  have hd2 : a.appointmentDate = date := Option.some.inj hd
  rcases hwho with hdoc | hpat
  · exact findDoctorConflict_eq_none.mp h1 a ha ⟨hdoc, hd2, hst, hc, hn⟩
  · exact findPatientConflict_eq_none.mp h2 a ha ⟨hpat, hd2, hst, hc, hn⟩

theorem Appointment.create_isSome (newId patientId doctorId : ObjectId) (date : Date)
    {startTime endTime appointmentType reason : Option String}
    (symptoms : Option (List String)) (amount : Int)
    (h1 : (requiredString startTime).isSome = true)
    (h2 : (requiredString endTime).isSome = true)
    (h3 : (requiredString reason).isSome = true)
    (h4 : (castAppointmentType appointmentType).isSome = true) :
    ∃ doc, Appointment.create newId patientId doctorId date startTime endTime
      appointmentType reason symptoms amount = some doc := by
  obtain ⟨st, hst⟩ := Option.isSome_iff_exists.mp h1
  obtain ⟨et, het⟩ := Option.isSome_iff_exists.mp h2
  obtain ⟨rs, hrs⟩ := Option.isSome_iff_exists.mp h3
  obtain ⟨ty, hty⟩ := Option.isSome_iff_exists.mp h4
  simp [Appointment.create, hst, het, hrs, hty]

theorem Appointment.create_eq_some {newId patientId doctorId : ObjectId} {date : Date}
    {startTime endTime appointmentType reason : Option String}
    {symptoms : Option (List String)} {amount : Int} {doc : Appointment}
    (h : Appointment.create newId patientId doctorId date startTime endTime
      appointmentType reason symptoms amount = some doc) :
    doc._id = newId ∧ doc.patientId = patientId ∧ doc.doctorId = doctorId ∧
      doc.appointmentDate = date ∧ some doc.startTime = startTime ∧
      doc.status = Status.pending ∧ doc.amount = amount := by
  unfold Appointment.create at h
  split at h
  · rename_i st et rs ty hst het hrs hty
    have hs : some st = startTime := by
      cases startTime with
      | none => simp [requiredString] at hst
      | some v =>
        simp only [requiredString] at hst
        split at hst
        · exact absurd hst (by simp)
        · exact hst.symm
    cases h
    exact ⟨rfl, rfl, rfl, rfl, hs, rfl, rfl⟩
  · exact absurd h (by simp)

theorem Doctor.findById_some_id {doctors : List Doctor} {id : Option ObjectId} {d : Doctor}
    (h : Doctor.findById doctors id = some d) : d ∈ doctors ∧ some d._id = id := by
  refine ⟨List.mem_of_find?_eq_some h, ?_⟩
  simpa using List.find?_some h

/-- Every way `createAppointment` can end: the store is untouched and the
status is not 201, or the checks passed and one validated document is
appended. -/
theorem createAppointment_cases (s : Store) (user : User) (body : CreateBody)
    (newId : ObjectId) :
    ((createAppointment s user body newId).2 = s ∧
        (createAppointment s user body newId).1.status ≠ 201) ∨
    ∃ doctor date doc,
      Doctor.findById s.doctors body.doctorId = some doctor ∧
      doctor.isAvailable = true ∧
      body.appointmentDate = some date ∧
      findDoctorConflict s.appointments body.doctorId date body.startTime = none ∧
      findPatientConflict s.appointments user._id date body.startTime = none ∧
      Appointment.create newId user._id doctor._id date body.startTime body.endTime
        body.appointmentType body.reason body.symptoms doctor.consultationFee = some doc ∧
      createAppointment s user body newId =
        ({ status := 201, body := Payload.appointment doc },
         { s with appointments := s.appointments ++ [doc] }) := by
  cases hd : Doctor.findById s.doctors body.doctorId with
  | none => left; simp [createAppointment, hd]
  | some doctor =>
    cases ha : doctor.isAvailable with
    | false => left; simp [createAppointment, hd, ha]
    | true =>
      cases hdate : body.appointmentDate with
      | none => left; simp [createAppointment, hd, ha, hdate, serverError]
      | some date =>
        cases h1 : findDoctorConflict s.appointments body.doctorId date body.startTime with
        | some a => left; simp [createAppointment, hd, ha, hdate, h1]
        | none =>
          cases h2 : findPatientConflict s.appointments user._id date body.startTime with
          | some a => left; simp [createAppointment, hd, ha, hdate, h1, h2]
          | none =>
            cases hcr : Appointment.create newId user._id doctor._id date body.startTime
                body.endTime body.appointmentType body.reason body.symptoms
                doctor.consultationFee with
            | none => left; simp [createAppointment, hd, ha, hdate, h1, h2, hcr, serverError]
            | some doc =>
              right
              exact ⟨doctor, date, doc, rfl, ha, rfl, h1, h2, hcr,
                by simp [createAppointment, hd, ha, hdate, h1, h2, hcr]⟩

theorem countP_append_singleton_le_one {p : Appointment → Bool} {docs : List Appointment}
    {doc : Appointment} (h : docs.countP p ≤ 1)
    (hnew : p doc = true → ∀ a ∈ docs, ¬ p a = true) :
    (docs ++ [doc]).countP p ≤ 1 := by
  rw [List.countP_append]
  cases hp : p doc with
  | false => simpa [List.countP_cons, hp] using h
  | true =>
    have hz : docs.countP p = 0 := List.countP_eq_zero.mpr (hnew hp)
    simp [List.countP_cons, hp, hz]

theorem isActive_not_cancelled {a : Appointment} (h : a.isActive = true) :
    a.status ≠ Status.cancelled ∧ a.status ≠ Status.noShow := by
  unfold Appointment.isActive at h
  cases hs : a.status <;> simp [hs] at h ⊢

/-- When `createAppointment` inserts `doc`, no stored appointment that is
pending or confirmed has the doctor slot or the patient slot of `doc`. -/
theorem createAppointment_inserted_slot_free {s : Store} {user : User} {body : CreateBody}
    {newId : ObjectId} {doctor : Doctor} {date : Date} {doc : Appointment}
    (hd : Doctor.findById s.doctors body.doctorId = some doctor)
    (h1 : findDoctorConflict s.appointments body.doctorId date body.startTime = none)
    (h2 : findPatientConflict s.appointments user._id date body.startTime = none)
    (hcr : Appointment.create newId user._id doctor._id date body.startTime body.endTime
      body.appointmentType body.reason body.symptoms doctor.consultationFee = some doc) :
    ∀ a ∈ s.appointments, a.isActive = true →
      a.appointmentDate = doc.appointmentDate → a.startTime = doc.startTime →
      a.doctorId ≠ doc.doctorId ∧ a.patientId ≠ doc.patientId := by
  intro a ha hact hdt hst
  obtain ⟨_, hpat, hdoc, hdate, hstart, _, _⟩ := Appointment.create_eq_some hcr
  obtain ⟨hc, hn⟩ := isActive_not_cancelled hact
  have hst2 : some a.startTime = body.startTime := by rw [hst, hstart]
  constructor
  · intro hsame
    refine findDoctorConflict_eq_none.mp h1 a ha ⟨?_, hdt.trans hdate, hst2, hc, hn⟩
    rw [← (Doctor.findById_some_id hd).2, hsame, hdoc]
  · intro hsame
    exact findPatientConflict_eq_none.mp h2 a ha
      ⟨hsame.trans hpat, hdt.trans hdate, hst2, hc, hn⟩

theorem createAppointment_patientSlotsUnique (s : Store) (user : User) (body : CreateBody)
    (newId : ObjectId) (h : patientSlotsUnique s.appointments) :
    patientSlotsUnique (createAppointment s user body newId).2.appointments := by
  rcases createAppointment_cases s user body newId with ⟨hs, _⟩ |
    ⟨doctor, date, doc, hd, _, _, h1, h2, hcr, hres⟩
  · rw [hs]; exact h
  · rw [hres]
    intro d dt st
    apply countP_append_singleton_le_one (h d dt st)
    intro hp a ha hpa
    simp only [activePatientSlot, Bool.and_eq_true, beq_iff_eq] at hp hpa
    exact (createAppointment_inserted_slot_free hd h1 h2 hcr a ha hpa.1.1.1
      (hpa.1.2.trans hp.1.2.symm) (hpa.2.trans hp.2.symm)).2
      (hpa.1.1.2.trans hp.1.1.2.symm)

theorem createAppointment_doctorSlotsUnique (s : Store) (user : User) (body : CreateBody)
    (newId : ObjectId) (h : doctorSlotsUnique s.appointments) :
    doctorSlotsUnique (createAppointment s user body newId).2.appointments := by
  rcases createAppointment_cases s user body newId with ⟨hs, _⟩ |
    ⟨doctor, date, doc, hd, _, _, h1, h2, hcr, hres⟩
  · rw [hs]; exact h
  · rw [hres]
    intro d dt st
    apply countP_append_singleton_le_one (h d dt st)
    intro hp a ha hpa
    simp only [activeDoctorSlot, Bool.and_eq_true, beq_iff_eq] at hp hpa
    exact (createAppointment_inserted_slot_free hd h1 h2 hcr a ha hpa.1.1.1
      (hpa.1.2.trans hp.1.2.symm) (hpa.2.trans hp.2.symm)).1
      (hpa.1.1.2.trans hp.1.1.2.symm)

/-! ## createAppointment -/

/-- C1 (amended): for an existing doctor with `isAvailable = true`,
`createAppointment` answers with a slot conflict exactly when the store holds
an appointment on the requested date and start time, for that doctor or for
the requesting patient, whose status is neither `cancelled` nor `no-show`, and
then leaves the store as it was; when there is no such appointment and the
body passes the schema's validation, it answers 201 and appends exactly one
document. -/
theorem createAppointment_conflict_iff_slotTaken (s : Store) (user : User)
    (body : CreateBody) (newId : ObjectId) (doctor : Doctor)
    (hd : Doctor.findById s.doctors body.doctorId = some doctor)
    (ha : doctor.isAvailable = true) :
    (isSlotConflict (createAppointment s user body newId).1 ↔ slotTaken s user body) ∧
    (slotTaken s user body → (createAppointment s user body newId).2 = s) ∧
    (body.passesValidation = true → ¬ slotTaken s user body →
      ∃ doc, createAppointment s user body newId =
        ({ status := 201, body := Payload.appointment doc },
         { s with appointments := s.appointments ++ [doc] })) := by
  cases hdate : body.appointmentDate with
  | none =>
    have hres : createAppointment s user body newId = (serverError, s) := by
      simp [createAppointment, hd, ha, hdate]
    have hno : ¬ slotTaken s user body := by
      rintro ⟨a, _, _, hdt, _⟩
      rw [hdate] at hdt
      exact absurd hdt (by simp)
    refine ⟨?_, fun _ => by rw [hres], ?_⟩
    · rw [hres]
      constructor
      · intro h
        exact absurd h.1 (by simp [serverError])
      · intro h
        exact absurd h hno
    · intro hv
      simp [CreateBody.passesValidation, hdate] at hv
  | some date =>
    cases h1 : findDoctorConflict s.appointments body.doctorId date body.startTime with
    | some a =>
      have hres : createAppointment s user body newId =
          ({ status := 400, body := Payload.message "Time slot is already booked" }, s) := by
        simp [createAppointment, hd, ha, hdate, h1]
      obtain ⟨hmem, hdoc, hdt, hst, hc, hn⟩ := findDoctorConflict_eq_some h1
      have htaken : slotTaken s user body :=
        ⟨a, hmem, Or.inl hdoc, by rw [hdate, hdt], hst, hc, hn⟩
      refine ⟨?_, fun _ => by rw [hres], fun _ hno => absurd htaken hno⟩
      rw [hres]
      exact ⟨fun _ => htaken, fun _ => ⟨rfl, Or.inl rfl⟩⟩
    | none =>
      cases h2 : findPatientConflict s.appointments user._id date body.startTime with
      | some a =>
        have hres : createAppointment s user body newId =
            ({ status := 400,
               body := Payload.message "You already have an appointment at this time" },
             s) := by
          simp [createAppointment, hd, ha, hdate, h1, h2]
        obtain ⟨hmem, hpat, hdt, hst, hc, hn⟩ := findPatientConflict_eq_some h2
        have htaken : slotTaken s user body :=
          ⟨a, hmem, Or.inr hpat, by rw [hdate, hdt], hst, hc, hn⟩
        refine ⟨?_, fun _ => by rw [hres], fun _ hno => absurd htaken hno⟩
        rw [hres]
        exact ⟨fun _ => htaken, fun _ => ⟨rfl, Or.inr rfl⟩⟩
      | none =>
        have hno : ¬ slotTaken s user body := not_slotTaken_of_none hdate h1 h2
        refine ⟨?_, fun h => absurd h hno, ?_⟩
        · constructor
          · intro hc
            exfalso
            cases hcr : Appointment.create newId user._id doctor._id date body.startTime
                body.endTime body.appointmentType body.reason body.symptoms
                doctor.consultationFee with
            | none =>
              have hres : createAppointment s user body newId = (serverError, s) := by
                simp [createAppointment, hd, ha, hdate, h1, h2, hcr]
              rw [hres] at hc
              exact absurd hc.1 (by simp [serverError])
            | some doc =>
              have hres : (createAppointment s user body newId).1.status = 201 := by
                simp [createAppointment, hd, ha, hdate, h1, h2, hcr]
              exact absurd (hres.symm.trans hc.1) (by decide)
          · intro h
            exact absurd h hno
        · intro hv _
          simp only [CreateBody.passesValidation, Bool.and_eq_true] at hv
          obtain ⟨doc, hdoc⟩ := Appointment.create_isSome newId user._id doctor._id date
            body.symptoms doctor.consultationFee hv.1.1.1.2 hv.1.1.2 hv.1.2 hv.2
          exact ⟨doc, by simp [createAppointment, hd, ha, hdate, h1, h2, hdoc]⟩

/-- C1 (counterexample): the doctor exists and accepts bookings and the store
holds no appointment at all, yet a request without `reason` is answered 500 and
nothing is inserted. -/
theorem createAppointment_rejects_body_without_reason :
    Doctor.findById clinic.doctors
        (bookingWithoutReason 1704844800000 "09:00" "09:30").doctorId = some drGrey ∧
      drGrey.isAvailable = true ∧
      ¬ slotTaken clinic alice (bookingWithoutReason 1704844800000 "09:00" "09:30") ∧
      createAppointment clinic alice (bookingWithoutReason 1704844800000 "09:00" "09:30") 100
        = (serverError, clinic) := by
  refine ⟨rfl, rfl, ?_, rfl⟩
  rintro ⟨a, ha, _⟩
  simp [clinic] at ha

/-- C1 (witness): the first booking of `drGrey` in the empty clinic is
inserted. -/
theorem createAppointment_conflict_iff_slotTaken_witness :
    (Doctor.findById clinic.doctors (booking 1704844800000 "09:00" "09:30").doctorId
        = some drGrey ∧ drGrey.isAvailable = true) ∧
      ∃ doc, createAppointment clinic alice (booking 1704844800000 "09:00" "09:30") 100 =
        ({ status := 201, body := Payload.appointment doc },
         { clinic with appointments := clinic.appointments ++ [doc] }) :=
  ⟨⟨rfl, rfl⟩,
   (createAppointment_conflict_iff_slotTaken clinic alice
      (booking 1704844800000 "09:00" "09:30") 100 drGrey rfl rfl).2.2 rfl
      (by rintro ⟨a, ha, _⟩; simp [clinic] at ha)⟩

/-- C2: when no two pending or confirmed appointments of the store share a
(doctor, date, startTime) triple, the store left by a `createAppointment` call,
successful or not, again has at most one pending or confirmed appointment per
(doctor, date, startTime). -/
theorem createAppointment_keeps_doctorSlotsUnique (s : Store) (user : User)
    (body : CreateBody) (newId : ObjectId) (h : doctorSlotsUnique s.appointments) :
    doctorSlotsUnique (createAppointment s user body newId).2.appointments := by
  rcases createAppointment_cases s user body newId with ⟨hs, _⟩ |
    ⟨doctor, date, doc, hd, _, _, h1, h2, hcr, hres⟩
  · rw [hs]
    exact h
  · rw [hres]
    intro doctorId day startTime
    show (s.appointments ++ [doc]).countP (activeDoctorSlot doctorId day startTime) ≤ 1
    rw [List.countP_append]
    cases hp : activeDoctorSlot doctorId day startTime doc with
    | false => simpa [List.countP_cons, hp] using h doctorId day startTime
    | true =>
      have hnone : s.appointments.countP (activeDoctorSlot doctorId day startTime) = 0 := by
        apply List.countP_eq_zero.mpr
        intro a ha hpa
        simp only [activeDoctorSlot, Bool.and_eq_true, beq_iff_eq] at hp hpa
        exact (createAppointment_inserted_slot_free hd h1 h2 hcr a ha hpa.1.1.1
          (hpa.1.2.trans hp.1.2.symm) (hpa.2.trans hp.2.symm)).1
          (hpa.1.1.2.trans hp.1.1.2.symm)
      simp [List.countP_cons, hp, hnone]

/-- C2 (witness): the empty clinic satisfies the invariant and a booking keeps
it. -/
theorem createAppointment_keeps_doctorSlotsUnique_witness :
    doctorSlotsUnique clinic.appointments ∧
      doctorSlotsUnique
        (createAppointment clinic alice
          (booking 1704844800000 "09:00" "09:30") 100).2.appointments :=
  ⟨fun _ _ _ => by simp [clinic],
   createAppointment_keeps_doctorSlotsUnique clinic alice
     (booking 1704844800000 "09:00" "09:30") 100 (fun _ _ _ => by simp [clinic])⟩

/-- C4: when `createAppointment` answers 201, whatever the body holds (a
`status`, `amount` or `patientId` field included), exactly one document is
appended and it has `status = pending`, `amount` equal to the `consultationFee`
of the doctor the body refers to, and `patientId` equal to the id of the
authenticated user. -/
theorem createAppointment_success_fields (s : Store) (user : User) (body : CreateBody)
    (newId : ObjectId) (h : (createAppointment s user body newId).1.status = 201) :
    ∃ doctor doc,
      Doctor.findById s.doctors body.doctorId = some doctor ∧
      createAppointment s user body newId =
        ({ status := 201, body := Payload.appointment doc },
         { s with appointments := s.appointments ++ [doc] }) ∧
      doc.status = Status.pending ∧
      doc.amount = doctor.consultationFee ∧
      doc.patientId = user._id := by
  rcases createAppointment_cases s user body newId with ⟨_, hne⟩ |
    ⟨doctor, date, doc, hd, _, _, _, _, hcr, hres⟩
  · exact absurd h hne
  · obtain ⟨_, hpat, _, _, _, hst, ham⟩ := Appointment.create_eq_some hcr
    exact ⟨doctor, doc, hd, hres, hst, ham, hpat⟩

/-- The doctor checks of `createAppointment` for a cast `doctorId`: 404 when no
doctor has the id, 400 when the doctor is not available, the store left as it
was, for every content of the appointment collection. -/
theorem createAppointment_doctor_lookup (s : Store) (user : User) (body : CreateBody)
    (newId : ObjectId) :
    (Doctor.findById s.doctors body.doctorId = none →
      ∀ docs : List Appointment,
        createAppointment { s with appointments := docs } user body newId =
          ({ status := 404, body := Payload.message "Doctor not found" },
           { s with appointments := docs })) ∧
    (∀ doctor, Doctor.findById s.doctors body.doctorId = some doctor →
      doctor.isAvailable = false →
      ∀ docs : List Appointment,
        createAppointment { s with appointments := docs } user body newId =
          ({ status := 400, body := Payload.message "Doctor is not available" },
           { s with appointments := docs })) := by
  constructor
  · intro hd docs
    simp [createAppointment, hd]
  · intro doctor hd ha docs
    simp [createAppointment, hd, ha]

/-- C5 (amended): for a `doctorId` that is absent or casts to an ObjectId,
`createAppointment` answers 404 `Doctor not found` when no doctor has the id
and 400 `Doctor is not available` when the doctor has `isAvailable = false`;
for a `doctorId` that does not cast to an ObjectId it answers 500
`Server error`. In the three cases the store is left as it was, and the answer
is the same for every content of the appointment collection. -/
theorem createAppointmentRequest_doctor_checks (s : Store) (user : User)
    (doctorId : Option IdText) (body : CreateBody) (newId : ObjectId) :
    (∀ id, castDoctorId doctorId = some id → Doctor.findById s.doctors id = none →
      ∀ docs : List Appointment,
        createAppointmentRequest { s with appointments := docs } user doctorId body newId =
          ({ status := 404, body := Payload.message "Doctor not found" },
           { s with appointments := docs })) ∧
    (∀ id doctor, castDoctorId doctorId = some id →
      Doctor.findById s.doctors id = some doctor → doctor.isAvailable = false →
      ∀ docs : List Appointment,
        createAppointmentRequest { s with appointments := docs } user doctorId body newId =
          ({ status := 400, body := Payload.message "Doctor is not available" },
           { s with appointments := docs })) ∧
    (castDoctorId doctorId = none →
      ∀ docs : List Appointment,
        createAppointmentRequest { s with appointments := docs } user doctorId body newId =
          ({ status := 500, body := Payload.message "Server error" },
           { s with appointments := docs })) := by
  refine ⟨?_, ?_, ?_⟩
  · intro id hcast hd docs
    unfold createAppointmentRequest
    rw [hcast]
    exact (createAppointment_doctor_lookup s user { body with doctorId := id } newId).1 hd docs
  · intro id doctor hcast hd ha docs
    unfold createAppointmentRequest
    rw [hcast]
    exact (createAppointment_doctor_lookup s user { body with doctorId := id } newId).2
      doctor hd ha docs
  · intro hcast docs
    unfold createAppointmentRequest
    rw [hcast]
    rfl

/-- C5 (counterexample): alice sends a booking whose `doctorId` is text that is
no ObjectId, such as `abc`. No doctor has this id, yet the answer is 500
`Server error` and not 404. -/
theorem createAppointmentRequest_malformed_doctorId :
    (∀ d ∈ clinic.doctors, IdText.malformed.cast ≠ some d._id) ∧
    createAppointmentRequest clinic alice (some IdText.malformed)
        (booking 1704844800000 "09:00" "09:30") 100 =
      ({ status := 500, body := Payload.message "Server error" }, clinic) ∧
    (createAppointmentRequest clinic alice (some IdText.malformed)
        (booking 1704844800000 "09:00" "09:30") 100).1.status ≠ 404 := by
  refine ⟨?_, rfl, ?_⟩
  · intro d _ h
    cases h
  · decide

/-- C4 (witness): a booking whose body also carries `status: completed`,
`amount: 0` and another `patientId` is answered 201, and the stored document
has the values of the handler. -/
theorem createAppointment_success_fields_witness :
    (createAppointment clinic alice (bookingWithExtras 1704844800000 "09:00" "09:30") 100).1.status
        = 201 ∧
      ∃ doctor doc,
        Doctor.findById clinic.doctors
          (bookingWithExtras 1704844800000 "09:00" "09:30").doctorId = some doctor ∧
        createAppointment clinic alice (bookingWithExtras 1704844800000 "09:00" "09:30") 100 =
          ({ status := 201, body := Payload.appointment doc },
           { clinic with appointments := clinic.appointments ++ [doc] }) ∧
        doc.status = Status.pending ∧
        doc.amount = doctor.consultationFee ∧
        doc.patientId = alice._id :=
  ⟨rfl, createAppointment_success_fields clinic alice
    (bookingWithExtras 1704844800000 "09:00" "09:30") 100 rfl⟩

/-- C5 (witness): with a conflicting appointment in the store, an unknown
doctor id is answered 404, the doctor who takes no bookings is answered 400
`Doctor is not available` and text that is no ObjectId is answered 500. -/
theorem createAppointmentRequest_doctor_checks_witness :
    createAppointmentRequest (clinicWith (visit Status.pending)) alice
        (some (IdText.objectId 77)) (booking 1704844800000 "09:00" "09:30") 101 =
      ({ status := 404, body := Payload.message "Doctor not found" },
       clinicWith (visit Status.pending)) ∧
    createAppointmentRequest (clinicWith (visit Status.pending)) alice
        (some (IdText.objectId 11)) (booking 1704844800000 "09:00" "09:30") 101 =
      ({ status := 400, body := Payload.message "Doctor is not available" },
       clinicWith (visit Status.pending)) ∧
    createAppointmentRequest (clinicWith (visit Status.pending)) alice
        (some IdText.malformed) (booking 1704844800000 "09:00" "09:30") 101 =
      ({ status := 500, body := Payload.message "Server error" },
       clinicWith (visit Status.pending)) :=
  ⟨(createAppointmentRequest_doctor_checks (clinicWith (visit Status.pending)) alice
      (some (IdText.objectId 77)) (booking 1704844800000 "09:00" "09:30") 101).1
      (some 77) rfl rfl [visit Status.pending],
   (createAppointmentRequest_doctor_checks (clinicWith (visit Status.pending)) alice
      (some (IdText.objectId 11)) (booking 1704844800000 "09:00" "09:30") 101).2.1
      (some 11) drOff rfl rfl rfl [visit Status.pending],
   (createAppointmentRequest_doctor_checks (clinicWith (visit Status.pending)) alice
      (some IdText.malformed) (booking 1704844800000 "09:00" "09:30") 101).2.2
      rfl [visit Status.pending]⟩

/-! ## Lemmas on stored documents -/

theorem Appointment.findById_eq_some {docs : List Appointment} {id : ObjectId}
    {a : Appointment} (h : Appointment.findById docs id = some a) : a ∈ docs ∧ a._id = id := by
  refine ⟨List.mem_of_find?_eq_some h, ?_⟩
  simpa using List.find?_some h

/-- After `Appointment.save`, the id of the saved document finds the saved document. -/
theorem Appointment.findById_save {docs : List Appointment} {doc old : Appointment}
    (h : Appointment.findById docs doc._id = some old) :
    Appointment.findById (Appointment.save doc docs) doc._id = some doc := by
  induction docs with
  | nil => simp [Appointment.findById] at h
  | cons a rest ih =>
    unfold Appointment.findById at h ih ⊢
    by_cases hid : a._id = doc._id
    · simp [Appointment.save, hid]
    · simp only [Appointment.save, beq_iff_eq, hid, if_false, List.find?_cons] at h ⊢
      simp only [show (a._id == doc._id) = false from by simpa using hid] at h ⊢
      exact ih h

/-- A document saved under the id of a stored document is what that id finds
afterwards. -/
theorem Appointment.findById_save_of_found {docs : List Appointment} {id : ObjectId}
    {a u : Appointment} (hf : Appointment.findById docs id = some a) (hu : u._id = a._id) :
    Appointment.findById (Appointment.save u docs) id = some u := by
  have hid : a._id = id := (Appointment.findById_eq_some hf).2
  have h2 : Appointment.findById docs u._id = some a := by
    rw [hu, hid]; exact hf
  have h3 := Appointment.findById_save h2
  rw [hu, hid] at h3
  exact h3

/-- Saving a document that satisfies `p` only if the document it replaces did
does not raise the number of documents that satisfy `p`. -/
theorem countP_save_le {p : Appointment → Bool} {docs : List Appointment}
    {doc old : Appointment} (h : Appointment.findById docs doc._id = some old)
    (hp : p doc = true → p old = true) :
    (Appointment.save doc docs).countP p ≤ docs.countP p := by
  induction docs with
  | nil => simp [Appointment.save]
  | cons a rest ih =>
    unfold Appointment.findById at h ih
    by_cases hid : a._id = doc._id
    · have hold : a = old := by simpa [List.find?_cons, hid] using h
      subst hold
      simp only [Appointment.save, hid, beq_self_eq_true, if_true, List.countP_cons]
      by_cases hd : p doc = true
      · simp [hd, hp hd]
      · simp [hd]
    · have hne : (a._id == doc._id) = false := by simpa using hid
      simp only [List.find?_cons, hne] at h
      simp only [Appointment.save, hne, Bool.false_eq_true, if_false, List.countP_cons]
      have := ih h
      omega

/-- Every way `cancelAppointment` can end. -/
theorem cancelAppointment_cases (s : Store) (user : User) (id : ObjectId) (body : CancelBody) :
    ((cancelAppointment s user id body).2 = s ∧
        (cancelAppointment s user id body).1.status ≠ 200) ∨
    ∃ a, Appointment.findById s.appointments id = some a ∧
      notAuthorized user a = false ∧
      a.status ≠ Status.completed ∧ a.status ≠ Status.cancelled ∧
      cancelAppointment s user id body =
        ({ status := 200,
           body := Payload.appointment
             { a with status := Status.cancelled,
                      cancellationReason := body.cancellationReason,
                      cancelledBy := some (cancelledByOf user a) } },
         { s with appointments :=
             Appointment.save { a with status := Status.cancelled,
                                       cancellationReason := body.cancellationReason,
                                       cancelledBy := some (cancelledByOf user a) }
                              s.appointments }) := by
  cases hf : Appointment.findById s.appointments id with
  | none => left; simp [cancelAppointment, hf]
  | some a =>
    cases hauth : notAuthorized user a with
    | true => left; simp [cancelAppointment, hf, hauth]
    | false =>
      by_cases hst : a.status = Status.completed ∨ a.status = Status.cancelled
      · left
        rcases hst with h | h <;> simp [cancelAppointment, hf, hauth, h]
      · right
        have h1 : a.status ≠ Status.completed := fun h => hst (Or.inl h)
        have h2 : a.status ≠ Status.cancelled := fun h => hst (Or.inr h)
        exact ⟨a, rfl, hauth, h1, h2, by simp [cancelAppointment, hf, hauth, h1, h2]⟩

/-- Every way `completeAppointment` can end. -/
theorem completeAppointment_cases (s : Store) (user : User) (id : ObjectId)
    (body : CompleteBody) :
    ((completeAppointment s user id body).2 = s ∧
        (completeAppointment s user id body).1.status ≠ 200) ∨
    ∃ a, Appointment.findById s.appointments id = some a ∧
      (a.doctorId = user._id ∨ user.role = Role.admin) ∧
      completeAppointment s user id body =
        ({ status := 200,
           body := Payload.appointment
             { a with status := Status.completed, prescription := body.prescription,
                      notes := body.notes } },
         { s with appointments :=
             Appointment.save { a with status := Status.completed,
                                       prescription := body.prescription,
                                       notes := body.notes }
                              s.appointments }) := by
  cases hf : Appointment.findById s.appointments id with
  | none => left; simp [completeAppointment, hf]
  | some a =>
    by_cases hauth : a.doctorId = user._id ∨ user.role = Role.admin
    · right
      refine ⟨a, rfl, hauth, ?_⟩
      rcases hauth with h | h <;> simp [completeAppointment, hf, h]
    · left
      have h1 : a.doctorId ≠ user._id := fun h => hauth (Or.inl h)
      have h2 : user.role ≠ Role.admin := fun h => hauth (Or.inr h)
      simp [completeAppointment, hf, h1, h2]

/-- Every way `updateAppointment` can end. -/
theorem updateAppointment_cases (s : Store) (user : User) (id : ObjectId) (body : UpdateBody) :
    ((updateAppointment s user id body).2 = s ∧
        (updateAppointment s user id body).1.status ≠ 200) ∨
    ∃ a u, Appointment.findById s.appointments id = some a ∧
      notAuthorized user a = false ∧
      a.applyUpdate body = some u ∧
      updateAppointment s user id body =
        ({ status := 200, body := Payload.appointment u },
         { s with appointments := Appointment.save u s.appointments }) := by
  cases hf : Appointment.findById s.appointments id with
  | none => left; simp [updateAppointment, hf]
  | some a =>
    cases hauth : notAuthorized user a with
    | true => left; simp [updateAppointment, hf, hauth]
    | false =>
      cases hu : a.applyUpdate body with
      | none => left; simp [updateAppointment, hf, hauth, hu, serverError]
      | some u =>
        right
        exact ⟨a, u, rfl, hauth, hu, by simp [updateAppointment, hf, hauth, hu]⟩

/-- What one operator entry keeps: the id always, and each of status, patient,
doctor, date, start time and amount when the entry writes another path. -/
theorem OperatorEntry.apply_keeps {stored a r : Appointment} {entry : OperatorEntry}
    (h : entry.apply stored a = some r) :
    r._id = a._id ∧
    (entry.path ≠ SchemaPath.status → r.status = a.status) ∧
    (entry.path ≠ SchemaPath.patientId → r.patientId = a.patientId) ∧
    (entry.path ≠ SchemaPath.doctorId → r.doctorId = a.doctorId) ∧
    (entry.path ≠ SchemaPath.appointmentDate → r.appointmentDate = a.appointmentDate) ∧
    (entry.path ≠ SchemaPath.startTime → r.startTime = a.startTime) ∧
    (entry.path ≠ SchemaPath.amount → r.amount = a.amount) := by
  cases entry <;>
    simp only [OperatorEntry.apply, Option.map_eq_some'] at h <;>
    obtain ⟨v, _, rfl⟩ := h <;>
    simp [OperatorEntry.path]

/-- What the operator entries of a body keep: the id always, and each of
status, patient, doctor, date, start time and amount when no entry writes that
path. -/
theorem applyOperators_keeps {stored : Appointment} {entries : List OperatorEntry}
    {a r : Appointment} (h : applyOperators stored entries a = some r) :
    r._id = a._id ∧
    (entries.all (fun e => e.path != SchemaPath.status) = true → r.status = a.status) ∧
    (entries.all (fun e => e.path != SchemaPath.patientId) = true →
      r.patientId = a.patientId) ∧
    (entries.all (fun e => e.path != SchemaPath.doctorId) = true →
      r.doctorId = a.doctorId) ∧
    (entries.all (fun e => e.path != SchemaPath.appointmentDate) = true →
      r.appointmentDate = a.appointmentDate) ∧
    (entries.all (fun e => e.path != SchemaPath.startTime) = true →
      r.startTime = a.startTime) ∧
    (entries.all (fun e => e.path != SchemaPath.amount) = true → r.amount = a.amount) := by
  induction entries generalizing a with
  | nil =>
    simp only [applyOperators, Option.some.injEq] at h
    subst h
    exact ⟨rfl, fun _ => rfl, fun _ => rfl, fun _ => rfl, fun _ => rfl, fun _ => rfl,
      fun _ => rfl⟩
  | cons entry rest ih =>
    simp only [applyOperators] at h
    cases hw : entry.apply stored a with
    | none => rw [hw] at h; exact absurd h (by simp)
    | some written =>
      rw [hw] at h
      obtain ⟨i0, i1, i2, i3, i4, i5, i6⟩ := ih h
      obtain ⟨k0, k1, k2, k3, k4, k5, k6⟩ := OperatorEntry.apply_keeps hw
      simp only [List.all_cons, Bool.and_eq_true, bne_iff_ne, ne_eq]
      exact ⟨i0.trans k0,
        fun hp => (i1 hp.2).trans (k1 hp.1), fun hp => (i2 hp.2).trans (k2 hp.1),
        fun hp => (i3 hp.2).trans (k3 hp.1), fun hp => (i4 hp.2).trans (k4 hp.1),
        fun hp => (i5 hp.2).trans (k5 hp.1), fun hp => (i6 hp.2).trans (k6 hp.1)⟩

/-- What `applyUpdate` keeps: the id always, and each of status, patient,
doctor, date, start time and amount when the body writes that path neither as a
top-level key nor through an operator entry. -/
theorem Appointment.applyUpdate_eq_some {a u : Appointment} {b : UpdateBody}
    (h : a.applyUpdate b = some u) :
    u._id = a._id ∧
    (b.status = none → b.noOperatorOn SchemaPath.status = true → u.status = a.status) ∧
    (b.patientId = none → b.noOperatorOn SchemaPath.patientId = true →
      u.patientId = a.patientId) ∧
    (b.doctorId = none → b.noOperatorOn SchemaPath.doctorId = true →
      u.doctorId = a.doctorId) ∧
    (b.appointmentDate = none → b.noOperatorOn SchemaPath.appointmentDate = true →
      u.appointmentDate = a.appointmentDate) ∧
    (b.startTime = none → b.noOperatorOn SchemaPath.startTime = true →
      u.startTime = a.startTime) ∧
    (b.amount = none → b.noOperatorOn SchemaPath.amount = true → u.amount = a.amount) := by
  unfold Appointment.applyUpdate at h
  split at h
  · rename_i st et rs status ty pay cb hst het hrs hstatus hty hpay hcb
    obtain ⟨k0, k1, k2, k3, k4, k5, k6⟩ := applyOperators_keeps h
    refine ⟨k0, ?_, ?_, ?_, ?_, ?_, ?_⟩
    · intro hb hop
      rw [hb] at hstatus
      rw [k1 hop]
      simpa [setEnum] using hstatus.symm
    · intro hb hop; rw [k2 hop]; simp [hb, setField]
    · intro hb hop; rw [k3 hop]; simp [hb, setField]
    · intro hb hop; rw [k4 hop]; simp [hb, setField]
    · intro hb hop
      rw [hb] at hst
      rw [k5 hop]
      simpa [setRequiredString] using hst.symm
    · intro hb hop; rw [k6 hop]; simp [hb, setField]
  · exact absurd h (by simp)

theorem doctorSlotsUnique_save {docs : List Appointment} {u a : Appointment}
    (h : doctorSlotsUnique docs) (hf : Appointment.findById docs u._id = some a)
    (hk : u.isActive = true → a.isActive = true ∧ a.doctorId = u.doctorId ∧
      a.appointmentDate = u.appointmentDate ∧ a.startTime = u.startTime) :
    doctorSlotsUnique (Appointment.save u docs) := by
  intro d dt st
  refine le_trans (countP_save_le hf ?_) (h d dt st)
  intro hp
  simp only [activeDoctorSlot, Bool.and_eq_true, beq_iff_eq] at hp ⊢
  obtain ⟨h1, h2, h3, h4⟩ := hk hp.1.1.1
  exact ⟨⟨⟨h1, h2.trans hp.1.1.2⟩, h3.trans hp.1.2⟩, h4.trans hp.2⟩

theorem patientSlotsUnique_save {docs : List Appointment} {u a : Appointment}
    (h : patientSlotsUnique docs) (hf : Appointment.findById docs u._id = some a)
    (hk : u.isActive = true → a.isActive = true ∧ a.patientId = u.patientId ∧
      a.appointmentDate = u.appointmentDate ∧ a.startTime = u.startTime) :
    patientSlotsUnique (Appointment.save u docs) := by
  intro d dt st
  refine le_trans (countP_save_le hf ?_) (h d dt st)
  intro hp
  simp only [activePatientSlot, Bool.and_eq_true, beq_iff_eq] at hp ⊢
  obtain ⟨h1, h2, h3, h4⟩ := hk hp.1.1.1
  exact ⟨⟨⟨h1, h2.trans hp.1.1.2⟩, h3.trans hp.1.2⟩, h4.trans hp.2⟩

/-- A call that names no slot path and no status keeps both booking
invariants. -/
theorem Call.exec_slotsUnique (s : Store) (c : Call) (hc : c.keepsSlot = true)
    (h : doctorSlotsUnique s.appointments ∧ patientSlotsUnique s.appointments) :
    doctorSlotsUnique (c.exec s).appointments ∧
      patientSlotsUnique (c.exec s).appointments := by
  cases c with
  | create user body newId =>
    exact ⟨createAppointment_doctorSlotsUnique s user body newId h.1,
      createAppointment_patientSlotsUnique s user body newId h.2⟩
  | update user id body =>
    simp only [Call.exec]
    rcases updateAppointment_cases s user id body with ⟨hs, _⟩ | ⟨a, u, hf, _, hu, hres⟩
    · rw [hs]; exact h
    · rw [hres]
      simp only [Call.keepsSlot, UpdateBody.keepsSlot, Bool.and_eq_true,
        Option.isNone_iff_eq_none] at hc
      obtain ⟨⟨⟨⟨⟨⟨⟨⟨⟨b1, b2⟩, b3⟩, b4⟩, b5⟩, o1⟩, o2⟩, o3⟩, o4⟩, o5⟩ := hc
      obtain ⟨hid, hst, hpat, hdoc, hdate, hstart, _⟩ := Appointment.applyUpdate_eq_some hu
      have hf2 : Appointment.findById s.appointments u._id = some a := by
        rw [hid, (Appointment.findById_eq_some hf).2]; exact hf
      have hact : u.isActive = a.isActive := by
        simp only [Appointment.isActive, hst b5 o5]
      constructor
      · exact doctorSlotsUnique_save h.1 hf2 (fun hu2 =>
          ⟨hact ▸ hu2, (hdoc b2 o2).symm, (hdate b3 o3).symm, (hstart b4 o4).symm⟩)
      · exact patientSlotsUnique_save h.2 hf2 (fun hu2 =>
          ⟨hact ▸ hu2, (hpat b1 o1).symm, (hdate b3 o3).symm, (hstart b4 o4).symm⟩)
  | cancel user id body =>
    simp only [Call.exec]
    rcases cancelAppointment_cases s user id body with ⟨hs, _⟩ | ⟨a, hf, _, _, _, hres⟩
    · rw [hs]; exact h
    · rw [hres]
      have hf2 : Appointment.findById s.appointments a._id = some a := by
        rw [(Appointment.findById_eq_some hf).2]; exact hf
      constructor
      · exact doctorSlotsUnique_save h.1 hf2 (fun hu2 => by
          simp [Appointment.isActive] at hu2)
      · exact patientSlotsUnique_save h.2 hf2 (fun hu2 => by
          simp [Appointment.isActive] at hu2)
  | complete user id body =>
    simp only [Call.exec]
    rcases completeAppointment_cases s user id body with ⟨hs, _⟩ | ⟨a, hf, _, hres⟩
    · rw [hs]; exact h
    · rw [hres]
      have hf2 : Appointment.findById s.appointments a._id = some a := by
        rw [(Appointment.findById_eq_some hf).2]; exact hf
      constructor
      · exact doctorSlotsUnique_save h.1 hf2 (fun hu2 => by
          simp [Appointment.isActive] at hu2)
      · exact patientSlotsUnique_save h.2 hf2 (fun hu2 => by
          simp [Appointment.isActive] at hu2)

/-! ## The booking invariant over sequences of calls -/

/-- C3 (amended): in every store reached from a store without appointments by
a sequence of `createAppointment`, `cancelAppointment` and
`completeAppointment` calls and of `updateAppointment` calls whose body writes
none of `patientId`, `doctorId`, `appointmentDate`, `startTime` and `status`,
neither as a top-level key nor through an update operator, at most one pending or confirmed appointment exists per
(doctor, date, startTime) and at most one per (patient, date, startTime). -/
theorem runCalls_slotsUnique (s : Store) (calls : List Call)
    (hempty : s.appointments = [])
    (hcalls : ∀ c ∈ calls, c.keepsSlot = true) :
    doctorSlotsUnique (runCalls s calls).appointments ∧
      patientSlotsUnique (runCalls s calls).appointments := by
  have hbase : doctorSlotsUnique s.appointments ∧ patientSlotsUnique s.appointments := by
    rw [hempty]
    exact ⟨fun _ _ _ => by simp, fun _ _ _ => by simp⟩
  clear hempty
  induction calls generalizing s with
  | nil => exact hbase
  | cons c rest ih =>
    have hstep := Call.exec_slotsUnique s c (hcalls c (List.mem_cons_self c rest)) hbase
    have hrest : ∀ c2 ∈ rest, c2.keepsSlot = true :=
      fun c2 hc2 => hcalls c2 (List.mem_cons_of_mem c hc2)
    simpa [runCalls] using ih (c.exec s) hrest hstep

/-- C3 (counterexample): alice books `drGrey` at 09:00, bob books him at 10:00
on the same day, then bob moves his booking to 09:00 with `updateAppointment`;
the store then holds two pending appointments of `drGrey` at 09:00. The same
happens when bob sends the new start time under the `$set` operator. -/
theorem runCalls_update_breaks_doctorSlotsUnique :
    clinic.appointments = [] ∧
      (runCalls clinic rescheduleOntoTakenSlot).appointments.countP
        (activeDoctorSlot 10 1704844800000 "09:00") = 2 ∧
      ¬ doctorSlotsUnique (runCalls clinic rescheduleOntoTakenSlot).appointments ∧
      (runCalls clinic rescheduleBySetOperator).appointments.countP
        (activeDoctorSlot 10 1704844800000 "09:00") = 2 ∧
      ¬ doctorSlotsUnique (runCalls clinic rescheduleBySetOperator).appointments := by
  have hcount : (runCalls clinic rescheduleOntoTakenSlot).appointments.countP
      (activeDoctorSlot 10 1704844800000 "09:00") = 2 := by decide
  have hcount2 : (runCalls clinic rescheduleBySetOperator).appointments.countP
      (activeDoctorSlot 10 1704844800000 "09:00") = 2 := by decide
  refine ⟨rfl, hcount, fun h => ?_, hcount2, fun h => ?_⟩
  · have := h 10 1704844800000 "09:00"
    omega
  · have := h 10 1704844800000 "09:00"
    omega

/-- C3 (witness): two bookings, a change of the reason with an `$inc` of the
amount, a cancellation and a completion, from the clinic without appointments. -/
theorem runCalls_slotsUnique_witness :
    (clinic.appointments = [] ∧ ∀ c ∈ ordinaryDay, c.keepsSlot = true) ∧
      doctorSlotsUnique (runCalls clinic ordinaryDay).appointments ∧
      patientSlotsUnique (runCalls clinic ordinaryDay).appointments :=
  ⟨⟨rfl, by decide⟩, runCalls_slotsUnique clinic ordinaryDay rfl (by decide)⟩

/-! ## Status transitions -/

/-- C6 (amended): for a stored appointment, `cancelAppointment` leaves the
store as it was when the status is `completed` or `cancelled`;
`completeAppointment` leaves a `completed` appointment `completed` and changes
nothing for a user who fails its authorization test; `updateAppointment` leaves
the status as it was whenever the body does not write `status`, neither as a
top-level key nor through an update operator. -/
theorem terminal_status_kept (s : Store) (user : User) (id : ObjectId) (a : Appointment)
    (hf : Appointment.findById s.appointments id = some a) :
    (a.status = Status.completed ∨ a.status = Status.cancelled →
      ∀ body, (cancelAppointment s user id body).2 = s) ∧
    (a.status = Status.completed →
      ∀ body, (Appointment.findById (completeAppointment s user id body).2.appointments id).map
        (fun d => d.status) = some Status.completed) ∧
    (a.doctorId ≠ user._id ∧ user.role ≠ Role.admin →
      ∀ body, (completeAppointment s user id body).2 = s) ∧
    (∀ body : UpdateBody, body.keepsStatus = true →
      (Appointment.findById (updateAppointment s user id body).2.appointments id).map
        (fun d => d.status) = some a.status) := by
  have hid : a._id = id := (Appointment.findById_eq_some hf).2
  refine ⟨?_, ?_, ?_, ?_⟩
  · intro hst body
    rcases cancelAppointment_cases s user id body with ⟨hs, _⟩ | ⟨a2, hf2, _, h1, h2, _⟩
    · exact hs
    · rw [hf] at hf2
      cases hf2
      rcases hst with h | h
      · exact absurd h h1
      · exact absurd h h2
  · intro hst body
    rcases completeAppointment_cases s user id body with ⟨hs, _⟩ | ⟨a2, hf2, _, hres⟩
    · rw [hs, hf]
      simp [hst]
    · rw [hf] at hf2
      cases hf2
      rw [hres]
      have hfind := Appointment.findById_save_of_found hf
        (show ({ a with status := Status.completed, prescription := body.prescription,
                        notes := body.notes } : Appointment)._id = a._id from rfl)
      simp only [hfind, Option.map_some']
  · intro hno body
    rcases completeAppointment_cases s user id body with ⟨hs, _⟩ | ⟨a2, hf2, hauth, _⟩
    · exact hs
    · rw [hf] at hf2
      cases hf2
      rcases hauth with h | h
      · exact absurd h hno.1
      · exact absurd h hno.2
  · intro body hb
    rcases updateAppointment_cases s user id body with ⟨hs, _⟩ | ⟨a2, u, hf2, _, hu, hres⟩
    · rw [hs, hf]
      rfl
    · rw [hf] at hf2
      cases hf2
      obtain ⟨huid, hst, _⟩ := Appointment.applyUpdate_eq_some hu
      have hfind := Appointment.findById_save_of_found hf huid
      simp only [UpdateBody.keepsStatus, Bool.and_eq_true, Option.isNone_iff_eq_none] at hb
      rw [hres]
      simp only [hfind, Option.map_some', hst hb.1 hb.2]

/-- C6 (counterexample): the patient cancels a `no-show` appointment and it
becomes `cancelled`; the administrator completes a `cancelled` appointment and
it becomes `completed`; the patient sends `status: pending` to
`updateAppointment` for a `completed` appointment and it becomes `pending`, and
so it does when she sends `{"$set": {"status": "pending"}}`. -/
theorem terminal_status_left :
    (Appointment.findById
        (cancelAppointment (clinicWith (visit Status.noShow)) alice 100
          { cancellationReason := none }).2.appointments 100).map (fun d => d.status)
      = some Status.cancelled ∧
    (Appointment.findById
        (completeAppointment (clinicWith (visit Status.cancelled)) root 100
          { prescription := none, notes := none }).2.appointments 100).map (fun d => d.status)
      = some Status.completed ∧
    (Appointment.findById
        (updateAppointment (clinicWith (visit Status.completed)) alice 100
          { noChange with status := some "pending" }).2.appointments 100).map (fun d => d.status)
      = some Status.pending ∧
    (Appointment.findById
        (updateAppointment (clinicWith (visit Status.completed)) alice 100
          setStatusPending).2.appointments 100).map (fun d => d.status)
      = some Status.pending := by
  refine ⟨?_, ?_, ?_, ?_⟩ <;> decide

/-- C6 (witness): a `completed` appointment in the clinic; the patient's
cancel leaves the store as it was and an update of the reason with an `$inc` of
the amount leaves the status. -/
theorem terminal_status_kept_witness :
    Appointment.findById (clinicWith (visit Status.completed)).appointments 100
        = some (visit Status.completed) ∧
      (cancelAppointment (clinicWith (visit Status.completed)) alice 100
          { cancellationReason := some "late" }).2 = clinicWith (visit Status.completed) ∧
      (Appointment.findById
          (updateAppointment (clinicWith (visit Status.completed)) alice 100
            { incAmount (-50) with reason := some "follow-up" }).2.appointments 100).map
          (fun d => d.status) = some Status.completed :=
  ⟨rfl,
   (terminal_status_kept (clinicWith (visit Status.completed)) alice 100
      (visit Status.completed) rfl).1 (Or.inl rfl) { cancellationReason := some "late" },
   (terminal_status_kept (clinicWith (visit Status.completed)) alice 100
      (visit Status.completed) rfl).2.2.2
      { incAmount (-50) with reason := some "follow-up" } rfl⟩

/-! ## cancelAppointment -/

/-- C7: for a stored appointment and a user who passes the authorization test
of `cancelAppointment`, the call answers 400 `Appointment cannot be cancelled`
and leaves the store as it was when the status is `completed` or `cancelled`,
and answers 200 for every other status. -/
theorem cancelAppointment_status_guard (s : Store) (user : User) (id : ObjectId)
    (body : CancelBody) (a : Appointment)
    (hf : Appointment.findById s.appointments id = some a)
    (hauth : notAuthorized user a = false) :
    (a.status = Status.completed ∨ a.status = Status.cancelled →
      cancelAppointment s user id body =
        ({ status := 400, body := Payload.message "Appointment cannot be cancelled" }, s)) ∧
    (a.status ≠ Status.completed ∧ a.status ≠ Status.cancelled →
      (cancelAppointment s user id body).1.status = 200) := by
  constructor
  · intro hst
    rcases hst with h | h <;> simp [cancelAppointment, hf, hauth, h]
  · intro hst
    simp [cancelAppointment, hf, hauth, hst.1, hst.2]

/-- C7 (witness): the patient cancels her own appointment, once when it is
`completed` and once when it is `pending`. -/
theorem cancelAppointment_status_guard_witness :
    (Appointment.findById (clinicWith (visit Status.completed)).appointments 100
        = some (visit Status.completed) ∧
      notAuthorized alice (visit Status.completed) = false) ∧
    cancelAppointment (clinicWith (visit Status.completed)) alice 100
        { cancellationReason := some "late" } =
      ({ status := 400, body := Payload.message "Appointment cannot be cancelled" },
       clinicWith (visit Status.completed)) ∧
    (cancelAppointment (clinicWith (visit Status.pending)) alice 100
        { cancellationReason := some "late" }).1.status = 200 :=
  ⟨⟨rfl, rfl⟩,
   (cancelAppointment_status_guard (clinicWith (visit Status.completed)) alice 100
      { cancellationReason := some "late" } (visit Status.completed) rfl rfl).1 (Or.inl rfl),
   (cancelAppointment_status_guard (clinicWith (visit Status.pending)) alice 100
      { cancellationReason := some "late" } (visit Status.pending) rfl rfl).2
      ⟨by decide, by decide⟩⟩

/-- C8: after a `cancelAppointment` call that answered 200, a second
`cancelAppointment` call on the same appointment by the same user answers 400
`Appointment cannot be cancelled` and leaves the store exactly as the first
call left it. -/
theorem cancelAppointment_twice (s : Store) (user : User) (id : ObjectId)
    (body again : CancelBody)
    (h : (cancelAppointment s user id body).1.status = 200) :
    cancelAppointment (cancelAppointment s user id body).2 user id again =
      ({ status := 400, body := Payload.message "Appointment cannot be cancelled" },
       (cancelAppointment s user id body).2) := by
  rcases cancelAppointment_cases s user id body with ⟨_, hne⟩ | ⟨a, hf, hauth, _, _, hres⟩
  · exact absurd h hne
  · rw [hres]
    have hfind := Appointment.findById_save_of_found hf
      (show ({ a with status := Status.cancelled,
                      cancellationReason := body.cancellationReason,
                      cancelledBy := some (cancelledByOf user a) } : Appointment)._id = a._id
        from rfl)
    have hauth2 : notAuthorized user
        { a with status := Status.cancelled,
                 cancellationReason := body.cancellationReason,
                 cancelledBy := some (cancelledByOf user a) } = false := hauth
    simp only [cancelAppointment, hfind, hauth2]
    simp

/-- C8 (witness): the patient cancels her pending appointment twice. -/
theorem cancelAppointment_twice_witness :
    (cancelAppointment (clinicWith (visit Status.pending)) alice 100
        { cancellationReason := some "late" }).1.status = 200 ∧
    cancelAppointment
        (cancelAppointment (clinicWith (visit Status.pending)) alice 100
          { cancellationReason := some "late" }).2 alice 100 { cancellationReason := none } =
      ({ status := 400, body := Payload.message "Appointment cannot be cancelled" },
       (cancelAppointment (clinicWith (visit Status.pending)) alice 100
          { cancellationReason := some "late" }).2) :=
  ⟨rfl, cancelAppointment_twice (clinicWith (visit Status.pending)) alice 100
    { cancellationReason := some "late" } { cancellationReason := none } rfl⟩

/-- C9: after a `cancelAppointment` call that answered 200, the appointment
has `status = cancelled`, `cancellationReason` equal to the reason of the
request, and `cancelledBy` equal to `admin` when the user's role is admin,
else `patient` when the user's id is the appointment's `patientId`, else
`doctor`; every other field of the appointment is as before, the response
carries that document, and users and doctors are untouched. -/
theorem cancelAppointment_success_fields (s : Store) (user : User) (id : ObjectId)
    (body : CancelBody)
    (h : (cancelAppointment s user id body).1.status = 200) :
    ∃ a, Appointment.findById s.appointments id = some a ∧
      Appointment.findById (cancelAppointment s user id body).2.appointments id =
        some { a with
          status := Status.cancelled,
          cancellationReason := body.cancellationReason,
          cancelledBy := some (if user.role = Role.admin then CancelledBy.admin
            else if user._id = a.patientId then CancelledBy.patient
            else CancelledBy.doctor) } ∧
      (cancelAppointment s user id body).1.body = Payload.appointment
        { a with
          status := Status.cancelled,
          cancellationReason := body.cancellationReason,
          cancelledBy := some (if user.role = Role.admin then CancelledBy.admin
            else if user._id = a.patientId then CancelledBy.patient
            else CancelledBy.doctor) } ∧
      (cancelAppointment s user id body).2.users = s.users ∧
      (cancelAppointment s user id body).2.doctors = s.doctors := by
  rcases cancelAppointment_cases s user id body with ⟨_, hne⟩ | ⟨a, hf, _, _, _, hres⟩
  · exact absurd h hne
  · have hby : cancelledByOf user a =
        (if user.role = Role.admin then CancelledBy.admin
          else if user._id = a.patientId then CancelledBy.patient
          else CancelledBy.doctor) := by
      unfold cancelledByOf
      by_cases hr : user.role = Role.admin
      · simp [hr]
      · by_cases hp : a.patientId = user._id
        · simp [hr, hp]
        · have hp2 : ¬ user._id = a.patientId := fun h2 => hp h2.symm
          simp [hr, hp, hp2]
    have hfind := Appointment.findById_save_of_found hf
      (show ({ a with status := Status.cancelled,
                      cancellationReason := body.cancellationReason,
                      cancelledBy := some (cancelledByOf user a) } : Appointment)._id = a._id
        from rfl)
    refine ⟨a, hf, ?_, ?_, ?_, ?_⟩
    · rw [hres, ← hby]
      exact hfind
    · rw [hres, ← hby]
    · rw [hres]
    · rw [hres]

/-- C9 (witness): the administrator cancels alice's pending appointment. -/
theorem cancelAppointment_success_fields_witness :
    (cancelAppointment (clinicWith (visit Status.pending)) root 100
        { cancellationReason := some "clinic closed" }).1.status = 200 ∧
    Appointment.findById
        (cancelAppointment (clinicWith (visit Status.pending)) root 100
          { cancellationReason := some "clinic closed" }).2.appointments 100 =
      some { visit Status.pending with
        status := Status.cancelled,
        cancellationReason := some "clinic closed",
        cancelledBy := some CancelledBy.admin } := by
  refine ⟨rfl, ?_⟩
  obtain ⟨a, hf, hnew, _⟩ := cancelAppointment_success_fields
    (clinicWith (visit Status.pending)) root 100
    { cancellationReason := some "clinic closed" } rfl
  have ha : a = visit Status.pending := by
    have h0 : Appointment.findById (clinicWith (visit Status.pending)).appointments 100
        = some (visit Status.pending) := rfl
    rw [h0] at hf
    exact (Option.some.inj hf).symm
  rw [hnew, ha]
  rfl

/-! ## completeAppointment -/

/-- C10 (amended): for a stored appointment and a user whose id is the
appointment's `patientId`, whose role is not admin and whose id is not also
the value of the appointment's `doctorId`, `completeAppointment` answers 403
and leaves the store as it was. -/
theorem completeAppointment_patient_forbidden (s : Store) (user : User) (id : ObjectId)
    (body : CompleteBody) (a : Appointment)
    (hf : Appointment.findById s.appointments id = some a)
    (_hpatient : user._id = a.patientId)
    (hrole : user.role ≠ Role.admin)
    (hdoctor : a.doctorId ≠ user._id) :
    completeAppointment s user id body =
      ({ status := 403, body := Payload.message "Not authorized to complete this appointment" },
       s) := by
  have hguard : (a.doctorId != user._id && user.role != Role.admin) = true := by
    simp [hdoctor, hrole]
  unfold completeAppointment
  rw [hf]
  simp only [hguard, if_true]

/-- C10 (counterexample): the administrator `root` is the patient of the
appointment and completes it: the answer is 200 and the status becomes
`completed`. -/
theorem completeAppointment_by_admin_patient :
    Appointment.findById (clinicWith visitOfRoot).appointments 100 = some visitOfRoot ∧
    root._id = visitOfRoot.patientId ∧
    (completeAppointment (clinicWith visitOfRoot) root 100
        { prescription := none, notes := some "rest" }).1.status = 200 ∧
    (Appointment.findById
        (completeAppointment (clinicWith visitOfRoot) root 100
          { prescription := none, notes := some "rest" }).2.appointments 100).map
        (fun d => d.status) = some Status.completed := by
  refine ⟨rfl, rfl, rfl, ?_⟩
  decide

/-- C10 (witness): the patient alice tries to complete her own appointment. -/
theorem completeAppointment_patient_forbidden_witness :
    (Appointment.findById (clinicWith (visit Status.pending)).appointments 100
        = some (visit Status.pending) ∧
      alice._id = (visit Status.pending).patientId ∧
      alice.role ≠ Role.admin ∧
      (visit Status.pending).doctorId ≠ alice._id) ∧
    completeAppointment (clinicWith (visit Status.pending)) alice 100
        { prescription := none, notes := some "rest" } =
      ({ status := 403, body := Payload.message "Not authorized to complete this appointment" },
       clinicWith (visit Status.pending)) :=
  ⟨⟨rfl, rfl, by decide, by decide⟩,
   completeAppointment_patient_forbidden (clinicWith (visit Status.pending)) alice 100
     { prescription := none, notes := some "rest" } (visit Status.pending) rfl rfl
     (by decide) (by decide)⟩

/-- C11 (failing input): the user `grey` owns the profile `drGrey`, which the
pending appointment of alice refers to, yet `completeAppointment` called by
`grey` answers 403 and leaves the store as it was: the handler compares the
user id with the id of the profile, not with the `userId` of the profile. -/
theorem completeAppointment_refuses_profile_owner :
    Appointment.findById (ward (visit Status.pending)).appointments 100
        = some (visit Status.pending) ∧
    Doctor.findById (ward (visit Status.pending)).doctors
        (some (visit Status.pending).doctorId) = some drGrey ∧
    drGrey.userId = grey._id ∧
    completeAppointment (ward (visit Status.pending)) grey 100
        { prescription := some restAndFluids, notes := none } =
      ({ status := 403, body := Payload.message "Not authorized to complete this appointment" },
       ward (visit Status.pending)) := by
  refine ⟨rfl, rfl, rfl, ?_⟩
  decide

/-- C12: when `completeAppointment` finds the appointment and the user passes
its authorization test, the call answers 200 and the appointment afterwards is
the former one with `status = completed` and with `prescription` and `notes`
set to the values of the request; every other field is as before, and users
and doctors are untouched. -/
theorem completeAppointment_success_fields (s : Store) (user : User) (id : ObjectId)
    (body : CompleteBody) (a : Appointment)
    (hf : Appointment.findById s.appointments id = some a)
    (hauth : a.doctorId = user._id ∨ user.role = Role.admin) :
    (completeAppointment s user id body).1 =
      { status := 200,
        body := Payload.appointment
          { a with status := Status.completed, prescription := body.prescription,
                   notes := body.notes } } ∧
    Appointment.findById (completeAppointment s user id body).2.appointments id =
      some { a with status := Status.completed, prescription := body.prescription,
                    notes := body.notes } ∧
    (completeAppointment s user id body).2.users = s.users ∧
    (completeAppointment s user id body).2.doctors = s.doctors := by
  have hguard : (a.doctorId != user._id && user.role != Role.admin) = false := by
    rcases hauth with h | h <;> simp [h]
  have hres : completeAppointment s user id body =
      ({ status := 200,
         body := Payload.appointment
           { a with status := Status.completed, prescription := body.prescription,
                    notes := body.notes } },
       { s with appointments :=
           Appointment.save { a with status := Status.completed,
                                     prescription := body.prescription,
                                     notes := body.notes }
                            s.appointments }) := by
    unfold completeAppointment
    rw [hf]
    simp only [hguard, Bool.false_eq_true, if_false]
  have hfind := Appointment.findById_save_of_found hf
    (show ({ a with status := Status.completed, prescription := body.prescription,
                    notes := body.notes } : Appointment)._id = a._id from rfl)
  rw [hres]
  exact ⟨rfl, hfind, rfl, rfl⟩

/-- C12 (witness): the administrator completes alice's pending appointment
with a prescription and no notes. -/
theorem completeAppointment_success_fields_witness :
    (Appointment.findById (ward (visit Status.pending)).appointments 100
        = some (visit Status.pending) ∧
      ((visit Status.pending).doctorId = root._id ∨ root.role = Role.admin)) ∧
    Appointment.findById
        (completeAppointment (ward (visit Status.pending)) root 100
          { prescription := some restAndFluids, notes := none }).2.appointments 100 =
      some { visit Status.pending with
        status := Status.completed, prescription := some restAndFluids, notes := none } :=
  ⟨⟨rfl, Or.inr rfl⟩,
   (completeAppointment_success_fields (ward (visit Status.pending)) root 100
      { prescription := some restAndFluids, notes := none } (visit Status.pending) rfl
      (Or.inr rfl)).2.1⟩

/-! ## The amount of an appointment -/

theorem Appointment.findById_save_of_ne {docs : List Appointment} {u : Appointment}
    {id : ObjectId} (h : u._id ≠ id) :
    Appointment.findById (Appointment.save u docs) id = Appointment.findById docs id := by
  induction docs with
  | nil => rfl
  | cons a rest ih =>
    unfold Appointment.findById at ih ⊢
    by_cases hau : a._id = u._id
    · have hai : ¬ a._id = id := fun h2 => h (hau.symm.trans h2)
      simp [Appointment.save, hau, List.find?_cons, h, hai]
    · have hne : (a._id == u._id) = false := by simpa using hau
      simp only [Appointment.save, hne, Bool.false_eq_true, if_false, List.find?_cons]
      cases hid : a._id == id with
      | true => rfl
      | false => exact ih

theorem Appointment.findById_append_of_found {docs : List Appointment} {id : ObjectId}
    {a : Appointment} (doc : Appointment) (h : Appointment.findById docs id = some a) :
    Appointment.findById (docs ++ [doc]) id = some a := by
  unfold Appointment.findById at h ⊢
  rw [List.find?_append, h]
  rfl

/-- Saving over a stored document a document with the same amount keeps the
amount found under every id. -/
theorem Appointment.findById_save_amount {docs : List Appointment} {id id0 : ObjectId}
    {a a0 u : Appointment} (hf : Appointment.findById docs id = some a)
    (hf0 : Appointment.findById docs id0 = some a0) (hid : u._id = a0._id)
    (ham : u.amount = a0.amount) :
    ∃ a2, Appointment.findById (Appointment.save u docs) id = some a2 ∧
      a2.amount = a.amount := by
  by_cases h : id0 = id
  · subst h
    rw [hf] at hf0
    cases hf0
    exact ⟨u, Appointment.findById_save_of_found hf hid, ham⟩
  · have hne : u._id ≠ id := by
      rw [hid, (Appointment.findById_eq_some hf0).2]
      exact h
    exact ⟨a, by rw [Appointment.findById_save_of_ne hne]; exact hf, rfl⟩

/-- A call that does not write `amount` keeps the amount of every stored
appointment. -/
theorem Call.exec_keeps_amount (s : Store) (c : Call) (hc : c.keepsAmount = true)
    (id : ObjectId) (a : Appointment)
    (hf : Appointment.findById s.appointments id = some a) :
    ∃ a2, Appointment.findById (c.exec s).appointments id = some a2 ∧
      a2.amount = a.amount := by
  cases c with
  | create user body newId =>
    simp only [Call.exec]
    rcases createAppointment_cases s user body newId with ⟨hs, _⟩ |
      ⟨_, _, doc, _, _, _, _, _, _, hres⟩
    · rw [hs]; exact ⟨a, hf, rfl⟩
    · rw [hres]; exact ⟨a, Appointment.findById_append_of_found doc hf, rfl⟩
  | update user id0 body =>
    simp only [Call.exec]
    rcases updateAppointment_cases s user id0 body with ⟨hs, _⟩ | ⟨a0, u, hf0, _, hu, hres⟩
    · rw [hs]; exact ⟨a, hf, rfl⟩
    · rw [hres]
      simp only [Call.keepsAmount, UpdateBody.keepsAmount, Bool.and_eq_true,
        Option.isNone_iff_eq_none] at hc
      obtain ⟨hid, _, _, _, _, _, ham⟩ := Appointment.applyUpdate_eq_some hu
      exact Appointment.findById_save_amount hf hf0 hid (ham hc.1 hc.2)
  | cancel user id0 body =>
    simp only [Call.exec]
    rcases cancelAppointment_cases s user id0 body with ⟨hs, _⟩ | ⟨a0, hf0, _, _, _, hres⟩
    · rw [hs]; exact ⟨a, hf, rfl⟩
    · rw [hres]
      exact Appointment.findById_save_amount hf hf0 rfl rfl
  | complete user id0 body =>
    simp only [Call.exec]
    rcases completeAppointment_cases s user id0 body with ⟨hs, _⟩ | ⟨a0, hf0, _, hres⟩
    · rw [hs]; exact ⟨a, hf, rfl⟩
    · rw [hres]
      exact Appointment.findById_save_amount hf hf0 rfl rfl

/-- C13 (amended): for every stored appointment, after any sequence of
`cancelAppointment` and `completeAppointment` calls and of `updateAppointment`
calls whose body does not write `amount`, neither as a top-level key nor
through an update operator (and of `createAppointment` calls), by any users
with any bodies, the appointment is still stored and its `amount` is the one it
had before the sequence. -/
theorem runCalls_keeps_amount (s : Store) (calls : List Call) (id : ObjectId)
    (a : Appointment)
    (hf : Appointment.findById s.appointments id = some a)
    (hcalls : ∀ c ∈ calls, c.keepsAmount = true) :
    ∃ a2, Appointment.findById (runCalls s calls).appointments id = some a2 ∧
      a2.amount = a.amount := by
  induction calls generalizing s a with
  | nil => exact ⟨a, hf, rfl⟩
  | cons c rest ih =>
    obtain ⟨a1, hf1, ham1⟩ :=
      Call.exec_keeps_amount s c (hcalls c (List.mem_cons_self c rest)) id a hf
    have hrest : ∀ c2 ∈ rest, c2.keepsAmount = true :=
      fun c2 hc2 => hcalls c2 (List.mem_cons_of_mem c hc2)
    obtain ⟨a2, hf2, ham2⟩ := ih (c.exec s) a1 hf1 hrest
    refine ⟨a2, ?_, ham2.trans ham1⟩
    simpa [runCalls] using hf2

/-- C13 (counterexample): the patient sends `amount: 0` to `updateAppointment`
for her appointment of amount 150; the stored amount becomes 0. It also becomes
0 when she sends `{"$inc": {"amount": -150}}`. -/
theorem updateAppointment_changes_amount :
    (Appointment.findById (clinicWith (visit Status.pending)).appointments 100).map
        (fun d => d.amount) = some 150 ∧
    (Appointment.findById
        (runCalls (clinicWith (visit Status.pending))
          [Call.update alice 100 { noChange with amount := some 0 }]).appointments 100).map
        (fun d => d.amount) = some 0 ∧
    (Appointment.findById
        (runCalls (clinicWith (visit Status.pending))
          [Call.update alice 100 (incAmount (-150))]).appointments 100).map
        (fun d => d.amount) = some 0 := by
  refine ⟨?_, ?_, ?_⟩ <;> decide

/-- C13 (witness): a change of the reason with a `$set` of the status, a
completion and a refused cancellation leave the amount 150 of alice's
appointment. -/
theorem runCalls_keeps_amount_witness :
    (Appointment.findById (clinicWith (visit Status.pending)).appointments 100
        = some (visit Status.pending) ∧
      ∀ c ∈ afterTheVisit, c.keepsAmount = true) ∧
    ∃ a2, Appointment.findById
        (runCalls (clinicWith (visit Status.pending)) afterTheVisit).appointments 100
          = some a2 ∧
      a2.amount = (visit Status.pending).amount :=
  ⟨⟨rfl, by decide⟩,
   runCalls_keeps_amount (clinicWith (visit Status.pending)) afterTheVisit 100
     (visit Status.pending) rfl (by decide)⟩

/-! ## The authorization tests -/

/-- C14 (failing input): the user `grey` owns the profile `drGrey` that the
appointment refers to. `getAppointmentById` lets him read the appointment, but
`updateAppointment` and `cancelAppointment` answer 403 and change nothing: they
compare the user id with the id of the profile. -/
theorem update_cancel_refuse_profile_owner :
    Doctor.findById (ward (visit Status.pending)).doctors
        (some (visit Status.pending).doctorId) = some drGrey ∧
    drGrey.userId = grey._id ∧
    getAppointmentById (ward (visit Status.pending)) grey 100 =
      ({ status := 200, body := Payload.appointment (visit Status.pending) },
       ward (visit Status.pending)) ∧
    updateAppointment (ward (visit Status.pending)) grey 100
        { noChange with notes := some "bring the results" } =
      ({ status := 403, body := Payload.message "Not authorized to update this appointment" },
       ward (visit Status.pending)) ∧
    cancelAppointment (ward (visit Status.pending)) grey 100
        { cancellationReason := some "on leave" } =
      ({ status := 403, body := Payload.message "Not authorized to cancel this appointment" },
       ward (visit Status.pending)) := by
  refine ⟨rfl, rfl, ?_, ?_, ?_⟩ <;> decide

/-- C15 (failing input): the profile `drGrey` is deleted, then `bob`, who is
not an administrator, not the patient and owns no profile, asks for alice's
appointment with `drGrey`: `getAppointmentById` answers 500, not 403, because
the populated `doctorId` is `null` when its `userId` is read. -/
theorem getAppointmentById_after_deleteDoctor :
    (deleteDoctor (ward (visit Status.pending)) 10).1 =
      { status := 200, body := Payload.message "Doctor removed" } ∧
    Doctor.findById (deleteDoctor (ward (visit Status.pending)) 10).2.doctors
        (some (visit Status.pending).doctorId) = none ∧
    bob.role ≠ Role.admin ∧
    bob._id ≠ (visit Status.pending).patientId ∧
    (∀ d ∈ (ward (visit Status.pending)).doctors, d.userId ≠ bob._id) ∧
    getAppointmentById (deleteDoctor (ward (visit Status.pending)) 10).2 bob 100 =
      ({ status := 500, body := Payload.message "Server error" },
       (deleteDoctor (ward (visit Status.pending)) 10).2) := by
  refine ⟨?_, ?_, ?_, ?_, ?_, ?_⟩ <;> decide

/-- C16: a user whose role is admin never gets 403 from `getAppointmentById`,
`updateAppointment`, `cancelAppointment`, `completeAppointment` or
`updateDoctor`, whatever the user's id; for a stored appointment the read and
the completion answer 200. -/
theorem admin_never_forbidden (s : Store) (user : User) (id : ObjectId)
    (hadmin : user.role = Role.admin) :
    (getAppointmentById s user id).1.status ≠ 403 ∧
    (∀ body, (updateAppointment s user id body).1.status ≠ 403) ∧
    (∀ body, (cancelAppointment s user id body).1.status ≠ 403) ∧
    (∀ body, (completeAppointment s user id body).1.status ≠ 403) ∧
    (∀ body, (updateDoctor s user id body).1.status ≠ 403) ∧
    (∀ a, Appointment.findById s.appointments id = some a →
      (getAppointmentById s user id).1.status = 200 ∧
      ∀ body, (completeAppointment s user id body).1.status = 200) := by
  have hauth : ∀ a, notAuthorized user a = false := by
    intro a
    simp [notAuthorized, hadmin]
  refine ⟨?_, ?_, ?_, ?_, ?_, ?_⟩
  · cases hf : Appointment.findById s.appointments id with
    | none => simp [getAppointmentById, hf]
    | some a => simp [getAppointmentById, hf, hadmin]
  · intro body
    cases hf : Appointment.findById s.appointments id with
    | none => simp [updateAppointment, hf]
    | some a =>
      cases hu : a.applyUpdate body with
      | none => simp [updateAppointment, hf, hauth a, hu, serverError]
      | some u => simp [updateAppointment, hf, hauth a, hu]
  · intro body
    cases hf : Appointment.findById s.appointments id with
    | none => simp [cancelAppointment, hf]
    | some a =>
      by_cases hst : a.status = Status.completed ∨ a.status = Status.cancelled
      · rcases hst with h | h <;> simp [cancelAppointment, hf, hauth a, h]
      · have h1 : a.status ≠ Status.completed := fun h => hst (Or.inl h)
        have h2 : a.status ≠ Status.cancelled := fun h => hst (Or.inr h)
        simp [cancelAppointment, hf, hauth a, h1, h2]
  · intro body
    cases hf : Appointment.findById s.appointments id with
    | none => simp [completeAppointment, hf]
    | some a => simp [completeAppointment, hf, hadmin]
  · intro body
    cases hf : Doctor.findById s.doctors (some id) with
    | none => simp [updateDoctor, hf]
    | some d =>
      cases hu : d.applyUpdate body with
      | none => simp [updateDoctor, hf, hadmin, hu, serverError]
      | some u => simp [updateDoctor, hf, hadmin, hu]
  · intro a hf
    constructor
    · simp [getAppointmentById, hf, hadmin]
    · intro body
      simp [completeAppointment, hf, hadmin]

/-- C16 (witness): the administrator `root`, who is neither patient nor doctor
of the appointment and owns no profile, on the ward. -/
theorem admin_never_forbidden_witness :
    root.role = Role.admin ∧
    (getAppointmentById (ward (visit Status.pending)) root 100).1.status = 200 ∧
    (completeAppointment (ward (visit Status.pending)) root 100
        { prescription := none, notes := none }).1.status = 200 ∧
    (updateDoctor (ward (visit Status.pending)) root 100
        { noDoctorChange with isAvailable := some false }).1.status ≠ 403 :=
  ⟨rfl,
   ((admin_never_forbidden (ward (visit Status.pending)) root 100 rfl).2.2.2.2.2
      (visit Status.pending) rfl).1,
   ((admin_never_forbidden (ward (visit Status.pending)) root 100 rfl).2.2.2.2.2
      (visit Status.pending) rfl).2 { prescription := none, notes := none },
   (admin_never_forbidden (ward (visit Status.pending)) root 100 rfl).2.2.2.2.1
      { noDoctorChange with isAvailable := some false }⟩

/-! ## The list handlers -/

theorem Status.toString_length (st : Status) : st.toString.length ≠ 0 := by
  cases st <;> decide

theorem Status.toString_inj (a b : Status) : a.toString = b.toString ↔ a = b := by
  cases a <;> cases b <;> decide

theorem statusFilter_toString (status : Option Status) (a : Appointment) :
    statusFilter (status.map Status.toString) a =
      (match status with
       | none => true
       | some st => decide (a.status = st)) := by
  cases status with
  | none => rfl
  | some st =>
    simp only [statusFilter, Option.map_some', Status.toString_length, if_false]
    by_cases h : a.status = st
    · simp [h]
    · have h2 : ¬ a.status.toString = st.toString := fun h3 =>
        h ((Status.toString_inj a.status st).mp h3)
      simp [h, h2]

theorem dateFilter_eq (nextDay : Date → Date) (date : Option Date) (a : Appointment) :
    dateFilter nextDay date a =
      (match date with
       | none => true
       | some d => decide (d ≤ a.appointmentDate ∧ a.appointmentDate < nextDay d)) := by
  cases date with
  | none => rfl
  | some d => simp [dateFilter, Bool.decide_and]

instance sortKeyLe.isTotal : IsTotal Appointment sortKeyLe :=
  ⟨fun a b => by
    unfold sortKeyLe
    rcases lt_trichotomy a.appointmentDate b.appointmentDate with h | h | h
    · exact Or.inl (Or.inl h)
    · rcases le_total a.startTime b.startTime with h2 | h2
      · exact Or.inl (Or.inr ⟨h, h2⟩)
      · exact Or.inr (Or.inr ⟨h.symm, h2⟩)
    · exact Or.inr (Or.inl h)⟩

instance sortKeyLe.isTrans : IsTrans Appointment sortKeyLe :=
  ⟨fun a b c hab hbc => by
    unfold sortKeyLe at hab hbc ⊢
    rcases hab with h1 | ⟨h1, h2⟩
    · rcases hbc with h3 | ⟨h3, _⟩
      · exact Or.inl (lt_trans h1 h3)
      · exact Or.inl (h3 ▸ h1)
    · rcases hbc with h3 | ⟨h3, h4⟩
      · exact Or.inl (h1 ▸ h3)
      · exact Or.inr ⟨h1.trans h3, le_trans h2 h4⟩⟩

/-- What a list request with a valid or absent date answers. -/
theorem getUserAppointments_eq (nextDay : Date → Date) (s : Store) (id : ObjectId)
    (status : Option String) (date : Option Date) :
    getUserAppointments nextDay s id { status := status, date := date.map some } =
      ({ status := 200,
         body := Payload.appointments (Appointment.findSorted s.appointments
           (fun a => a.patientId == id && statusFilter status a && dateFilter nextDay date a)) },
       s) := by
  cases date <;> rfl

theorem getDoctorAppointments_eq (nextDay : Date → Date) (s : Store) (id : ObjectId)
    (status : Option String) (date : Option Date) :
    getDoctorAppointments nextDay s id { status := status, date := date.map some } =
      ({ status := 200,
         body := Payload.appointments (Appointment.findSorted s.appointments
           (fun a => a.doctorId == id && statusFilter status a && dateFilter nextDay date a)) },
       s) := by
  cases date <;> rfl

theorem Appointment.findSorted_perm (docs : List Appointment) (query : Appointment → Bool) :
    (Appointment.findSorted docs query).Perm (docs.filter query) :=
  List.perm_insertionSort sortKeyLe (docs.filter query)

theorem Appointment.findSorted_sorted (docs : List Appointment) (query : Appointment → Bool) :
    (Appointment.findSorted docs query).Pairwise sortKeyLe :=
  List.sorted_insertionSort sortKeyLe (docs.filter query)

/-- C17: for every store, id, optional status `status` and optional day
`date`, `getUserAppointments` (respectively `getDoctorAppointments`) answers
200 with a list that is a rearrangement of exactly the stored appointments
whose `patientId` (respectively `doctorId`) is the requested id, whose status
is `status` when a status is given, and whose `appointmentDate` `t` satisfies
`date ≤ t < nextDay date` when a day is given; so an appointment is in the
answer if and only if it is stored and matches. -/
theorem list_returns_exactly_requested (nextDay : Date → Date) (s : Store) (id : ObjectId)
    (status : Option Status) (date : Option Date) :
    (∃ docs,
      getUserAppointments nextDay s id
          { status := status.map Status.toString, date := date.map some } =
        ({ status := 200, body := Payload.appointments docs }, s) ∧
      docs.Perm (s.appointments.filter
        (requested nextDay (fun a => a.patientId) id status date)) ∧
      ∀ a, a ∈ docs ↔
        a ∈ s.appointments ∧ requested nextDay (fun a => a.patientId) id status date a = true) ∧
    (∃ docs,
      getDoctorAppointments nextDay s id
          { status := status.map Status.toString, date := date.map some } =
        ({ status := 200, body := Payload.appointments docs }, s) ∧
      docs.Perm (s.appointments.filter
        (requested nextDay (fun a => a.doctorId) id status date)) ∧
      ∀ a, a ∈ docs ↔
        a ∈ s.appointments ∧ requested nextDay (fun a => a.doctorId) id status date a = true) := by
  have hq1 : (fun a : Appointment => a.patientId == id
        && statusFilter (status.map Status.toString) a && dateFilter nextDay date a) =
      requested nextDay (fun a => a.patientId) id status date := by
    funext a
    simp only [requested, statusFilter_toString, dateFilter_eq]
    congr 2
  have hq2 : (fun a : Appointment => a.doctorId == id
        && statusFilter (status.map Status.toString) a && dateFilter nextDay date a) =
      requested nextDay (fun a => a.doctorId) id status date := by
    funext a
    simp only [requested, statusFilter_toString, dateFilter_eq]
    congr 2
  constructor
  · refine ⟨_, getUserAppointments_eq nextDay s id _ date, ?_, ?_⟩
    · rw [hq1]
      exact Appointment.findSorted_perm _ _
    · intro a
      rw [hq1, (Appointment.findSorted_perm _ _).mem_iff, List.mem_filter]
  · refine ⟨_, getDoctorAppointments_eq nextDay s id _ date, ?_, ?_⟩
    · rw [hq2]
      exact Appointment.findSorted_perm _ _
    · intro a
      rw [hq2, (Appointment.findSorted_perm _ _).mem_iff, List.mem_filter]

/-- C18: for every store and every filter, `getUserAppointments` and
`getDoctorAppointments` answer 200 with a list in ascending
(appointmentDate, startTime) order: of two consecutive entries `a`, `b` either
`a.appointmentDate` is before `b.appointmentDate`, or the dates are equal and
`a.startTime` is not after `b.startTime` in the order of strings. -/
theorem list_is_in_ascending_order (nextDay : Date → Date) (s : Store) (id : ObjectId)
    (status : Option String) (date : Option Date) :
    (∃ docs,
      getUserAppointments nextDay s id { status := status, date := date.map some } =
        ({ status := 200, body := Payload.appointments docs }, s) ∧
      docs.Chain' (fun a b => a.appointmentDate < b.appointmentDate ∨
        (a.appointmentDate = b.appointmentDate ∧ a.startTime ≤ b.startTime))) ∧
    (∃ docs,
      getDoctorAppointments nextDay s id { status := status, date := date.map some } =
        ({ status := 200, body := Payload.appointments docs }, s) ∧
      docs.Chain' (fun a b => a.appointmentDate < b.appointmentDate ∨
        (a.appointmentDate = b.appointmentDate ∧ a.startTime ≤ b.startTime))) := by
  constructor
  · refine ⟨_, getUserAppointments_eq nextDay s id status date, ?_⟩
    exact (Appointment.findSorted_sorted s.appointments _).chain'
  · refine ⟨_, getDoctorAppointments_eq nextDay s id status date, ?_⟩
    exact (Appointment.findSorted_sorted s.appointments _).chain'

/-- The `startTime` key is compared as a string: of two appointments on one
day at `9:00` and at `10:00`, the one at `10:00` comes first. -/
theorem findSorted_compares_startTime_as_string :
    Appointment.findSorted
        [{ visit Status.pending with startTime := "9:00" },
         { visit Status.pending with _id := 101, startTime := "10:00" }]
        (fun _ => true) =
      [{ visit Status.pending with _id := 101, startTime := "10:00" },
       { visit Status.pending with startTime := "9:00" }] := by
  have hlt : ("10:00" : String) < "9:00" := by
    rw [String.lt_iff_toList_lt]
    decide
  have hnot : ¬ sortKeyLe { visit Status.pending with startTime := "9:00" }
      { visit Status.pending with _id := 101, startTime := "10:00" } := by
    rintro (h | ⟨_, h⟩)
    · exact absurd h (by decide)
    · exact absurd hlt (not_lt.mpr h)
  simp only [Appointment.findSorted, List.filter_cons_of_pos, List.filter_nil,
    List.insertionSort, List.orderedInsert, hnot, if_false]

/-! ## Doctor profiles -/

theorem requiredString_eq_some {x : Option String} {v : String}
    (h : requiredString x = some v) : x = some v := by
  cases x with
  | none => simp [requiredString] at h
  | some w =>
    simp only [requiredString] at h
    split at h
    · exact absurd h (by simp)
    · exact h

theorem Doctor.create_keeps_keys {newId : ObjectId} {b : CreateDoctorBody} {doc : Doctor}
    (h : Doctor.create newId b = some doc) :
    some doc.userId = b.userId ∧ some doc.licenseNumber = b.licenseNumber := by
  unfold Doctor.create at h
  split at h
  · rename_i userId sp lic ex fee hu hsp hlic hex hfee
    split at h
    · cases h
      exact ⟨hu.symm, (requiredString_eq_some hlic).symm⟩
    · exact absurd h (by simp)
  · exact absurd h (by simp)

/-- Every way `createDoctor` can end. -/
theorem createDoctor_cases (s : Store) (body : CreateDoctorBody) (newId : ObjectId) :
    ((createDoctor s body newId).2 = s ∧ (createDoctor s body newId).1.status ≠ 201) ∨
    ∃ doc,
      (∀ d ∈ s.doctors, some d.userId ≠ body.userId) ∧
      (∀ d ∈ s.doctors, some d.licenseNumber ≠ body.licenseNumber) ∧
      Doctor.create newId body = some doc ∧
      createDoctor s body newId =
        ({ status := 201, body := Payload.doctor doc },
         { s with doctors := s.doctors ++ [doc],
                  users := User.setRole doc.userId Role.doctor s.users }) := by
  cases h1 : s.doctors.find? (fun d => some d.userId == body.userId) with
  | some d => left; simp [createDoctor, h1]
  | none =>
    cases h2 : s.doctors.find? (fun d => some d.licenseNumber == body.licenseNumber) with
    | some d => left; simp [createDoctor, h1, h2]
    | none =>
      cases h3 : Doctor.create newId body with
      | none => left; simp [createDoctor, h1, h2, h3, serverError]
      | some doc =>
        right
        refine ⟨doc, ?_, ?_, rfl, by simp [createDoctor, h1, h2, h3]⟩
        · intro d hd
          have := List.find?_eq_none.mp h1 d hd
          simpa using this
        · intro d hd
          have := List.find?_eq_none.mp h2 d hd
          simpa using this

/-- Replacing a stored profile by one with the same value of `f` keeps the
values of `f` over the collection. -/
theorem Doctor.map_save {β : Type} (f : Doctor → β) {docs : List Doctor} {u old : Doctor}
    (hf : Doctor.findById docs (some u._id) = some old) (h : f u = f old) :
    (Doctor.save u docs).map f = docs.map f := by
  induction docs with
  | nil => rfl
  | cons d rest ih =>
    unfold Doctor.findById at hf ih
    by_cases hid : d._id = u._id
    · have hold : d = old := by simpa [List.find?_cons, hid] using hf
      subst hold
      simp [Doctor.save, hid, h]
    · have hne : (some d._id == some u._id) = false := by simpa using hid
      have hne2 : (d._id == u._id) = false := by simpa using hid
      simp only [List.find?_cons, hne] at hf
      simp only [Doctor.save, hne2, Bool.false_eq_true, if_false, List.map_cons, ih hf]

theorem Doctor.applyUpdate_keeps_identity {d u : Doctor} {b : UpdateDoctorBody}
    (h : d.applyUpdate b = some u) :
    u._id = d._id ∧ u.userId = d.userId ∧ u.licenseNumber = d.licenseNumber := by
  unfold Doctor.applyUpdate at h
  split at h
  · split at h
    · cases h
      exact ⟨rfl, rfl, rfl⟩
    · exact absurd h (by simp)
  · exact absurd h (by simp)

/-- Every way `updateDoctor` can end. -/
theorem updateDoctor_cases (s : Store) (user : User) (id : ObjectId)
    (body : UpdateDoctorBody) :
    ((updateDoctor s user id body).2 = s ∧ (updateDoctor s user id body).1.status ≠ 200) ∨
    ∃ d u, Doctor.findById s.doctors (some id) = some d ∧
      (d.userId = user._id ∨ user.role = Role.admin) ∧
      d.applyUpdate body = some u ∧
      updateDoctor s user id body =
        ({ status := 200, body := Payload.doctor u },
         { s with doctors := Doctor.save u s.doctors }) := by
  cases hf : Doctor.findById s.doctors (some id) with
  | none => left; simp [updateDoctor, hf]
  | some d =>
    by_cases hauth : d.userId = user._id ∨ user.role = Role.admin
    · cases hu : d.applyUpdate body with
      | none =>
        left
        rcases hauth with h | h <;> simp [updateDoctor, hf, h, hu, serverError]
      | some u =>
        right
        refine ⟨d, u, rfl, hauth, hu, ?_⟩
        rcases hauth with h | h <;> simp [updateDoctor, hf, h, hu]
    · left
      have h1 : d.userId ≠ user._id := fun h => hauth (Or.inl h)
      have h2 : user.role ≠ Role.admin := fun h => hauth (Or.inr h)
      simp [updateDoctor, hf, h1, h2]

/-- A doctor call keeps both uniqueness invariants of the profiles. -/
theorem DoctorCall.exec_unique (s : Store) (c : DoctorCall)
    (h : userIdsUnique s.doctors ∧ licenseNumbersUnique s.doctors) :
    userIdsUnique (c.exec s).doctors ∧ licenseNumbersUnique (c.exec s).doctors := by
  cases c with
  | create body newId =>
    simp only [DoctorCall.exec]
    rcases createDoctor_cases s body newId with ⟨hs, _⟩ | ⟨doc, hu, hl, hcr, hres⟩
    · rw [hs]; exact h
    · rw [hres]
      obtain ⟨hdu, hdl⟩ := Doctor.create_keeps_keys hcr
      unfold userIdsUnique licenseNumbersUnique at h ⊢
      simp only [List.map_append, List.map_cons, List.map_nil]
      constructor
      · refine List.nodup_append.mpr ⟨h.1, List.nodup_singleton _, ?_⟩
        intro x hx hx2
        obtain ⟨d, hd, rfl⟩ := List.mem_map.mp hx
        have hx3 : d.userId = doc.userId := by simpa using hx2
        exact hu d hd (by rw [hx3, hdu])
      · refine List.nodup_append.mpr ⟨h.2, List.nodup_singleton _, ?_⟩
        intro x hx hx2
        obtain ⟨d, hd, rfl⟩ := List.mem_map.mp hx
        have hx3 : d.licenseNumber = doc.licenseNumber := by simpa using hx2
        exact hl d hd (by rw [hx3, hdl])
  | update user id body =>
    simp only [DoctorCall.exec]
    rcases updateDoctor_cases s user id body with ⟨hs, _⟩ | ⟨d, u, hf, _, hu, hres⟩
    · rw [hs]; exact h
    · rw [hres]
      obtain ⟨hid, huid, hlic⟩ := Doctor.applyUpdate_keeps_identity hu
      have hf2 : Doctor.findById s.doctors (some u._id) = some d := by
        have hdid := (Doctor.findById_some_id hf).2
        rw [hid, hdid]
        exact hf
      unfold userIdsUnique licenseNumbersUnique at h ⊢
      constructor
      · show ((Doctor.save u s.doctors).map (fun d => d.userId)).Nodup
        rw [Doctor.map_save (fun d => d.userId) hf2 huid]
        exact h.1
      · show ((Doctor.save u s.doctors).map (fun d => d.licenseNumber)).Nodup
        rw [Doctor.map_save (fun d => d.licenseNumber) hf2 hlic]
        exact h.2
  | delete id =>
    simp only [DoctorCall.exec]
    cases hf : Doctor.findById s.doctors (some id) with
    | none =>
      have hres : (deleteDoctor s id).2 = s := by simp [deleteDoctor, hf]
      rw [hres]; exact h
    | some d =>
      have hres : (deleteDoctor s id).2.doctors =
          s.doctors.eraseP (fun d => d._id == id) := by
        simp [deleteDoctor, hf]
      rw [hres]
      unfold userIdsUnique licenseNumbersUnique at h ⊢
      exact ⟨List.Nodup.sublist ((List.eraseP_sublist s.doctors).map _) h.1,
        List.Nodup.sublist ((List.eraseP_sublist s.doctors).map _) h.2⟩

/-- C19: in every store reached from a store without doctor profiles by a
sequence of `createDoctor`, `updateDoctor` and `deleteDoctor` calls, no two
profiles have the same `userId` and no two have the same `licenseNumber`. -/
theorem runDoctorCalls_unique (s : Store) (calls : List DoctorCall)
    (hempty : s.doctors = []) :
    userIdsUnique (runDoctorCalls s calls).doctors ∧
      licenseNumbersUnique (runDoctorCalls s calls).doctors := by
  have hbase : userIdsUnique s.doctors ∧ licenseNumbersUnique s.doctors := by
    rw [hempty]
    exact ⟨List.nodup_nil, List.nodup_nil⟩
  clear hempty
  induction calls generalizing s with
  | nil => exact hbase
  | cons c rest ih =>
    have hstep := DoctorCall.exec_unique s c hbase
    simpa [runDoctorCalls] using ih (c.exec s) hstep

/-- C19 (witness): two creations, a refused creation with a used license
number, an update that carries another license number in its body and a
deletion, from the clinic without profiles; one profile is left. -/
theorem runDoctorCalls_unique_witness :
    newClinic.doctors = [] ∧
    ((runDoctorCalls newClinic staffing).doctors.map
        (fun d => (d._id, d.userId, d.licenseNumber, d.consultationFee))
      = [(10, 3, "LIC-1", 120)]) ∧
    userIdsUnique (runDoctorCalls newClinic staffing).doctors ∧
    licenseNumbersUnique (runDoctorCalls newClinic staffing).doctors :=
  ⟨rfl, by decide, runDoctorCalls_unique newClinic staffing rfl⟩

/-- After `Doctor.save`, the id of a stored profile that was replaced finds
the saved profile. -/
theorem Doctor.findById_after_save {docs : List Doctor} {id : ObjectId} {d u : Doctor}
    (hf : Doctor.findById docs (some id) = some d) (hu : u._id = d._id) :
    Doctor.findById (Doctor.save u docs) (some id) = some u := by
  have hdid : d._id = id := by
    have := (Doctor.findById_some_id hf).2
    simpa using this
  induction docs with
  | nil => simp [Doctor.findById] at hf
  | cons x rest ih =>
    unfold Doctor.findById at hf ih ⊢
    by_cases hx : x._id = id
    · have hxu : x._id = u._id := by rw [hx, hu, hdid]
      simp [Doctor.save, hxu, List.find?_cons, hu, hdid]
    · have hxu : ¬ x._id = u._id := by rw [hu, hdid]; exact hx
      have hne : (x._id == u._id) = false := by simpa using hxu
      have hne2 : (some x._id == some id) = false := by simpa using hx
      simp only [List.find?_cons, hne2] at hf
      simp only [Doctor.save, hne, Bool.false_eq_true, if_false, List.find?_cons, hne2]
      exact ih hf

theorem utf16Length_replicate (n : Nat) (c : Char) :
    utf16Length (String.mk (List.replicate n c)) =
      n * (if c.toNat < 65536 then 1 else 2) := by
  simp [utf16Length, List.map_replicate, List.sum_replicate]

theorem Doctor.applyUpdate_of_valid (d : Doctor) (b : UpdateDoctorBody)
    (hv : b.passesValidation = true) :
    d.applyUpdate b =
      some { d with
        specialization := b.specialization.getD d.specialization,
        experience := b.experience.getD d.experience,
        education := b.education.orElse (fun _ => d.education),
        certifications := b.certifications.getD d.certifications,
        languages := b.languages.getD d.languages,
        consultationFee := b.consultationFee.getD d.consultationFee,
        availability := b.availability.getD d.availability,
        bio := b.bio.orElse (fun _ => d.bio),
        isAvailable := b.isAvailable.getD d.isAvailable } := by
  simp only [UpdateDoctorBody.passesValidation, Bool.and_eq_true] at hv
  obtain ⟨⟨hsp, hav⟩, hbio⟩ := hv
  have hfields : ∀ {α : Type} (old : α) (x : Option α), setField old x = x.getD old := by
    intro α old x; cases x <;> rfl
  have hopt : ∀ {α : Type} (old : Option α) (x : Option α),
      setOptionalField old x = x.orElse (fun _ => old) := by
    intro α old x; cases x <;> rfl
  have hspec : setRequiredString d.specialization b.specialization =
      some (b.specialization.getD d.specialization) := by
    cases hb : b.specialization with
    | none => rfl
    | some v =>
      rw [hb] at hsp
      have hlen : ¬ v.length = 0 := by simpa using hsp
      simp [setRequiredString, requiredString, hlen]
  unfold Doctor.applyUpdate
  rw [hspec]
  simp only [hav, hbio, Bool.and_self, if_true, hfields, hopt]

/-- C20 (amended): for a stored doctor profile, `updateDoctor` answers 403
exactly when the user's id is not the profile's `userId` and the user's role
is not admin, and then leaves the store as it was; for the owner or an
administrator whose body passes the schema's validation it answers 200 and the
profile becomes the former one with the fields of the body written over it; in
every case the profile found under the id afterwards has the `userId` and the
`licenseNumber` it had before. -/
theorem updateDoctor_authorization (s : Store) (user : User) (id : ObjectId)
    (body : UpdateDoctorBody) (d : Doctor)
    (hf : Doctor.findById s.doctors (some id) = some d) :
    ((updateDoctor s user id body).1.status = 403 ↔
      ¬ (d.userId = user._id ∨ user.role = Role.admin)) ∧
    (¬ (d.userId = user._id ∨ user.role = Role.admin) →
      updateDoctor s user id body =
        ({ status := 403, body := Payload.message "Not authorized to update this doctor" },
         s)) ∧
    ((d.userId = user._id ∨ user.role = Role.admin) → body.passesValidation = true →
      (updateDoctor s user id body).1.status = 200 ∧
      Doctor.findById (updateDoctor s user id body).2.doctors (some id) =
        some { d with
          specialization := body.specialization.getD d.specialization,
          experience := body.experience.getD d.experience,
          education := body.education.orElse (fun _ => d.education),
          certifications := body.certifications.getD d.certifications,
          languages := body.languages.getD d.languages,
          consultationFee := body.consultationFee.getD d.consultationFee,
          availability := body.availability.getD d.availability,
          bio := body.bio.orElse (fun _ => d.bio),
          isAvailable := body.isAvailable.getD d.isAvailable }) ∧
    (∃ d2, Doctor.findById (updateDoctor s user id body).2.doctors (some id) = some d2 ∧
      d2.userId = d.userId ∧ d2.licenseNumber = d.licenseNumber) := by
  have hdenied : ¬ (d.userId = user._id ∨ user.role = Role.admin) →
      updateDoctor s user id body =
        ({ status := 403, body := Payload.message "Not authorized to update this doctor" },
         s) := by
    intro hauth
    have h1 : d.userId ≠ user._id := fun h => hauth (Or.inl h)
    have h2 : user.role ≠ Role.admin := fun h => hauth (Or.inr h)
    simp [updateDoctor, hf, h1, h2]
  refine ⟨?_, hdenied, ?_, ?_⟩
  · constructor
    · intro h403 hauth
      cases hu : d.applyUpdate body with
      | none =>
        have : (updateDoctor s user id body).1.status = 500 := by
          rcases hauth with h | h <;> simp [updateDoctor, hf, h, hu, serverError]
        omega
      | some u =>
        have : (updateDoctor s user id body).1.status = 200 := by
          rcases hauth with h | h <;> simp [updateDoctor, hf, h, hu]
        omega
    · intro hauth
      rw [hdenied hauth]
  · intro hauth hv
    have hu := Doctor.applyUpdate_of_valid d body hv
    have h200 : (updateDoctor s user id body).1.status = 200 := by
      rcases hauth with h | h <;> simp [updateDoctor, hf, h, hu]
    refine ⟨h200, ?_⟩
    rcases updateDoctor_cases s user id body with ⟨_, hne⟩ | ⟨d0, u, hf0, _, hu0, hres⟩
    · exact absurd h200 hne
    · rw [hf] at hf0
      cases hf0
      rw [hu] at hu0
      have hid := (Doctor.applyUpdate_keeps_identity (hu.trans hu0)).1
      rw [hres, Option.some.inj hu0]
      exact Doctor.findById_after_save hf hid
  · rcases updateDoctor_cases s user id body with ⟨hs, _⟩ | ⟨d0, u, hf0, _, hu, hres⟩
    · rw [hs]
      exact ⟨d, hf, rfl, rfl⟩
    · rw [hf] at hf0
      cases hf0
      obtain ⟨hid, huid, hlic⟩ := Doctor.applyUpdate_keeps_identity hu
      rw [hres]
      exact ⟨u, Doctor.findById_after_save hf hid, huid, hlic⟩

/-- C20 (counterexample): `grey`, the owner of the profile `drGrey`, sends a
`bio` of 501 characters; `updateDoctor` answers 500 and the profile is as
before, although the user is the owner. The same happens for a `bio` of 300
characters that take two UTF-16 code units each. -/
theorem updateDoctor_rejects_long_bio :
    Doctor.findById (ward (visit Status.pending)).doctors (some 10) = some drGrey ∧
    drGrey.userId = grey._id ∧
    updateDoctor (ward (visit Status.pending)) grey 10
        { noDoctorChange with bio := some longBio, consultationFee := some 200 } =
      ({ status := 500, body := Payload.message "Server error" },
       ward (visit Status.pending)) ∧
    emojiBio.length = 300 ∧
    updateDoctor (ward (visit Status.pending)) grey 10
        { noDoctorChange with bio := some emojiBio, consultationFee := some 200 } =
      ({ status := 500, body := Payload.message "Server error" },
       ward (visit Status.pending)) := by
  have hf : Doctor.findById (ward (visit Status.pending)).doctors (some 10) = some drGrey :=
    rfl
  have hlen : utf16Length longBio = 501 := by
    rw [longBio, utf16Length_replicate]
    decide
  have hbio : bioWithinLimit (some longBio) = false := by
    show decide (utf16Length longBio ≤ 500) = false
    rw [hlen]
    rfl
  have hnone : drGrey.applyUpdate
      { noDoctorChange with bio := some longBio, consultationFee := some 200 } = none := by
    simp [Doctor.applyUpdate, noDoctorChange, setRequiredString, hbio]
  have hlen2 : utf16Length emojiBio = 600 := by
    rw [emojiBio, utf16Length_replicate]
    decide
  have hbio2 : bioWithinLimit (some emojiBio) = false := by
    show decide (utf16Length emojiBio ≤ 500) = false
    rw [hlen2]
    rfl
  have hnone2 : drGrey.applyUpdate
      { noDoctorChange with bio := some emojiBio, consultationFee := some 200 } = none := by
    simp [Doctor.applyUpdate, noDoctorChange, setRequiredString, hbio2]
  refine ⟨hf, rfl, ?_, List.length_replicate 300 '😀', ?_⟩
  · unfold updateDoctor
    rw [hf]
    simp only [hnone]
    rfl
  · unfold updateDoctor
    rw [hf]
    simp only [hnone2]
    rfl

/-- C20 (witness): `grey` raises the fee of his own profile and closes it for
bookings, with another `userId` and `licenseNumber` in the body. -/
theorem updateDoctor_authorization_witness :
    Doctor.findById (ward (visit Status.pending)).doctors (some 10) = some drGrey ∧
    (updateDoctor (ward (visit Status.pending)) grey 10
        { noDoctorChange with consultationFee := some 200, isAvailable := some false,
                              userId := some 1, licenseNumber := some "LIC-9" }).1.status
      = 200 ∧
    Doctor.findById
        (updateDoctor (ward (visit Status.pending)) grey 10
          { noDoctorChange with consultationFee := some 200, isAvailable := some false,
                                userId := some 1, licenseNumber := some "LIC-9" }).2.doctors
        (some 10) =
      some { drGrey with consultationFee := 200, isAvailable := false } :=
  ⟨rfl,
   (updateDoctor_authorization (ward (visit Status.pending)) grey 10
      { noDoctorChange with consultationFee := some 200, isAvailable := some false,
                            userId := some 1, licenseNumber := some "LIC-9" }
      drGrey rfl).2.2.1 (Or.inl rfl) rfl⟩

/-! ## The role written by createDoctor and deleteDoctor -/

theorem User.findById_setRole_same (users : List User) (id : ObjectId) (role : Role) :
    User.findById (User.setRole id role users) id =
      (User.findById users id).map (fun u => { u with role := role }) := by
  induction users with
  | nil => rfl
  | cons u rest ih =>
    unfold User.findById at ih ⊢
    by_cases h : u._id = id
    · simp [User.setRole, h, List.find?_cons]
    · have hne : (u._id == id) = false := by simpa using h
      simp only [User.setRole, hne, Bool.false_eq_true, if_false, List.find?_cons]
      exact ih

theorem User.findById_setRole_other (users : List User) (id other : ObjectId) (role : Role)
    (h : other ≠ id) :
    User.findById (User.setRole id role users) other = User.findById users other := by
  induction users with
  | nil => rfl
  | cons u rest ih =>
    unfold User.findById at ih ⊢
    by_cases hu : u._id = id
    · have hno : ¬ id = other := fun h2 => h h2.symm
      simp [User.setRole, hu, List.find?_cons, hno]
    · have hne : (u._id == id) = false := by simpa using hu
      simp only [User.setRole, hne, Bool.false_eq_true, if_false, List.find?_cons]
      cases hid : u._id == other with
      | true => rfl
      | false => exact ih

/-- With unique ids, the id of the erased profile finds nothing afterwards. -/
theorem Doctor.findById_eraseP_same (doctors : List Doctor) (id : ObjectId)
    (hids : (doctors.map (fun d => d._id)).Nodup) :
    Doctor.findById (doctors.eraseP (fun d => d._id == id)) (some id) = none := by
  induction doctors with
  | nil => rfl
  | cons d rest ih =>
    unfold Doctor.findById at ih ⊢
    have hrest : (rest.map (fun d => d._id)).Nodup := (List.nodup_cons.mp hids).2
    by_cases h : d._id = id
    · have hnot : d._id ∉ rest.map (fun d => d._id) := (List.nodup_cons.mp hids).1
      simp only [List.eraseP_cons, h, beq_self_eq_true, cond_true]
      apply List.find?_eq_none.mpr
      intro x hx hxid
      have hxid2 : x._id = id := by simpa using hxid
      exact hnot (List.mem_map.mpr ⟨x, hx, hxid2.trans h.symm⟩)
    · have hne : (d._id == id) = false := by simpa using h
      have hne2 : (some d._id == some id) = false := by simpa using h
      simp only [List.eraseP_cons, hne, cond_false, List.find?_cons, hne2]
      exact ih hrest

theorem Doctor.findById_eraseP_other (doctors : List Doctor) (id other : ObjectId)
    (h : other ≠ id) :
    Doctor.findById (doctors.eraseP (fun d => d._id == id)) (some other) =
      Doctor.findById doctors (some other) := by
  induction doctors with
  | nil => rfl
  | cons d rest ih =>
    unfold Doctor.findById at ih ⊢
    by_cases hd : d._id = id
    · have hno : ¬ id = other := fun h2 => h h2.symm
      simp [List.eraseP_cons, hd, List.find?_cons, hno]
    · have hne : (d._id == id) = false := by simpa using hd
      simp only [List.eraseP_cons, hne, cond_false, List.find?_cons]
      cases hid : (some d._id == some other) with
      | true => rfl
      | false => exact ih

/-- The effect of `deleteDoctor` for a cast id: with a stored profile `d` the
answer is 200, the profile is removed and the user of `d.userId` becomes a
patient; without one the answer is 404 and the store is as it was. -/
theorem deleteDoctor_of_cast_id (s : Store) (id : ObjectId) :
    (∀ d, Doctor.findById s.doctors (some id) = some d →
      (deleteDoctor s id).1 = { status := 200, body := Payload.message "Doctor removed" } ∧
      (deleteDoctor s id).2.doctors = s.doctors.eraseP (fun x => x._id == id) ∧
      ((s.doctors.map (fun x => x._id)).Nodup →
        Doctor.findById (deleteDoctor s id).2.doctors (some id) = none) ∧
      (∀ other, other ≠ id →
        Doctor.findById (deleteDoctor s id).2.doctors (some other) =
          Doctor.findById s.doctors (some other)) ∧
      (∀ u, User.findById s.users d.userId = some u →
        User.findById (deleteDoctor s id).2.users d.userId =
          some { u with role := Role.patient }) ∧
      (∀ uid, uid ≠ d.userId →
        User.findById (deleteDoctor s id).2.users uid = User.findById s.users uid) ∧
      (deleteDoctor s id).2.appointments = s.appointments) ∧
    (Doctor.findById s.doctors (some id) = none →
      deleteDoctor s id =
        ({ status := 404, body := Payload.message "Doctor not found" }, s)) := by
  constructor
  · intro d hf
    have hres : deleteDoctor s id =
        ({ status := 200, body := Payload.message "Doctor removed" },
         { s with users := User.setRole d.userId Role.patient s.users,
                  doctors := s.doctors.eraseP (fun x => x._id == id) }) := by
      unfold deleteDoctor
      rw [hf]
    rw [hres]
    refine ⟨rfl, rfl, ?_, ?_, ?_, ?_, rfl⟩
    · intro hids
      exact Doctor.findById_eraseP_same s.doctors id hids
    · intro other hne
      exact Doctor.findById_eraseP_other s.doctors id other hne
    · intro u hu
      show User.findById (User.setRole d.userId Role.patient s.users) d.userId = _
      rw [User.findById_setRole_same, hu]
      rfl
    · intro uid hne
      exact User.findById_setRole_other s.users d.userId uid Role.patient hne
  · intro hf
    unfold deleteDoctor
    rw [hf]

/-- C21 (amended): for a route parameter that casts to the id of a stored
doctor profile `d`, `deleteDoctor` answers 200 and removes the profile (with
unique profile ids the id finds nothing afterwards and every other id finds
what it found before); the user that `d.userId` refers to, when there is one,
is still stored with `role = patient` and every other field as before; every
other user and every appointment is unchanged. For a parameter that casts to
an ObjectId that no profile has, the answer is 404 and the store is as it was.
For a parameter that does not cast to an ObjectId the answer is 500
`Server error` and the store is as it was. -/
theorem deleteDoctorRequest_effect (s : Store) (param : IdText) :
    (∀ id d, param.cast = some id → Doctor.findById s.doctors (some id) = some d →
      (deleteDoctorRequest s param).1 =
        { status := 200, body := Payload.message "Doctor removed" } ∧
      (deleteDoctorRequest s param).2.doctors = s.doctors.eraseP (fun x => x._id == id) ∧
      ((s.doctors.map (fun x => x._id)).Nodup →
        Doctor.findById (deleteDoctorRequest s param).2.doctors (some id) = none) ∧
      (∀ other, other ≠ id →
        Doctor.findById (deleteDoctorRequest s param).2.doctors (some other) =
          Doctor.findById s.doctors (some other)) ∧
      (∀ u, User.findById s.users d.userId = some u →
        User.findById (deleteDoctorRequest s param).2.users d.userId =
          some { u with role := Role.patient }) ∧
      (∀ uid, uid ≠ d.userId →
        User.findById (deleteDoctorRequest s param).2.users uid =
          User.findById s.users uid) ∧
      (deleteDoctorRequest s param).2.appointments = s.appointments) ∧
    (∀ id, param.cast = some id → Doctor.findById s.doctors (some id) = none →
      deleteDoctorRequest s param =
        ({ status := 404, body := Payload.message "Doctor not found" }, s)) ∧
    (param.cast = none →
      deleteDoctorRequest s param =
        ({ status := 500, body := Payload.message "Server error" }, s)) := by
  refine ⟨?_, ?_, ?_⟩
  · intro id d hcast hf
    have hreq : deleteDoctorRequest s param = deleteDoctor s id := by
      unfold deleteDoctorRequest
      rw [hcast]
    rw [hreq]
    exact (deleteDoctor_of_cast_id s id).1 d hf
  · intro id hcast hf
    have hreq : deleteDoctorRequest s param = deleteDoctor s id := by
      unfold deleteDoctorRequest
      rw [hcast]
    rw [hreq]
    exact (deleteDoctor_of_cast_id s id).2 hf
  · intro hcast
    unfold deleteDoctorRequest
    rw [hcast]
    rfl

/-- C21 (counterexample): `DELETE /api/doctors/abc`. The parameter is the id of
no stored profile, yet the answer is 500 `Server error` and not 404. -/
theorem deleteDoctorRequest_malformed_id :
    (∀ d ∈ (ward (visit Status.pending)).doctors, IdText.malformed.cast ≠ some d._id) ∧
    deleteDoctorRequest (ward (visit Status.pending)) IdText.malformed =
      ({ status := 500, body := Payload.message "Server error" },
       ward (visit Status.pending)) ∧
    (deleteDoctorRequest (ward (visit Status.pending)) IdText.malformed).1.status ≠ 404 := by
  refine ⟨?_, rfl, ?_⟩
  · intro d _ h
    cases h
  · decide

/-- C21 (witness): the profile `drGrey` of user `grey` is deleted from the
ward; `grey` becomes a patient, `alice` and the appointment stay as they were;
the unknown id 77 is answered 404. -/
theorem deleteDoctorRequest_effect_witness :
    Doctor.findById (ward (visit Status.pending)).doctors (some 10) = some drGrey ∧
    Doctor.findById
        (deleteDoctorRequest (ward (visit Status.pending)) (IdText.objectId 10)).2.doctors
        (some 10) = none ∧
    User.findById
        (deleteDoctorRequest (ward (visit Status.pending)) (IdText.objectId 10)).2.users
        drGrey.userId = some { grey with role := Role.patient } ∧
    User.findById
        (deleteDoctorRequest (ward (visit Status.pending)) (IdText.objectId 10)).2.users 1
      = some alice ∧
    (deleteDoctorRequest (ward (visit Status.pending)) (IdText.objectId 10)).2.appointments
      = [visit Status.pending] ∧
    deleteDoctorRequest (ward (visit Status.pending)) (IdText.objectId 77) =
      ({ status := 404, body := Payload.message "Doctor not found" },
       ward (visit Status.pending)) :=
  ⟨rfl,
   ((deleteDoctorRequest_effect (ward (visit Status.pending)) (IdText.objectId 10)).1
      10 drGrey rfl rfl).2.2.1 (by decide),
   ((deleteDoctorRequest_effect (ward (visit Status.pending)) (IdText.objectId 10)).1
      10 drGrey rfl rfl).2.2.2.2.1 grey rfl,
   ((deleteDoctorRequest_effect (ward (visit Status.pending)) (IdText.objectId 10)).1
      10 drGrey rfl rfl).2.2.2.2.2.1 1 (by decide),
   ((deleteDoctorRequest_effect (ward (visit Status.pending)) (IdText.objectId 10)).1
      10 drGrey rfl rfl).2.2.2.2.2.2,
   (deleteDoctorRequest_effect (ward (visit Status.pending)) (IdText.objectId 77)).2.1
      77 rfl rfl⟩

/-- C22: `createDoctor` answers 400 and leaves the store as it was when a
profile already exists for the `userId`, and when the `licenseNumber` is
already used; whenever the answer is not 201 the store, users included, is as
it was; when the answer is 201 exactly one profile, carrying the `userId` of
the request, is appended, the user with that id (when there is one) gets
`role = doctor` with every other field as before, and every other user and
every appointment is unchanged. -/
theorem createDoctor_role_after_write (s : Store) (body : CreateDoctorBody)
    (newId : ObjectId) :
    ((∃ d ∈ s.doctors, some d.userId = body.userId) →
      createDoctor s body newId =
        ({ status := 400,
           body := Payload.message "Doctor profile already exists for this user" }, s)) ∧
    ((∀ d ∈ s.doctors, some d.userId ≠ body.userId) →
      (∃ d ∈ s.doctors, some d.licenseNumber = body.licenseNumber) →
      createDoctor s body newId =
        ({ status := 400, body := Payload.message "License number already exists" }, s)) ∧
    ((createDoctor s body newId).1.status ≠ 201 → (createDoctor s body newId).2 = s) ∧
    ((createDoctor s body newId).1.status = 201 →
      ∃ doc, some doc.userId = body.userId ∧
        (createDoctor s body newId).1.body = Payload.doctor doc ∧
        (createDoctor s body newId).2.doctors = s.doctors ++ [doc] ∧
        (createDoctor s body newId).2.appointments = s.appointments ∧
        (∀ u, User.findById s.users doc.userId = some u →
          User.findById (createDoctor s body newId).2.users doc.userId =
            some { u with role := Role.doctor }) ∧
        (∀ uid, uid ≠ doc.userId →
          User.findById (createDoctor s body newId).2.users uid =
            User.findById s.users uid)) := by
  refine ⟨?_, ?_, ?_, ?_⟩
  · rintro ⟨d, hd, hsame⟩
    cases h1 : s.doctors.find? (fun d => some d.userId == body.userId) with
    | some d0 => simp [createDoctor, h1]
    | none =>
      have := List.find?_eq_none.mp h1 d hd
      exact absurd hsame (by simpa using this)
  · rintro hnone ⟨d, hd, hsame⟩
    have h1 : s.doctors.find? (fun d => some d.userId == body.userId) = none := by
      apply List.find?_eq_none.mpr
      intro x hx
      simpa using hnone x hx
    cases h2 : s.doctors.find? (fun d => some d.licenseNumber == body.licenseNumber) with
    | some d0 => simp [createDoctor, h1, h2]
    | none =>
      have := List.find?_eq_none.mp h2 d hd
      exact absurd hsame (by simpa using this)
  · intro hne
    rcases createDoctor_cases s body newId with ⟨hs, _⟩ | ⟨doc, _, _, _, hres⟩
    · exact hs
    · rw [hres] at hne
      exact absurd rfl hne
  · intro h201
    rcases createDoctor_cases s body newId with ⟨_, hne⟩ | ⟨doc, _, _, hcr, hres⟩
    · exact absurd h201 hne
    · rw [hres]
      refine ⟨doc, (Doctor.create_keeps_keys hcr).1, rfl, rfl, rfl, ?_, ?_⟩
      · intro u hu
        show User.findById (User.setRole doc.userId Role.doctor s.users) doc.userId = _
        rw [User.findById_setRole_same, hu]
        rfl
      · intro uid hne
        exact User.findById_setRole_other s.users doc.userId uid Role.doctor hne

/-- C22 (witness): a second profile for user 3 and a profile with the used
license number `LIC-1` are refused with the ward unchanged; a profile for
`bob` is created and `bob` becomes a doctor. -/
theorem createDoctor_role_after_write_witness :
    createDoctor (ward (visit Status.pending)) (profileFor 3 "LIC-7") 12 =
      ({ status := 400,
         body := Payload.message "Doctor profile already exists for this user" },
       ward (visit Status.pending)) ∧
    createDoctor (ward (visit Status.pending)) (profileFor 2 "LIC-1") 12 =
      ({ status := 400, body := Payload.message "License number already exists" },
       ward (visit Status.pending)) ∧
    (createDoctor (ward (visit Status.pending)) (profileFor 2 "LIC-7") 12).1.status = 201 ∧
    ∃ doc, some doc.userId = (profileFor 2 "LIC-7").userId ∧
      (createDoctor (ward (visit Status.pending)) (profileFor 2 "LIC-7") 12).2.doctors
        = (ward (visit Status.pending)).doctors ++ [doc] ∧
      User.findById
          (createDoctor (ward (visit Status.pending)) (profileFor 2 "LIC-7") 12).2.users 2
        = some { bob with role := Role.doctor } := by
  refine ⟨?_, ?_, rfl, ?_⟩
  · exact (createDoctor_role_after_write (ward (visit Status.pending))
      (profileFor 3 "LIC-7") 12).1 ⟨drGrey, by decide, rfl⟩
  · exact (createDoctor_role_after_write (ward (visit Status.pending))
      (profileFor 2 "LIC-1") 12).2.1 (by decide) ⟨drGrey, by decide, rfl⟩
  · obtain ⟨doc, hid, _, hdocs, _, hrole, _⟩ :=
      (createDoctor_role_after_write (ward (visit Status.pending))
        (profileFor 2 "LIC-7") 12).2.2.2 rfl
    have hdoc : doc.userId = 2 := Option.some.inj hid
    refine ⟨doc, hid, hdocs, ?_⟩
    have := hrole bob (by rw [hdoc]; rfl)
    rw [hdoc] at this
    exact this

/-! ## Booking a slot again, and overlapping slots -/

/-- Saving, over the only document that satisfies `p`, a document that does
not satisfy `p` leaves no document that satisfies `p`. -/
theorem filter_save_of_only {p : Appointment → Bool} {docs : List Appointment}
    {u a : Appointment} (hf : Appointment.findById docs u._id = some a)
    (hu : p u = false) (honly : docs.filter p = [a]) :
    (Appointment.save u docs).filter p = [] := by
  induction docs with
  | nil => simp at honly
  | cons x rest ih =>
    unfold Appointment.findById at hf ih
    by_cases hid : x._id = u._id
    · have hxa : x = a := by simpa [List.find?_cons, hid] using hf
      subst hxa
      have hpx : p x = true := by
        have : x ∈ (x :: rest).filter p := by rw [honly]; exact List.mem_singleton_self x
        exact (List.mem_filter.mp this).2
      have hrest : rest.filter p = [] := by
        simpa [List.filter_cons, hpx] using honly
      simp [Appointment.save, hid, List.filter_cons, hu, hrest]
    · have hne : (x._id == u._id) = false := by simpa using hid
      simp only [List.find?_cons, hne] at hf
      have hmem : a ∈ rest := List.mem_of_find?_eq_some hf
      have hpa : p a = true := by
        have : a ∈ (x :: rest).filter p := by rw [honly]; exact List.mem_singleton_self a
        exact (List.mem_filter.mp this).2
      simp only [Appointment.save, hne, Bool.false_eq_true, if_false]
      cases hpx : p x with
      | true =>
        have hrest : rest.filter p = [] := by
          have h2 : x :: rest.filter p = [a] := by simpa [List.filter_cons, hpx] using honly
          exact (List.cons.inj h2).2
        have : a ∈ rest.filter p := List.mem_filter.mpr ⟨hmem, hpa⟩
        rw [hrest] at this
        exact absurd this (List.not_mem_nil a)
      | false =>
        have hrest : rest.filter p = [a] := by simpa [List.filter_cons, hpx] using honly
        simp [List.filter_cons, hpx, ih hf hrest]

/-- C25 (amended): let `a`, stored under `id`, be the only appointment of its
doctor at its date and start time with a status outside `cancelled` and
`no-show`. After a `cancelAppointment` call on `id` that answered 200, a
`createAppointment` call for the same doctor, date and start time whose body
passes the schema's validation, by a patient who has no appointment at that
date and start time with a status outside `cancelled` and `no-show`, answers
201 and appends one document, provided the doctor is stored with
`isAvailable = true`. -/
theorem createAppointment_after_cancel (s : Store) (user patient : User) (id : ObjectId)
    (a : Appointment) (reason : CancelBody) (body : CreateBody) (newId : ObjectId)
    (doctor : Doctor)
    (hf : Appointment.findById s.appointments id = some a)
    (honly : occupying a.doctorId a.appointmentDate a.startTime s.appointments = [a])
    (hcancel : (cancelAppointment s user id reason).1.status = 200)
    (hdoctorId : body.doctorId = some a.doctorId)
    (hdate : body.appointmentDate = some a.appointmentDate)
    (hstart : body.startTime = some a.startTime)
    (hvalid : body.passesValidation = true)
    (hpatient : ∀ b ∈ (cancelAppointment s user id reason).2.appointments,
      ¬ (b.patientId = patient._id ∧ b.appointmentDate = a.appointmentDate ∧
        b.startTime = a.startTime ∧ b.status ≠ Status.cancelled ∧
        b.status ≠ Status.noShow))
    (hdoctor : Doctor.findById (cancelAppointment s user id reason).2.doctors
      (some a.doctorId) = some doctor)
    (havailable : doctor.isAvailable = true) :
    ∃ doc, createAppointment (cancelAppointment s user id reason).2 patient body newId =
      ({ status := 201, body := Payload.appointment doc },
       { (cancelAppointment s user id reason).2 with
         appointments := (cancelAppointment s user id reason).2.appointments ++ [doc] }) := by
  rcases cancelAppointment_cases s user id reason with ⟨_, hne⟩ | ⟨a0, hf0, _, _, _, hres⟩
  · exact absurd hcancel hne
  · rw [hf] at hf0
    cases hf0
    rw [hres] at hpatient hdoctor ⊢
    have hfu : Appointment.findById s.appointments
        ({ a with status := Status.cancelled,
                  cancellationReason := reason.cancellationReason,
                  cancelledBy := some (cancelledByOf user a) } : Appointment)._id = some a := by
      show Appointment.findById s.appointments a._id = some a
      rw [(Appointment.findById_eq_some hf).2]
      exact hf
    have hfree := filter_save_of_only hfu
      (by simp [statusNotCancelledOrNoShow]) honly
    have h1 : findDoctorConflict
        (Appointment.save { a with status := Status.cancelled,
                                   cancellationReason := reason.cancellationReason,
                                   cancelledBy := some (cancelledByOf user a) }
                          s.appointments)
        body.doctorId a.appointmentDate body.startTime = none := by
      apply findDoctorConflict_eq_none.mpr
      rintro b hb ⟨hbd, hbdate, hbst, hbc, hbn⟩
      rw [hdoctorId] at hbd
      rw [hstart] at hbst
      have hbin : b ∈ (Appointment.save
          { a with status := Status.cancelled,
                   cancellationReason := reason.cancellationReason,
                   cancelledBy := some (cancelledByOf user a) }
          s.appointments).filter (fun b => b.doctorId == a.doctorId
            && b.appointmentDate == a.appointmentDate && b.startTime == a.startTime
            && statusNotCancelledOrNoShow b) := by
        apply List.mem_filter.mpr
        refine ⟨hb, ?_⟩
        simp [statusNotCancelledOrNoShow, Option.some.inj hbd, hbdate,
          Option.some.inj hbst, hbc, hbn]
      rw [hfree] at hbin
      exact absurd hbin (List.not_mem_nil b)
    have h2 : findPatientConflict
        (Appointment.save { a with status := Status.cancelled,
                                   cancellationReason := reason.cancellationReason,
                                   cancelledBy := some (cancelledByOf user a) }
                          s.appointments)
        patient._id a.appointmentDate body.startTime = none := by
      apply findPatientConflict_eq_none.mpr
      rintro b hb ⟨hbp, hbdate, hbst, hbc, hbn⟩
      rw [hstart] at hbst
      exact hpatient b hb ⟨hbp, hbdate, Option.some.inj hbst, hbc, hbn⟩
    simp only [CreateBody.passesValidation, Bool.and_eq_true] at hvalid
    obtain ⟨doc, hdoc⟩ := Appointment.create_isSome newId patient._id doctor._id
      a.appointmentDate body.symptoms doctor.consultationFee
      hvalid.1.1.1.2 hvalid.1.1.2 hvalid.1.2 hvalid.2
    refine ⟨doc, ?_⟩
    have hd2 : Doctor.findById s.doctors body.doctorId = some doctor := by
      rw [hdoctorId]; exact hdoctor
    simp [createAppointment, hd2, havailable, hdate, h1, h2, hdoc]

/-- C25 (counterexample): alice's appointment is the only one in the slot and
she cancels it; `drGrey` is stored with `isAvailable = true` and `bob` has no
appointment at all, yet his request for the freed slot, sent without `reason`,
is answered 500 and nothing is inserted. -/
theorem createAppointment_after_cancel_without_reason :
    occupying 10 1704844800000 "09:00" (clinicWith (visit Status.pending)).appointments
      = [visit Status.pending] ∧
    (cancelAppointment (clinicWith (visit Status.pending)) alice 100
        { cancellationReason := some "busy" }).1.status = 200 ∧
    Doctor.findById
        (cancelAppointment (clinicWith (visit Status.pending)) alice 100
          { cancellationReason := some "busy" }).2.doctors (some 10) = some drGrey ∧
    drGrey.isAvailable = true ∧
    (cancelAppointment (clinicWith (visit Status.pending)) alice 100
        { cancellationReason := some "busy" }).2.appointments.all
      (fun b => b.patientId != bob._id) = true ∧
    createAppointment
        (cancelAppointment (clinicWith (visit Status.pending)) alice 100
          { cancellationReason := some "busy" }).2
        bob (bookingWithoutReason 1704844800000 "09:00" "09:30") 101 =
      ({ status := 500, body := Payload.message "Server error" },
       (cancelAppointment (clinicWith (visit Status.pending)) alice 100
          { cancellationReason := some "busy" }).2) := by
  refine ⟨?_, ?_, ?_, ?_, ?_, ?_⟩ <;> decide

/-- C25 (witness): alice cancels her appointment, the only one in the slot,
and bob books the same slot of `drGrey`. -/
theorem createAppointment_after_cancel_witness :
    (Appointment.findById (clinicWith (visit Status.pending)).appointments 100
        = some (visit Status.pending) ∧
      occupying (visit Status.pending).doctorId (visit Status.pending).appointmentDate
          (visit Status.pending).startTime (clinicWith (visit Status.pending)).appointments
        = [visit Status.pending] ∧
      (cancelAppointment (clinicWith (visit Status.pending)) alice 100
          { cancellationReason := some "busy" }).1.status = 200 ∧
      (booking 1704844800000 "09:00" "09:30").passesValidation = true) ∧
    ∃ doc, createAppointment
        (cancelAppointment (clinicWith (visit Status.pending)) alice 100
          { cancellationReason := some "busy" }).2
        bob (booking 1704844800000 "09:00" "09:30") 101 =
      ({ status := 201, body := Payload.appointment doc },
       { (cancelAppointment (clinicWith (visit Status.pending)) alice 100
            { cancellationReason := some "busy" }).2 with
         appointments :=
           (cancelAppointment (clinicWith (visit Status.pending)) alice 100
              { cancellationReason := some "busy" }).2.appointments ++ [doc] }) :=
  ⟨⟨rfl, by decide, rfl, rfl⟩,
   createAppointment_after_cancel (clinicWith (visit Status.pending)) alice bob 100
     (visit Status.pending) { cancellationReason := some "busy" }
     (booking 1704844800000 "09:00" "09:30") 101 drGrey
     rfl (by decide) rfl rfl rfl rfl rfl (by decide) rfl rfl⟩

/-- The answer of `createAppointment` does not depend on which non-empty
`endTime` the body carries: the handler only stores it. -/
theorem createAppointment_status_ignores_endTime (s : Store) (user : User)
    (body : CreateBody) (newId : ObjectId) (end1 end2 : String)
    (h1 : end1.length ≠ 0) (h2 : end2.length ≠ 0) :
    (createAppointment s user { body with endTime := some end1 } newId).1.status =
      (createAppointment s user { body with endTime := some end2 } newId).1.status := by
  have hreq : ∀ e : String, e.length ≠ 0 → requiredString (some e) = some e := by
    intro e he
    simp [requiredString, he]
  cases hd : Doctor.findById s.doctors body.doctorId with
  | none => simp [createAppointment, hd]
  | some doctor =>
    cases ha : doctor.isAvailable with
    | false => simp [createAppointment, hd, ha]
    | true =>
      cases hdate : body.appointmentDate with
      | none => simp [createAppointment, hd, ha, hdate]
      | some date =>
        cases hc1 : findDoctorConflict s.appointments body.doctorId date body.startTime with
        | some c => simp [createAppointment, hd, ha, hdate, hc1]
        | none =>
          cases hc2 : findPatientConflict s.appointments user._id date body.startTime with
          | some c => simp [createAppointment, hd, ha, hdate, hc1, hc2]
          | none =>
            cases hst : requiredString body.startTime with
            | none =>
              simp [createAppointment, hd, ha, hdate, hc1, hc2, Appointment.create, hst,
                hreq end1 h1, hreq end2 h2]
            | some st =>
              cases hrs : requiredString body.reason with
              | none =>
                simp [createAppointment, hd, ha, hdate, hc1, hc2, Appointment.create, hst,
                  hrs, hreq end1 h1, hreq end2 h2]
              | some rs =>
                cases hty : castAppointmentType body.appointmentType with
                | none =>
                  simp [createAppointment, hd, ha, hdate, hc1, hc2, Appointment.create, hst,
                    hrs, hty, hreq end1 h1, hreq end2 h2]
                | some ty =>
                  simp [createAppointment, hd, ha, hdate, hc1, hc2, Appointment.create, hst,
                    hrs, hty, hreq end1 h1, hreq end2 h2]

/-- C26: in the clinic with the available doctor `drGrey`, alice books
09:00-09:30 and then bob books 09:15-09:45 on the same day. The two intervals
overlap and the start times differ; both `createAppointment` calls answer 201
and the store ends with two pending appointments of `drGrey` on that day. -/
theorem createAppointment_overlapping_intervals :
    Doctor.findById clinic.doctors (some 10) = some drGrey ∧ drGrey.isAvailable = true ∧
    alice._id ≠ bob._id ∧
    clockIntervalsOverlap "09:00" "09:30" "09:15" "09:45" ∧
    "09:00" ≠ "09:15" ∧
    (createAppointment clinic alice (booking 1704844800000 "09:00" "09:30") 100).1.status
      = 201 ∧
    (createAppointment
        (createAppointment clinic alice (booking 1704844800000 "09:00" "09:30") 100).2
        bob (booking 1704844800000 "09:15" "09:45") 101).1.status = 201 ∧
    (createAppointment
        (createAppointment clinic alice (booking 1704844800000 "09:00" "09:30") 100).2
        bob (booking 1704844800000 "09:15" "09:45") 101).2.appointments.map
        (fun a => (a.patientId, a.doctorId, a.appointmentDate, a.startTime, a.endTime,
          a.status)) =
      [(1, 10, 1704844800000, "09:00", "09:30", Status.pending),
       (2, 10, 1704844800000, "09:15", "09:45", Status.pending)] := by
  refine ⟨rfl, rfl, by decide, ⟨540, 570, 555, 585, ?_, ?_, ?_, ?_, by decide, by decide⟩,
    by decide, ?_, ?_, ?_⟩
  · decide
  · decide
  · decide
  · decide
  · decide
  · decide
  · decide

/-! ## signup and login -/

theorem find?_append_singleton_of_none {α : Type} {p : α → Bool} {l : List α} {x : α}
    (hnone : l.find? p = none) (hx : p x = true) : (l ++ [x]).find? p = some x := by
  rw [List.find?_append, hnone]
  simp [List.find?_cons, hx]

/-- C23 (amended): when the email of a signup request is not registered in
the store that serves the request (MongoDB when it is reachable, the in-memory
store otherwise) and, with MongoDB reachable, the `User` model accepts the
document, `signup` answers 201 with the fields of the new user; a following
`login` served by the same store with the same email and password answers 200
with the same `_id`, `name`, `email`, `phone` and `role`; with the same email
and any other password it answers 401. -/
theorem signup_then_login (mongoUp : Bool) (accepts : SignupBody → Bool) (s : AuthStores)
    (body : SignupBody) (newId : ObjectId)
    (hnew : (if mongoUp then Account.findOne s.users body.email
             else memoryStorage.findUserByEmail s.memory body.email) = none)
    (haccepts : mongoUp = true → accepts body = true) :
    (signup mongoUp accepts s body newId).1 =
      { status := 201,
        body := Payload.account newId body.name body.email body.phone
          (body.role.getD Role.patient) } ∧
    login mongoUp (signup mongoUp accepts s body newId).2
        { email := body.email, password := body.password } =
      { status := 200,
        body := Payload.account newId body.name body.email body.phone
          (body.role.getD Role.patient) } ∧
    (∀ password, password ≠ body.password →
      login mongoUp (signup mongoUp accepts s body newId).2
          { email := body.email, password := password } =
        { status := 401, body := Payload.message "Invalid email or password" }) := by
  have hemail : ((fun u : Account => u.email == body.email) (body.toAccount newId)) = true := by
    simp [SignupBody.toAccount]
  cases mongoUp with
  | true =>
    simp only [if_true] at hnew
    have hacc : accepts body = true := haccepts rfl
    have hres : signup true accepts s body newId =
        ({ status := 201, body := (body.toAccount newId).toPayload },
         { s with users := s.users ++ [body.toAccount newId] }) := by
      simp [signup, hnew, hacc]
    have hfind : Account.findOne (s.users ++ [body.toAccount newId]) body.email =
        some (body.toAccount newId) :=
      find?_append_singleton_of_none hnew hemail
    rw [hres]
    refine ⟨rfl, ?_, ?_⟩
    · simp only [login, if_true, hfind]
      simp [SignupBody.toAccount, Account.toPayload]
    · intro password hne
      have hne2 : ¬ body.password = password := fun h => hne h.symm
      simp only [login, if_true, hfind]
      simp [SignupBody.toAccount, hne2]
  | false =>
    simp only [Bool.false_eq_true, if_false] at hnew
    have hres : signup false accepts s body newId =
        ({ status := 201, body := (body.toAccount newId).toPayload },
         { s with memory := s.memory ++ [body.toAccount newId] }) := by
      simp [signup, hnew]
    have hfind : memoryStorage.findUserByEmail (s.memory ++ [body.toAccount newId])
        body.email = some (body.toAccount newId) :=
      find?_append_singleton_of_none hnew hemail
    rw [hres]
    refine ⟨rfl, ?_, ?_⟩
    · simp only [login, Bool.false_eq_true, if_false, hfind]
      simp [SignupBody.toAccount, Account.toPayload]
    · intro password hne
      have hne2 : ¬ body.password = password := fun h => hne h.symm
      simp only [login, Bool.false_eq_true, if_false, hfind]
      simp [SignupBody.toAccount, hne2]

/-- C23 (counterexample): the signup of `test-api.js` is served by MongoDB and
answers 201; the following login with the same email and password arrives
while MongoDB is unreachable, is served by `memoryStorage` and answers 401.
And with MongoDB reachable throughout and a `User` model that requires the
phone, the same signup without `phone` answers 201 from `memoryStorage` and
the following login answers 401. -/
theorem login_after_signup_in_other_store :
    Account.findOne noAccounts.users testUser.email = none ∧
    (signup true acceptsAll noAccounts testUser 500).1.status = 201 ∧
    login false (signup true acceptsAll noAccounts testUser 500).2
        { email := testUser.email, password := testUser.password } =
      { status := 401, body := Payload.message "Invalid email or password" } ∧
    (signup true requiresIdentityFields noAccounts { testUser with phone := none } 500).1.status
      = 201 ∧
    login true
        (signup true requiresIdentityFields noAccounts { testUser with phone := none } 500).2
        { email := testUser.email, password := testUser.password } =
      { status := 401, body := Payload.message "Invalid email or password" } := by
  refine ⟨rfl, ?_, ?_, ?_, ?_⟩ <;> decide

/-- C23 (witness): the signup and the login of `test-api.js`, both served by
MongoDB, and a login with another password. -/
theorem signup_then_login_witness :
    ((if true then Account.findOne noAccounts.users testUser.email
      else memoryStorage.findUserByEmail noAccounts.memory testUser.email) = none ∧
      (true = true → acceptsAll testUser = true)) ∧
    (signup true acceptsAll noAccounts testUser 500).1.status = 201 ∧
    login true (signup true acceptsAll noAccounts testUser 500).2
        { email := testUser.email, password := testUser.password } =
      { status := 200,
        body := Payload.account 500 (some "Test User") (some "test@example.com")
          (some "+1234567890") Role.patient } ∧
    login true (signup true acceptsAll noAccounts testUser 500).2
        { email := testUser.email, password := some "password124" } =
      { status := 401, body := Payload.message "Invalid email or password" } :=
  ⟨⟨rfl, fun _ => rfl⟩,
   congrArg Response.status
     (signup_then_login true acceptsAll noAccounts testUser 500 rfl (fun _ => rfl)).1,
   (signup_then_login true acceptsAll noAccounts testUser 500 rfl (fun _ => rfl)).2.1,
   (signup_then_login true acceptsAll noAccounts testUser 500 rfl (fun _ => rfl)).2.2
     (some "password124") (by decide)⟩

/-- When MongoDB is reachable and the `User` model rejects the document, the
inner `catch` of `signup` stores the user in `memoryStorage` and answers 201,
and a following login, served by MongoDB, answers 401. -/
theorem signup_rejected_document_then_login (accepts : SignupBody → Bool) (s : AuthStores)
    (body : SignupBody) (newId : ObjectId)
    (hnew : Account.findOne s.users body.email = none)
    (hrejects : accepts body = false) :
    (signup true accepts s body newId).1.status = 201 ∧
    (signup true accepts s body newId).2.users = s.users ∧
    login true (signup true accepts s body newId).2
        { email := body.email, password := body.password } =
      { status := 401, body := Payload.message "Invalid email or password" } := by
  have hres : signup true accepts s body newId =
      ({ status := 201, body := (body.toAccount newId).toPayload },
       { s with memory := s.memory ++ [body.toAccount newId] }) := by
    simp [signup, hnew, hrejects]
  rw [hres]
  refine ⟨rfl, rfl, ?_⟩
  simp [login, hnew]

/-! ## What a failure shows to the caller -/

/-- The failures of the appointment, doctor and auth controllers are answered
with one fixed body, and outside `development` so are those that reach the
error middleware of the server. -/
theorem generic_failure_responses (nodeEnv : Option String) (e1 e2 : Thrown)
    (hnot : nodeEnv ≠ some "development") :
    controllerCatch e1 = controllerCatch e2 ∧
      errorMiddleware nodeEnv e1 = errorMiddleware nodeEnv e2 := by
  constructor
  · rfl
  · simp [errorMiddleware, hnot]

/-- C24 (failing input): with `NODE_ENV = production`, `imageAnalysis` answers
a refused connection and a rejected API key with two different bodies, each
carrying the message of the thrown error; only the stack is withheld. -/
theorem imageAnalysis_shows_error_message :
    imageAnalysisCatch (some "production") connectionRefused =
      { status := 500,
        body := Payload.failure "connect ECONNREFUSED 10.0.0.5:443" none } ∧
    imageAnalysisCatch (some "production") keyRejected =
      { status := 500,
        body := Payload.failure "401 Incorrect API key provided: sk-test" none } ∧
    (imageAnalysisCatch (some "production") connectionRefused).body ≠
      (imageAnalysisCatch (some "production") keyRejected).body := by
  refine ⟨?_, ?_, ?_⟩ <;> decide

end DoctorAppointment
